import Mathlib

/-!
# STEPS FETP decision aid: the scenario evaluation engine

A shallow embedding of the numeric engine of `src/script.js` (preference model, cost
model, epidemiological benefit model, capacity model, scenario and portfolio aggregation,
baseline comparison) together with theorems about it.

## Number model

JavaScript numbers are IEEE doubles.  The embedding idealises them: a finite number is an
element of a linearly ordered field `K` (so `ℚ` for evaluation, `ℝ` for statements about
`Math.exp` and `Math.pow`) and arithmetic is exact; rounding is not modelled.  The two
transcendental primitives the engine calls are bundled in `MathFns` and passed explicitly.
Inputs that the source guards against being absent or non-finite have type `JSNum`.

The process-wide stores the source reads (`appState.epiSettings`, the wall clock) are
explicit parameters here.

## Table lookups

The coefficient tables are object literals read as `table[key] || 0`.  The functions
`tierEffect`, `careerEffect`, `mentorshipEffect`, `deliveryEffect` and `responseEffect`
give the value of that expression for every key that is not the name of a property
inherited from `Object.prototype`; `computeEndorsementAndWTPValue` extends the preference
model to those names, for which the lookup yields an object and not a number.

The table `RESPONSE_TIME_MULTIPLIERS` is read the same way, as `table[key] || 1`:
`responseTimeMultiplier` and `computeEpidemiological` give the numbers for every response
value that is not an inherited name, `respMultiplierValue` and
`computeEpidemiologicalValue` cover every string, and
`computeEpidemiologicalValue_of_not_inherited` states that the two agree off the
inherited names.
-/

namespace Steps

/-- The `Math.exp` and `Math.pow` primitives of the host, as used by the engine. -/
structure MathFns (K : Type) where
  exp : K → K
  pow : K → K → K

/-- The exact primitives over the reals: `Math.exp` is `Real.exp` and `Math.pow` is the
real power function. -/
noncomputable def realMath : MathFns ℝ where
  exp := Real.exp
  pow := fun x y => x ^ y

/-- A numeric input as the source may receive it: `absent` stands for `undefined` or
`null`, `nan`, `posInf` and `negInf` for the three non-finite doubles, and `fin x` for a
finite number. -/
inductive JSNum (K : Type) where
  | absent : JSNum K
  | nan : JSNum K
  | posInf : JSNum K
  | negInf : JSNum K
  | fin (x : K) : JSNum K

/-- A single-tier configuration object, with the fields the engine reads.
`planningHorizonYears` and `availableMentorsNational` are `none` when the property is
missing; the remaining numeric fields hold finite numbers. -/
structure Config (K : Type) where
  tier : String
  career : String
  mentorship : String
  delivery : String
  response : String
  costPerTraineePerMonth : K
  traineesPerCohort : K
  cohorts : K
  planningHorizonYears : Option K
  opportunityCostIncluded : Bool
  completionRateOverride : JSNum K
  mentorSupportCostPerCohortBase : K
  availableMentorsNational : Option K
  availableTrainingSites : K
  maxCohortsPerSitePerYear : K
  crossSectorBenefitMultiplier : JSNum K
  salaryMonthlyFaculty : JSNum K
  salaryMonthlyCoordinator : JSNum K
  salaryMonthlyParticipant : JSNum K
  preferenceModel : Option String

section Preference

variable {K : Type} [LinearOrderedField K]

/-- The constant `MXL_COEFS.ascProgram`. -/
def ascProgram : K := 0.168

/-- The constant `MXL_COEFS.ascOptOut`. -/
def ascOptOut : K := -0.601

/-- The constant `MXL_COEFS.costPerThousand`. -/
def costPerThousand : K := -0.005

/-- Source `tierEffect`: `MXL_COEFS.tier[tier] || 0`. -/
def tierEffect (tier : String) : K :=
  if tier = "frontline" then 0.0
  else if tier = "intermediate" then 0.220
  else if tier = "advanced" then 0.487
  else 0

/-- Source `careerEffect`: `MXL_COEFS.career[career] || 0`. -/
def careerEffect (career : String) : K :=
  if career = "certificate" then 0.0
  else if career = "uniqual" then 0.017
  else if career = "career_path" then -0.122
  else 0

/-- Source `mentorshipEffect`: `MXL_COEFS.mentorship[m] || 0`. -/
def mentorshipEffect (m : String) : K :=
  if m = "low" then 0.0
  else if m = "medium" then 0.453
  else if m = "high" then 0.640
  else 0

/-- Source `deliveryEffect`: `MXL_COEFS.delivery[d] || 0`. -/
def deliveryEffect (d : String) : K :=
  if d = "blended" then 0.0
  else if d = "inperson" then -0.232
  else if d = "online" then -1.073
  else 0

/-- Source `responseEffect`: `MXL_COEFS.response[r] || 0`; the key is the decimal string
of the response time. -/
def responseEffect (r : String) : K :=
  if r = "30" then 0.0
  else if r = "15" then 0.546
  else if r = "7" then 0.610
  else 0

/-- Source `clamp`: `Math.min(Math.max(value, min), max)`. -/
def clamp (value lo hi : K) : K :=
  min (max value lo) hi

/-- The object returned by `computeEndorsementAndWTP`. -/
structure Preference (K : Type) where
  endorseRate : K
  optOutRate : K
  wtpPerTraineePerMonth : K

/-- The local `utilProgram` of `computeEndorsementAndWTP`. -/
def utilProgram (config : Config K) : K :=
  ascProgram + tierEffect config.tier + careerEffect config.career
    + mentorshipEffect config.mentorship + deliveryEffect config.delivery
    + responseEffect config.response
    + costPerThousand * (config.costPerTraineePerMonth / 1000)

/-- The local `nonCostUtility` of `computeEndorsementAndWTP`. -/
def nonCostUtility (config : Config K) : K :=
  ascProgram + tierEffect config.tier + careerEffect config.career
    + mentorshipEffect config.mentorship + deliveryEffect config.delivery
    + responseEffect config.response

/-- The local `endorseProb` of `computeEndorsementAndWTP`: the two-alternative softmax
after subtracting the larger utility, with the `0.5` fallback for a non-positive
denominator. -/
def endorseProb (M : MathFns K) (config : Config K) : K :=
  let utilOptOut : K := ascOptOut
  let maxU := max (utilProgram config) utilOptOut
  let expProg := M.exp (utilProgram config - maxU)
  let expOpt := M.exp (utilOptOut - maxU)
  let denom := expProg + expOpt
  if denom > 0 then expProg / denom else 0.5

/-- Source `computeEndorsementAndWTP`. -/
def computeEndorsementAndWTP (M : MathFns K) (config : Config K) : Preference K :=
  let p := endorseProb M config
  let optOutProb := 1 - p
  { endorseRate := clamp (p * 100) 0 100
    optOutRate := clamp (optOutProb * 100) 0 100
    wtpPerTraineePerMonth := (nonCostUtility config / |(costPerThousand : K)|) * 1000 }

/-- Source `presentValueFactor`. -/
def presentValueFactor (M : MathFns K) (rate years : K) : K :=
  if years ≤ 0 then 0
  else if rate ≤ 0 then years
  else (1 - M.pow (1 + rate) (-years)) / rate

/-- The present value of one unit received at the end of each of `n` years at rate `r`:
the sum over `t = 1..n` of `1/(1+r)^t`, written out as the specification of
`presentValueFactor`. -/
def annuitySum (r : K) (n : ℕ) : K :=
  ∑ t in Finset.range n, 1 / (1 + r) ^ (t + 1)

end Preference

section Capacity

variable {K : Type} [LinearOrderedField K] [FloorRing K]

/-- Source `mentorshipMentorCapacity`: fellows one mentor can supervise. -/
def mentorshipMentorCapacity (intensity : String) : K :=
  if intensity = "high" then 2
  else if intensity = "medium" then 3.5
  else 5

/-- The object returned by `computeCapacity`. -/
structure Capacity (K : Type) where
  fellowsPerMentor : K
  mentorsPerCohort : K
  totalMentorsRequired : K
  availableMentors : K
  mentorShortfall : K
  status : String
  siteCapacity : Option K
  siteGap : Option K
  withinSiteCapacity : Option Bool

/-- Source `computeCapacity`.  `availableMentorsNational ?? 200` is the `getD`; the
`isNaN` guards of the source are vacuous on numbers. -/
def computeCapacity (config : Config K) : Capacity K :=
  let trainees := config.traineesPerCohort
  let cohorts := config.cohorts
  let fellowsPerMentor : K := mentorshipMentorCapacity config.mentorship
  let mentorsPerCohort : K :=
    if fellowsPerMentor > 0 then ((⌈trainees / fellowsPerMentor⌉ : ℤ) : K) else 0
  let totalMentorsRequired := mentorsPerCohort * cohorts
  let availableMentors := config.availableMentorsNational.getD 200
  let mentorShortfall := max 0 (totalMentorsRequired - availableMentors)
  let withinMentorCapacity : Bool := decide (totalMentorsRequired ≤ availableMentors)
  let sites := config.availableTrainingSites
  let maxCohortsPerSite := config.maxCohortsPerSitePerYear
  let hasSites : Bool := decide (sites > 0) && decide (maxCohortsPerSite > 0)
  let siteCapacity := sites * maxCohortsPerSite
  { fellowsPerMentor := fellowsPerMentor
    mentorsPerCohort := mentorsPerCohort
    totalMentorsRequired := totalMentorsRequired
    availableMentors := availableMentors
    mentorShortfall := mentorShortfall
    status :=
      if withinMentorCapacity then "Within current capacity" else "Requires capacity expansion"
    siteCapacity := if hasSites then some siteCapacity else none
    siteGap := if hasSites then some (max 0 (cohorts - siteCapacity)) else none
    withinSiteCapacity := if hasSites then some (decide (cohorts ≤ siteCapacity)) else none }

end Capacity

section Cost

variable {K : Type} [LinearOrderedField K] [FloorRing K]

/-- The table `TIER_MONTHS`, with the `|| 12` default the readers apply. -/
def tierMonths (tier : String) : K :=
  if tier = "frontline" then 3
  else if tier = "intermediate" then 12
  else if tier = "advanced" then 24
  else 12

/-- The table `SALARY_OC_DEFAULTS`. -/
def salaryDefaultFaculty : K := 200000

/-- The table `SALARY_OC_DEFAULTS`, coordinator entry. -/
def salaryDefaultCoordinator : K := 70000

/-- The table `SALARY_OC_DEFAULTS`, participant entry. -/
def salaryDefaultParticipant : K := 100000

/-- The constant `SALARY_OC_DAYS_PER_MONTH`. -/
def salaryOcDaysPerMonth : K := 30

/-- The table `SALARY_OC_CONTACT_DAYS_BY_TIER`, with the `?? 0` default. -/
def contactDaysByTier (tier : String) : K :=
  if tier = "frontline" then 20
  else if tier = "intermediate" then 60
  else if tier = "advanced" then 90
  else 0

/-- Source `mentorshipMultiplier`. -/
def mentorshipMultiplier (intensity : String) : K :=
  if intensity = "medium" then 1.3
  else if intensity = "high" then 1.7
  else 1.0

/-- The salary guard of `computeSalaryBasedOpportunityCostPerCohort`:
`Number(v ?? d)` followed by `isFinite(s) && s >= 0 ? s : d`. -/
def salaryOrDefault (v : JSNum K) (d : K) : K :=
  match v with
  | JSNum.fin x => if x ≥ 0 then x else d
  | _ => d

/-- A monthly salary input the guard rejects: absent, not finite, or negative. -/
def salaryInvalid (v : JSNum K) : Prop :=
  match v with
  | JSNum.fin x => x < 0
  | _ => True

/-- ASCII lower-casing, standing for `String.prototype.toLowerCase` on the delivery
mode (the three modes compared against are ASCII). -/
def toLowerCase (s : String) : String :=
  String.mk (s.data.map Char.toLower)

/-- The `byRole` part of the salary-based opportunity cost. -/
structure SalaryByRole (K : Type) where
  faculty : K
  coordinator : K
  participant : K

/-- The `meta` part of the salary-based opportunity cost. -/
structure SalaryMeta (K : Type) where
  tier : String
  delivery : String
  months : K
  totalDays : K
  contactDays : K
  contactDaysAssumed : K
  nFaculty : K
  nCoordinator : K
  nParticipant : K
  salaryMonthly : SalaryByRole K

/-- The object returned by `computeSalaryBasedOpportunityCostPerCohort`. -/
structure SalaryOpportunityCost (K : Type) where
  byRole : SalaryByRole K
  total : K
  meta : SalaryMeta K

/-- Source `computeSalaryBasedOpportunityCostPerCohort`. -/
def computeSalaryBasedOpportunityCostPerCohort (config : Config K) :
    SalaryOpportunityCost K :=
  let tier := if config.tier = "" then "intermediate" else config.tier
  let months : K := tierMonths tier
  let totalDays := months * salaryOcDaysPerMonth
  let delivery := toLowerCase config.delivery
  let isInPerson := delivery = "inperson"
  let isBlended := delivery = "blended"
  let isOnline := delivery = "online"
  let contactDaysAssumed : K := contactDaysByTier tier
  let contactDays := if isBlended then contactDaysAssumed else (if isOnline then 0 else totalDays)
  let facultyMonthly := salaryOrDefault config.salaryMonthlyFaculty salaryDefaultFaculty
  let coordinatorMonthly :=
    salaryOrDefault config.salaryMonthlyCoordinator salaryDefaultCoordinator
  let participantMonthly :=
    salaryOrDefault config.salaryMonthlyParticipant salaryDefaultParticipant
  let nParticipant := config.traineesPerCohort
  let nCoordinator : K := 1
  let nFaculty := (computeCapacity { config with cohorts := 1 }).mentorsPerCohort
  let dcMonths := contactDays / salaryOcDaysPerMonth
  let nonContactMonths := max 0 (totalDays - contactDays) / salaryOcDaysPerMonth
  let ocFaculty :=
    if isInPerson then facultyMonthly * months * nFaculty
    else facultyMonthly * (dcMonths + 0.5 * nonContactMonths) * nFaculty
  let ocCoordinator :=
    if isInPerson then coordinatorMonthly * months * nCoordinator
    else coordinatorMonthly * dcMonths * nCoordinator
  let ocParticipant :=
    if isInPerson then participantMonthly * months * nParticipant
    else participantMonthly * dcMonths * nParticipant
  { byRole := { faculty := ocFaculty, coordinator := ocCoordinator, participant := ocParticipant }
    total := ocFaculty + ocCoordinator + ocParticipant
    meta :=
      { tier := tier
        delivery := delivery
        months := months
        totalDays := totalDays
        contactDays := contactDays
        contactDaysAssumed := contactDaysAssumed
        nFaculty := nFaculty
        nCoordinator := nCoordinator
        nParticipant := nParticipant
        salaryMonthly :=
          { faculty := facultyMonthly
            coordinator := coordinatorMonthly
            participant := participantMonthly } } }

/-- One line of a cost template: component id and its share of direct cost. -/
structure CostComponent (K : Type) where
  id : String
  directShare : K

/-- An entry `COST_TEMPLATES[tier].combined` (labels and description text left out). -/
structure CostTemplate (K : Type) where
  id : String
  oppRate : K
  components : List (CostComponent K)

/-- The table `COST_TEMPLATES`: the combined template of a tier, `none` for a tier
without an entry.  The global `COST_CONFIG` is either `null` or this same table, so
both disjuncts of the lookup in `computeCosts` select the entry given here. -/
def costTemplate (tier : String) : Option (CostTemplate K) :=
  if tier = "frontline" then
    some
      { id := "frontline_combined"
        oppRate := 1.09
        components :=
          [⟨"staff_core", 0.214⟩, ⟨"office_equipment", 0.004⟩, ⟨"office_software", 0.0004⟩,
           ⟨"rent_utilities", 0.024⟩, ⟨"training_materials", 0.0006⟩, ⟨"workshops", 0.107⟩,
           ⟨"travel_in_country", 0.65⟩] }
  else if tier = "intermediate" then
    some
      { id := "intermediate_combined"
        oppRate := 0.35
        components :=
          [⟨"staff_core", 0.0924⟩, ⟨"staff_other", 0.0004⟩, ⟨"office_equipment", 0.0064⟩,
           ⟨"office_software", 0.027⟩, ⟨"rent_utilities", 0.0171⟩,
           ⟨"training_materials", 0.0005⟩, ⟨"workshops", 0.0258⟩,
           ⟨"travel_in_country", 0.57⟩, ⟨"travel_international", 0.1299⟩,
           ⟨"other_direct", 0.1302⟩] }
  else if tier = "advanced" then
    some
      { id := "advanced_combined"
        oppRate := 0.30
        components :=
          [⟨"staff_core", 0.165⟩, ⟨"office_equipment", 0.0139⟩, ⟨"office_software", 0.0184⟩,
           ⟨"rent_utilities", 0.0255⟩, ⟨"trainee_allowances", 0.0865⟩,
           ⟨"trainee_equipment", 0.0035⟩, ⟨"trainee_software", 0.0017⟩,
           ⟨"training_materials", 0.0024⟩, ⟨"workshops", 0.0188⟩,
           ⟨"travel_in_country", 0.372⟩, ⟨"travel_international", 0.288⟩,
           ⟨"other_direct", 0.0043⟩] }
  else none

/-- The template opportunity-cost rate `computeCosts` applies for a tier: the `oppRate`
of the tier's template, 0 for a tier without a template. -/
def templateOppRate (tier : String) : K :=
  match (costTemplate tier : Option (CostTemplate K)) with
  | some t => t.oppRate
  | none => 0

/-- The object returned by `computeCosts`. -/
structure Costs (K : Type) where
  programmeCostPerCohort : K
  mentorSupportCostPerCohortBase : K
  mentorCostMultiplier : K
  mentorCostPerCohort : K
  directCostPerCohort : K
  opportunityCostPerCohort : K
  salaryBasedOpportunityCostPerCohort : K
  salaryBasedOpportunityCostPerCohortRaw : K
  salaryBasedOpportunityCostByRole : SalaryByRole K
  salaryBasedOpportunityCostMeta : SalaryMeta K
  totalEconomicCostPerCohort : K
  totalMentorCostAllCohorts : K
  totalDirectCostAllCohorts : K
  totalEconomicCostAllCohorts : K
  template : Option (CostTemplate K)

/-- Source `computeCosts`.  The reconciliation block of the source only logs a warning
and sits inside a `try` whose `catch` ignores every error, so it contributes nothing
to the returned object. -/
def computeCosts (config : Config K) : Costs K :=
  let months : K := tierMonths config.tier
  let directCostPerTraineePerMonth := config.costPerTraineePerMonth
  let trainees := config.traineesPerCohort
  let programmeCostPerCohort := directCostPerTraineePerMonth * months * trainees
  let mentorBase := config.mentorSupportCostPerCohortBase
  let mentorMult : K := mentorshipMultiplier config.mentorship
  let mentorCostPerCohort := mentorBase * mentorMult
  let directCostPerCohort := programmeCostPerCohort + mentorCostPerCohort
  let template : Option (CostTemplate K) := costTemplate config.tier
  let oppRate : K :=
    if config.opportunityCostIncluded then
      (match template with
        | some t => t.oppRate
        | none => 0)
    else 0
  let opportunityCost := programmeCostPerCohort * oppRate
  let salaryOppRaw := computeSalaryBasedOpportunityCostPerCohort config
  let salaryBasedOpportunityCostIncluded :=
    if config.opportunityCostIncluded then salaryOppRaw.total else 0
  let totalEconomicCost := directCostPerCohort + opportunityCost + salaryBasedOpportunityCostIncluded
  { programmeCostPerCohort := programmeCostPerCohort
    mentorSupportCostPerCohortBase := mentorBase
    mentorCostMultiplier := mentorMult
    mentorCostPerCohort := mentorCostPerCohort
    directCostPerCohort := directCostPerCohort
    opportunityCostPerCohort := opportunityCost
    salaryBasedOpportunityCostPerCohort := salaryBasedOpportunityCostIncluded
    salaryBasedOpportunityCostPerCohortRaw := salaryOppRaw.total
    salaryBasedOpportunityCostByRole := salaryOppRaw.byRole
    salaryBasedOpportunityCostMeta := salaryOppRaw.meta
    totalEconomicCostPerCohort := totalEconomicCost
    totalMentorCostAllCohorts := mentorCostPerCohort * config.cohorts
    totalDirectCostAllCohorts := directCostPerCohort * config.cohorts
    totalEconomicCostAllCohorts := totalEconomicCost * config.cohorts
    template := template }

end Cost

section Epidemiological

variable {K : Type} [LinearOrderedField K]

/-- Per-tier epidemiological settings (`appState.epiSettings.tiers[tier]`). -/
structure TierSettings (K : Type) where
  completionRate : K
  outbreaksPerGraduatePerYear : K
  valuePerGraduate : K
  valuePerOutbreak : K

/-- General epidemiological settings (`appState.epiSettings.general`). -/
structure GeneralSettings (K : Type) where
  planningHorizonYears : K
  inrToUsdRate : K
  epiDiscountRate : K

/-- The settings store `appState.epiSettings`, passed explicitly. -/
structure Settings (K : Type) where
  general : GeneralSettings K
  frontline : TierSettings K
  intermediate : TierSettings K
  advanced : TierSettings K

/-- The lookup `appState.epiSettings.tiers[tier]`; `none` when the tier has no entry. -/
def Settings.tiers (s : Settings K) (tier : String) : Option (TierSettings K) :=
  if tier = "frontline" then some s.frontline
  else if tier = "intermediate" then some s.intermediate
  else if tier = "advanced" then some s.advanced
  else none

/-- The constant `DEFAULT_EPI_SETTINGS`. -/
def defaultEpiSettings : Settings K where
  general := { planningHorizonYears := 1, inrToUsdRate := 83, epiDiscountRate := 0.03 }
  frontline :=
    { completionRate := 0.9, outbreaksPerGraduatePerYear := 0.5, valuePerGraduate := 0,
      valuePerOutbreak := 4000000 }
  intermediate :=
    { completionRate := 0.9, outbreaksPerGraduatePerYear := 0.5, valuePerGraduate := 0,
      valuePerOutbreak := 4000000 }
  advanced :=
    { completionRate := 0.9, outbreaksPerGraduatePerYear := 0.5, valuePerGraduate := 0,
      valuePerOutbreak := 4000000 }

/-- The number `RESPONSE_TIME_MULTIPLIERS[String(config.response)] || 1` for every key
that is not the name of a property inherited from `Object.prototype`: the table entry,
or the default 1.  For the inherited names the expression is not a number; see
`respMultiplierValue`. -/
def responseTimeMultiplier (response : String) : K :=
  if response = "30" then 1.0
  else if response = "15" then 1.2
  else if response = "7" then 1.5
  else 1

/-- The completion rate used by `computeEpidemiological`: the tier setting, replaced by
a finite override (read as a percentage when above 1), then clamped to `[0, 1]`. -/
def effectiveCompletionRate (tierRate : K) (override : JSNum K) : K :=
  let completionRate :=
    match override with
    | JSNum.fin raw => if raw > 1 then raw / 100 else raw
    | _ => tierRate
  max 0 (min 1 completionRate)

/-- The cross-sector multiplier used by `computeEpidemiological`:
`Number(v || 1.0)`, reset to `1.0` when `NaN` or not positive, then clamped to
`[0.8, 2.0]`. -/
def effectiveCrossSectorMultiplier (v : JSNum K) : K :=
  match v with
  | JSNum.fin x =>
      let m : K := if x = 0 then 1.0 else x
      let m : K := if m ≤ 0 then 1.0 else m
      max 0.8 (min 2.0 m)
  | JSNum.posInf => max 0.8 2.0
  | _ => max 0.8 (min 2.0 1.0)

/-- The object returned by `computeEpidemiological`. -/
structure Epi (K : Type) where
  months : K
  graduatesPerCohort : K
  graduatesAllCohorts : K
  outbreaksPerYearPerCohort : K
  outbreaksPerYearNational : K
  epiBenefitPerCohort : K
  graduateBenefitPerCohort : K
  outbreakPVPerCohort : K
  planningYears : K
  discountRate : K
  completionRate : K
  outbreaksPerGraduatePerYear : K
  valuePerOutbreak : K
  valuePerGraduate : K
  crossSectorMultiplier : K

/-- Source `computeEpidemiological`, on numbers.  The result is `none` when the settings
store has no entry for `config.tier`: the source then reads a property of `undefined` and
throws.  For a response value that is the name of an inherited property the source does
arithmetic on a non-number; `computeEpidemiologicalValue` covers those configurations and
agrees with this function on all others. -/
def computeEpidemiological (M : MathFns K) (settings : Settings K) (config : Config K)
    (endorseRate : K) : Option (Epi K) :=
  match settings.tiers config.tier with
  | none => none
  | some tierSettings =>
    let general := settings.general
    let completionRate :=
      effectiveCompletionRate tierSettings.completionRate config.completionRateOverride
    let outbreaksPerGrad := tierSettings.outbreaksPerGraduatePerYear
    let valuePerOutbreak := tierSettings.valuePerOutbreak
    let valuePerGraduate := tierSettings.valuePerGraduate
    let planningYears :=
      match config.planningHorizonYears with
      | some y => if y > 0 then y else general.planningHorizonYears
      | none => general.planningHorizonYears
    let discountRate := general.epiDiscountRate
    let pvFactor := presentValueFactor M discountRate planningYears
    let endorseFactor := endorseRate / 100
    let months : K := tierMonths config.tier
    let enrolledPerCohort := config.traineesPerCohort
    let completedPerCohort := enrolledPerCohort * completionRate
    let graduatesEffective := completedPerCohort * endorseFactor
    let graduatesAllCohorts := graduatesEffective * config.cohorts
    let respMultiplier : K := responseTimeMultiplier config.response
    let outbreaksPerYearPerCohort := graduatesEffective * outbreaksPerGrad * respMultiplier
    let outbreaksPerYearNational := outbreaksPerYearPerCohort * config.cohorts
    let graduateAnnualBenefitPerCohort := graduatesEffective * valuePerGraduate
    let graduateBenefitPerCohort := graduateAnnualBenefitPerCohort * pvFactor
    let outbreakAnnualBenefitPerCohort := outbreaksPerYearPerCohort * valuePerOutbreak
    let outbreakPVPerCohort := outbreakAnnualBenefitPerCohort * pvFactor
    let crossSectorMultiplier :=
      effectiveCrossSectorMultiplier config.crossSectorBenefitMultiplier
    let graduateBenefitAdj := graduateBenefitPerCohort * crossSectorMultiplier
    let outbreakPVAdj := outbreakPVPerCohort * crossSectorMultiplier
    some
      { months := months
        graduatesPerCohort := graduatesEffective
        graduatesAllCohorts := graduatesAllCohorts
        outbreaksPerYearPerCohort := outbreaksPerYearPerCohort
        outbreaksPerYearNational := outbreaksPerYearNational
        epiBenefitPerCohort := graduateBenefitAdj + outbreakPVAdj
        graduateBenefitPerCohort := graduateBenefitAdj
        outbreakPVPerCohort := outbreakPVAdj
        planningYears := planningYears
        discountRate := discountRate
        completionRate := completionRate
        outbreaksPerGraduatePerYear := outbreaksPerGrad
        valuePerOutbreak := valuePerOutbreak
        valuePerGraduate := valuePerGraduate
        crossSectorMultiplier := crossSectorMultiplier }

end Epidemiological

section Scenario

variable {K : Type} [LinearOrderedField K] [FloorRing K]

/-- The two wall-clock readings `computeScenario` takes, in milliseconds since the
epoch: `Date.now()` for the id and `new Date()` for the timestamp. -/
structure Clock where
  dateNow : Nat
  newDate : Nat

/-- The object returned by `computeScenario`.  The benefit-cost ratios are `none` for the
`null` sentinel; `timestamp` is the instant whose ISO rendering the source stores. -/
structure ScenarioResult (K : Type) where
  id : String
  timestamp : Nat
  shortlisted : Bool
  config : Config K
  preferenceModel : Option String
  endorseRate : K
  optOutRate : K
  wtpPerTraineePerMonth : K
  wtpPerCohort : K
  wtpAllCohorts : K
  wtpOutbreakComponent : K
  costs : Costs K
  epi : Epi K
  capacity : Capacity K
  epiBenefitPerCohort : K
  epiBenefitAllCohorts : K
  netBenefitPerCohort : K
  netBenefitAllCohorts : K
  bcrPerCohort : Option K
  natTotalCost : K
  natBcr : Option K
  graduatesPerCohort : K
  graduatesAllCohorts : K
  outbreaksPerYearPerCohort : K
  outbreaksPerYearNational : K
  discountRate : K
  planningYears : K

/-- Source `computeScenario`; `none` when `computeEpidemiological` throws. -/
def computeScenario (M : MathFns K) (settings : Settings K) (clock : Clock)
    (config : Config K) : Option (ScenarioResult K) :=
  let pref := computeEndorsementAndWTP M config
  let costs := computeCosts config
  match computeEpidemiological M settings config pref.endorseRate with
  | none => none
  | some epi =>
    let capacity := computeCapacity config
    let wtpPerTraineePerMonth := pref.wtpPerTraineePerMonth
    let wtpPerCohort := wtpPerTraineePerMonth * epi.months * config.traineesPerCohort
    let wtpAllCohorts := wtpPerCohort * config.cohorts
    let epiBenefitPerCohort := epi.epiBenefitPerCohort
    let epiBenefitAllCohorts := epiBenefitPerCohort * config.cohorts
    let netBenefitPerCohort := epiBenefitPerCohort - costs.totalEconomicCostPerCohort
    let netBenefitAllCohorts :=
      epiBenefitAllCohorts - costs.totalEconomicCostPerCohort * config.cohorts
    let bcrPerCohort :=
      if costs.totalEconomicCostPerCohort > 0 then
        some (epiBenefitPerCohort / costs.totalEconomicCostPerCohort)
      else none
    let natTotalCost := costs.totalEconomicCostPerCohort * config.cohorts
    let natBcr := if natTotalCost > 0 then some (epiBenefitAllCohorts / natTotalCost) else none
    let wtpOutbreakComponent := wtpAllCohorts * 0.3
    some
      { id := toString clock.dateNow
        timestamp := clock.newDate
        shortlisted := false
        config := config
        preferenceModel := config.preferenceModel
        endorseRate := pref.endorseRate
        optOutRate := pref.optOutRate
        wtpPerTraineePerMonth := wtpPerTraineePerMonth
        wtpPerCohort := wtpPerCohort
        wtpAllCohorts := wtpAllCohorts
        wtpOutbreakComponent := wtpOutbreakComponent
        costs := costs
        epi := epi
        capacity := capacity
        epiBenefitPerCohort := epiBenefitPerCohort
        epiBenefitAllCohorts := epiBenefitAllCohorts
        netBenefitPerCohort := netBenefitPerCohort
        netBenefitAllCohorts := netBenefitAllCohorts
        bcrPerCohort := bcrPerCohort
        natTotalCost := natTotalCost
        natBcr := natBcr
        graduatesPerCohort := epi.graduatesPerCohort
        graduatesAllCohorts := epi.graduatesAllCohorts
        outbreaksPerYearPerCohort := epi.outbreaksPerYearPerCohort
        outbreaksPerYearNational := epi.outbreaksPerYearNational
        discountRate := epi.discountRate
        planningYears := epi.planningYears }

/-- A scenario result with its two clock-derived fields, `id` and `timestamp`, blanked:
what is left is every computed field. -/
def ScenarioResult.withoutStamp (r : ScenarioResult K) : ScenarioResult K :=
  { r with id := "", timestamp := 0 }

end Scenario

section Portfolio

variable {K : Type} [LinearOrderedField K] [FloorRing K]

/-- The `portfolioTiers` object of a portfolio configuration: one optional tier
configuration under each of the three keys. -/
structure PortfolioTiers (K : Type) where
  frontline : Option (Config K)
  intermediate : Option (Config K)
  advanced : Option (Config K)

/-- The lookup `tiers[k]`. -/
def PortfolioTiers.get (t : PortfolioTiers K) (k : String) : Option (Config K) :=
  if k = "frontline" then t.frontline
  else if k = "intermediate" then t.intermediate
  else if k = "advanced" then t.advanced
  else none

/-- A portfolio configuration: the tier configurations, the planning horizon, the
preference-model label, and in `own` the scalar properties of the object itself, which
only the capacity fallback reads. -/
structure PortfolioConfig (K : Type) where
  portfolioTiers : PortfolioTiers K
  planningHorizonYears : Option K
  preferenceModel : Option String
  own : Config K

/-- The `portfolioBreakdown` object: the tier result stored under each key. -/
structure Breakdown (K : Type) where
  frontline : Option (ScenarioResult K)
  intermediate : Option (ScenarioResult K)
  advanced : Option (ScenarioResult K)

/-- The assignment `breakdown[k] = s`. -/
def Breakdown.set (b : Breakdown K) (k : String) (s : ScenarioResult K) : Breakdown K :=
  if k = "frontline" then { b with frontline := some s }
  else if k = "intermediate" then { b with intermediate := some s }
  else if k = "advanced" then { b with advanced := some s }
  else b

/-- The lookup `breakdown[k]`. -/
def Breakdown.get (b : Breakdown K) (k : String) : Option (ScenarioResult K) :=
  if k = "frontline" then b.frontline
  else if k = "intermediate" then b.intermediate
  else if k = "advanced" then b.advanced
  else none

/-- The local `tierKeys` of `computePortfolioScenario`. -/
def tierKeys : List String := ["frontline", "intermediate", "advanced"]

/-- The mutable locals of the loop in `computePortfolioScenario`. -/
structure PortfolioAcc (K : Type) where
  breakdown : Breakdown K
  totalCost : K
  totalBenefit : K
  totalGrads : K
  outbreaksPerYear : K
  endorseWeighted : K
  optOutWeighted : K
  weightDenom : K
  wtpAll : K

/-- The locals of `computePortfolioScenario` before the loop. -/
def PortfolioAcc.init : PortfolioAcc K where
  breakdown := { frontline := none, intermediate := none, advanced := none }
  totalCost := 0
  totalBenefit := 0
  totalGrads := 0
  outbreaksPerYear := 0
  endorseWeighted := 0
  optOutWeighted := 0
  weightDenom := 0
  wtpAll := 0

/-- One iteration of the loop over `tierKeys`: an absent tier is skipped, a present one
is evaluated with `computeScenario` and accumulated; `none` when that evaluation
throws. -/
def portfolioStep (M : MathFns K) (settings : Settings K) (clock : String → Clock)
    (tiers : PortfolioTiers K) (acc : PortfolioAcc K) (k : String) :
    Option (PortfolioAcc K) :=
  match tiers.get k with
  | none => some acc
  | some tc =>
    match computeScenario M settings (clock k) tc with
    | none => none
    | some s =>
      let w := tc.cohorts * tc.traineesPerCohort
      some
        { breakdown := acc.breakdown.set k s
          totalCost := acc.totalCost + s.natTotalCost
          totalBenefit := acc.totalBenefit + s.epiBenefitAllCohorts
          totalGrads := acc.totalGrads + s.graduatesAllCohorts
          outbreaksPerYear := acc.outbreaksPerYear + s.outbreaksPerYearNational
          endorseWeighted := acc.endorseWeighted + s.endorseRate * w
          optOutWeighted := acc.optOutWeighted + s.optOutRate * w
          weightDenom := acc.weightDenom + w
          wtpAll := acc.wtpAll + s.wtpAllCohorts }

/-- The aggregate cost block of a portfolio result. -/
structure PortfolioCosts (K : Type) where
  totalEconomicCostAllCohorts : K

/-- The aggregate epidemiological block of a portfolio result. -/
structure PortfolioEpi (K : Type) where
  graduatesAllCohorts : K
  outbreaksPerYearNational : K

/-- The object returned by `computePortfolioScenario`, without its bookkeeping
properties (`id`, `_sid`, `timestamp`, `pinned`, `pinnedAt`, `createdAt`) and without
the two properties that are always `null`. -/
structure PortfolioResult (K : Type) where
  shortlisted : Bool
  config : PortfolioConfig K
  preferenceModel : String
  endorseRate : K
  optOutRate : K
  wtpAllCohorts : K
  wtpPerTraineePerMonth : K
  wtpOutbreakComponent : K
  costs : PortfolioCosts K
  epi : PortfolioEpi K
  capacity : Capacity K
  epiBenefitAllCohorts : K
  netBenefitAllCohorts : K
  natTotalCost : K
  natBcr : Option K
  graduatesAllCohorts : K
  outbreaksPerYearNational : K
  planningYears : K
  portfolioBreakdown : Breakdown K

/-- The idiom `Number(x || 1)` on an optional number. -/
def numberOrOne (x : Option K) : K :=
  match x with
  | some v => if v = 0 then 1 else v
  | none => 1

/-- Source `computePortfolioScenario`.  `clock k` gives the clock readings during the
evaluation of the tier under key `k`. -/
def computePortfolioScenario (M : MathFns K) (settings : Settings K)
    (clock : String → Clock) (cfg : PortfolioConfig K) : Option (PortfolioResult K) :=
  let tiers := cfg.portfolioTiers
  match tierKeys.foldlM (portfolioStep M settings clock tiers) PortfolioAcc.init with
  | none => none
  | some acc =>
    let totalCost := acc.totalCost
    let totalBenefit := acc.totalBenefit
    let weightDenom := acc.weightDenom
    let wtpAll := acc.wtpAll
    let net := totalBenefit - totalCost
    let bcr := if totalCost > 0 then some (totalBenefit / totalCost) else none
    let endorseRate := if weightDenom > 0 then acc.endorseWeighted / weightDenom else 0
    let optOutRate :=
      if weightDenom > 0 then acc.optOutWeighted / weightDenom else max 0 (100 - endorseRate)
    let capacityConfig :=
      match tiers.advanced, tiers.intermediate, tiers.frontline with
      | some c, _, _ => c
      | none, some c, _ => c
      | none, none, some c => c
      | none, none, none => cfg.own
    some
      { shortlisted := false
        config := cfg
        preferenceModel :=
          match cfg.preferenceModel with
          | some m => if m = "" then "Mixed logit model from the preference study" else m
          | none => "Mixed logit model from the preference study"
        endorseRate := endorseRate
        optOutRate := optOutRate
        wtpAllCohorts := wtpAll
        wtpPerTraineePerMonth :=
          if weightDenom > 0 then
            wtpAll / (weightDenom * max 1 (numberOrOne cfg.planningHorizonYears) * 12)
          else 0
        wtpOutbreakComponent := wtpAll * 0.3
        costs := { totalEconomicCostAllCohorts := totalCost }
        epi := { graduatesAllCohorts := acc.totalGrads
                 outbreaksPerYearNational := acc.outbreaksPerYear }
        capacity := computeCapacity capacityConfig
        epiBenefitAllCohorts := totalBenefit
        netBenefitAllCohorts := net
        natTotalCost := totalCost
        natBcr := bcr
        graduatesAllCohorts := acc.totalGrads
        outbreaksPerYearNational := acc.outbreaksPerYear
        planningYears := numberOrOne cfg.planningHorizonYears
        portfolioBreakdown := acc.breakdown }

/-- The result of `computeScenario` on the tier configuration stored under key `k`;
`none` when the portfolio has no tier under `k`. -/
def tierScenario (M : MathFns K) (settings : Settings K) (clock : String → Clock)
    (tiers : PortfolioTiers K) (k : String) : Option (ScenarioResult K) :=
  match tiers.get k with
  | none => none
  | some tc => computeScenario M settings (clock k) tc

/-- The value of the field `f` of the tier result under key `k`, 0 for an absent tier. -/
def tierValue (M : MathFns K) (settings : Settings K) (clock : String → Clock)
    (tiers : PortfolioTiers K) (f : ScenarioResult K → K) (k : String) : K :=
  match tierScenario M settings clock tiers k with
  | some s => f s
  | none => 0

/-- The sum over the present tiers of the field `f` of the tier results. -/
def tierTotal (M : MathFns K) (settings : Settings K) (clock : String → Clock)
    (tiers : PortfolioTiers K) (f : ScenarioResult K → K) : K :=
  (tierKeys.map (tierValue M settings clock tiers f)).sum

/-- The weight of the tier under key `k`: `cohorts × traineesPerCohort` of its
configuration, 0 for an absent tier. -/
def tierWeight (tiers : PortfolioTiers K) (k : String) : K :=
  match tiers.get k with
  | some tc => tc.cohorts * tc.traineesPerCohort
  | none => 0

/-- The sum over the present tiers of their weights. -/
def totalWeight (tiers : PortfolioTiers K) : K :=
  (tierKeys.map (tierWeight tiers)).sum

/-- The sum over the present tiers of the field `f` of the tier result times the tier
weight. -/
def tierWeightedTotal (M : MathFns K) (settings : Settings K) (clock : String → Clock)
    (tiers : PortfolioTiers K) (f : ScenarioResult K → K) : K :=
  (tierKeys.map fun k => tierValue M settings clock tiers f k * tierWeight tiers k).sum

/-- The number of tiers present in the portfolio. -/
def tierCount (tiers : PortfolioTiers K) : Nat :=
  (tierKeys.filter fun k => (tiers.get k).isSome).length

/-- The benefit-cost ratio of a tier result as a number, 0 standing in for the
sentinel. -/
def bcrValue (s : ScenarioResult K) : K :=
  s.natBcr.getD 0

/-- Every tier configuration present in the portfolio names one of the three tiers. -/
def TiersKnown (tiers : PortfolioTiers K) : Prop :=
  ∀ k ∈ tierKeys, ∀ tc, tiers.get k = some tc → tc.tier ∈ tierKeys

end Portfolio

section Incremental

variable {K : Type} [LinearOrderedField K]

/-- The two properties of a scenario or portfolio result that
`computeIncrementalMetrics` reads. -/
structure CostBenefit (K : Type) where
  natTotalCost : K
  epiBenefitAllCohorts : K

/-- The totals of a single-tier result. -/
def ScenarioResult.totals (s : ScenarioResult K) : CostBenefit K :=
  { natTotalCost := s.natTotalCost, epiBenefitAllCohorts := s.epiBenefitAllCohorts }

/-- The totals of a portfolio result. -/
def PortfolioResult.totals (p : PortfolioResult K) : CostBenefit K :=
  { natTotalCost := p.natTotalCost, epiBenefitAllCohorts := p.epiBenefitAllCohorts }

/-- The object returned by `computeIncrementalMetrics`; `incrementalBcr` is `none` for
the `null` sentinel. -/
structure IncrementalMetrics (K : Type) where
  deltaCost : K
  deltaBenefit : K
  deltaNet : K
  incrementalBcr : Option K
  note : Option String

/-- Source `computeIncrementalMetrics`; an argument is `none` when it is `null` or
`undefined`, and so is the result in that case. -/
def computeIncrementalMetrics (scenario baseline : Option (CostBenefit K)) :
    Option (IncrementalMetrics K) :=
  match scenario, baseline with
  | some s, some b =>
    let dCost := s.natTotalCost - b.natTotalCost
    let dBenefit := s.epiBenefitAllCohorts - b.epiBenefitAllCohorts
    let dNet := dBenefit - dCost
    some
      { deltaCost := dCost
        deltaBenefit := dBenefit
        deltaNet := dNet
        incrementalBcr := if dCost > 0 then some (dBenefit / dCost) else none
        note :=
          if dCost ≤ 0 then some "Incremental BCR not defined when incremental cost â‰¤ 0"
          else none }
  | _, _ => none

end Incremental

section CohortCeiling

variable {K : Type} [LinearOrderedField K] [FloorRing K]

/-- Source `parsePositiveInt`: `Number(value)`, the fallback when that is not finite or
not positive, otherwise `Math.max(1, Math.floor(v))`. -/
def parsePositiveInt (value : JSNum K) (fallback : K) : K :=
  match value with
  | JSNum.fin v => if v ≤ 0 then fallback else max 1 ((⌊v⌋ : ℤ) : K)
  | _ => fallback

/-- Source `computeMaxFeasibleCohorts`.  The tier key is lower-cased after the
`|| "frontline"` default; the duration is `TIER_MONTHS[t]` with the default 12, which is
always finite and positive, so only the horizon guard can return early. -/
def computeMaxFeasibleCohorts (tierKey : String) (horizonYears : JSNum K)
    (sites : JSNum K) : K :=
  let t := toLowerCase (if tierKey = "" then "frontline" else tierKey)
  let durationMonths : K := tierMonths t
  let horizonMonths : K :=
    match horizonYears with
    | JSNum.fin hYears => hYears * 12
    | _ => 0
  let s : K := parsePositiveInt sites 1
  if horizonMonths ≤ 0 ∨ durationMonths ≤ 0 then 1
  else
    let maxC : K := ((⌊(horizonMonths / durationMonths) * s⌋ : ℤ) : K)
    max 1 maxC

end CohortCeiling

section InheritedKeys

variable {K : Type} [LinearOrderedField K]

/-- The property names that every object literal inherits from `Object.prototype`.  The
coefficient tables of `MXL_COEFS` are object literals, so a lookup `table[key]` with one
of these keys finds the inherited property (a function, or the prototype object itself
for `__proto__`) instead of `undefined`. -/
def objectPrototypeKeys : List String :=
  ["constructor", "hasOwnProperty", "isPrototypeOf", "propertyIsEnumerable",
   "toLocaleString", "toString", "valueOf", "__proto__", "__defineGetter__",
   "__defineSetter__", "__lookupGetter__", "__lookupSetter__"]

/-- Whether one of the five attribute values of a configuration is the name of an
inherited property; `tierEffect` and its four siblings give the value of `table[key] || 0`
exactly for the configurations where this is false. -/
def usesInheritedKey (config : Config K) : Bool :=
  decide (config.tier ∈ objectPrototypeKeys) || decide (config.career ∈ objectPrototypeKeys)
    || decide (config.mentorship ∈ objectPrototypeKeys)
    || decide (config.delivery ∈ objectPrototypeKeys)
    || decide (config.response ∈ objectPrototypeKeys)

/-- The object returned by `computeEndorsementAndWTP`, with `wtpPerTraineePerMonth` as a
JavaScript number that may be `NaN`. -/
structure PreferenceValue (K : Type) where
  endorseRate : K
  optOutRate : K
  wtpPerTraineePerMonth : JSNum K

/-- Source `computeEndorsementAndWTP` on every configuration, the ones with an inherited
property name as attribute value included.  For such a value `table[key] || 0` is the
inherited object, which is truthy; adding it to a number gives a string, so `utilProgram`
and `nonCostUtility` are strings that do not read as numbers.  Then `Math.max` and both
exponentials are `NaN`, the test `denom > 0` is false and `endorseProb` is the fallback
`0.5`, while the division for `wtpPerTraineePerMonth` gives `NaN`.  On every other
configuration the result is that of the numeric model. -/
def computeEndorsementAndWTPValue (M : MathFns K) (config : Config K) : PreferenceValue K :=
  if usesInheritedKey config then
    let endorseProb : K := 0.5
    let optOutProb : K := 1 - endorseProb
    { endorseRate := clamp (endorseProb * 100) 0 100
      optOutRate := clamp (optOutProb * 100) 0 100
      wtpPerTraineePerMonth := JSNum.nan }
  else
    { endorseRate := (computeEndorsementAndWTP M config).endorseRate
      optOutRate := (computeEndorsementAndWTP M config).optOutRate
      wtpPerTraineePerMonth := JSNum.fin (computeEndorsementAndWTP M config).wtpPerTraineePerMonth }

/-- The operand that `RESPONSE_TIME_MULTIPLIERS[String(config.response)] || 1` contributes
to a product, for every string.  For one of the three keys it is the table entry.  For the
name of an inherited property the lookup finds that property (a function, or the
prototype object), which is truthy, so the default is not taken, and in a product the
operand converts to `NaN`.  For every other string the lookup is `undefined` and the
value is the default 1. -/
def respMultiplierValue (response : String) : JSNum K :=
  if response = "30" then JSNum.fin 1.0
  else if response = "15" then JSNum.fin 1.2
  else if response = "7" then JSNum.fin 1.5
  else if response ∈ objectPrototypeKeys then JSNum.nan
  else JSNum.fin 1

/-- The product `v * y` of a JavaScript number and a finite number; `absent` converts to
`NaN`, and an infinity times 0 is `NaN`. -/
def JSNum.times (v : JSNum K) (y : K) : JSNum K :=
  match v with
  | JSNum.fin x => JSNum.fin (x * y)
  | JSNum.posInf => if y > 0 then JSNum.posInf else if y < 0 then JSNum.negInf else JSNum.nan
  | JSNum.negInf => if y > 0 then JSNum.negInf else if y < 0 then JSNum.posInf else JSNum.nan
  | _ => JSNum.nan

/-- The product `x * v` of a finite number and a JavaScript number. -/
def JSNum.scale (x : K) (v : JSNum K) : JSNum K :=
  match v with
  | JSNum.fin y => JSNum.fin (x * y)
  | JSNum.posInf => if x > 0 then JSNum.posInf else if x < 0 then JSNum.negInf else JSNum.nan
  | JSNum.negInf => if x > 0 then JSNum.negInf else if x < 0 then JSNum.posInf else JSNum.nan
  | _ => JSNum.nan

/-- The sum `x + v` of a finite number and a JavaScript number; `absent` converts to
`NaN`. -/
def JSNum.plus (x : K) (v : JSNum K) : JSNum K :=
  match v with
  | JSNum.fin y => JSNum.fin (x + y)
  | JSNum.posInf => JSNum.posInf
  | JSNum.negInf => JSNum.negInf
  | _ => JSNum.nan

/-- The object returned by `computeEpidemiological`, with the outputs that depend on the
response-time multiplier as JavaScript numbers that may be `NaN`. -/
structure EpiValue (K : Type) where
  months : K
  graduatesPerCohort : K
  graduatesAllCohorts : K
  outbreaksPerYearPerCohort : JSNum K
  outbreaksPerYearNational : JSNum K
  epiBenefitPerCohort : JSNum K
  graduateBenefitPerCohort : K
  outbreakPVPerCohort : JSNum K
  planningYears : K
  discountRate : K
  completionRate : K
  outbreaksPerGraduatePerYear : K
  valuePerOutbreak : K
  valuePerGraduate : K
  crossSectorMultiplier : K

/-- The result of the numeric model `computeEpidemiological` as an `EpiValue`. -/
def Epi.toValue (epi : Epi K) : EpiValue K where
  months := epi.months
  graduatesPerCohort := epi.graduatesPerCohort
  graduatesAllCohorts := epi.graduatesAllCohorts
  outbreaksPerYearPerCohort := JSNum.fin epi.outbreaksPerYearPerCohort
  outbreaksPerYearNational := JSNum.fin epi.outbreaksPerYearNational
  epiBenefitPerCohort := JSNum.fin epi.epiBenefitPerCohort
  graduateBenefitPerCohort := epi.graduateBenefitPerCohort
  outbreakPVPerCohort := JSNum.fin epi.outbreakPVPerCohort
  planningYears := epi.planningYears
  discountRate := epi.discountRate
  completionRate := epi.completionRate
  outbreaksPerGraduatePerYear := epi.outbreaksPerGraduatePerYear
  valuePerOutbreak := epi.valuePerOutbreak
  valuePerGraduate := epi.valuePerGraduate
  crossSectorMultiplier := epi.crossSectorMultiplier

/-- Source `computeEpidemiological` on every configuration, the ones whose response value
is the name of an inherited property included: the multiplier is `respMultiplierValue`,
and the products and the sum that it enters are taken on JavaScript numbers.  The result
is `none` when the settings store has no entry for `config.tier` (the source throws). -/
def computeEpidemiologicalValue (M : MathFns K) (settings : Settings K) (config : Config K)
    (endorseRate : K) : Option (EpiValue K) :=
  match settings.tiers config.tier with
  | none => none
  | some tierSettings =>
    let general := settings.general
    let completionRate :=
      effectiveCompletionRate tierSettings.completionRate config.completionRateOverride
    let outbreaksPerGrad := tierSettings.outbreaksPerGraduatePerYear
    let valuePerOutbreak := tierSettings.valuePerOutbreak
    let valuePerGraduate := tierSettings.valuePerGraduate
    let planningYears :=
      match config.planningHorizonYears with
      | some y => if y > 0 then y else general.planningHorizonYears
      | none => general.planningHorizonYears
    let discountRate := general.epiDiscountRate
    let pvFactor := presentValueFactor M discountRate planningYears
    let endorseFactor := endorseRate / 100
    let months : K := tierMonths config.tier
    let enrolledPerCohort := config.traineesPerCohort
    let completedPerCohort := enrolledPerCohort * completionRate
    let graduatesEffective := completedPerCohort * endorseFactor
    let graduatesAllCohorts := graduatesEffective * config.cohorts
    let respMultiplier : JSNum K := respMultiplierValue config.response
    let outbreaksPerYearPerCohort :=
      JSNum.scale (graduatesEffective * outbreaksPerGrad) respMultiplier
    let outbreaksPerYearNational := outbreaksPerYearPerCohort.times config.cohorts
    let graduateAnnualBenefitPerCohort := graduatesEffective * valuePerGraduate
    let graduateBenefitPerCohort := graduateAnnualBenefitPerCohort * pvFactor
    let outbreakAnnualBenefitPerCohort := outbreaksPerYearPerCohort.times valuePerOutbreak
    let outbreakPVPerCohort := outbreakAnnualBenefitPerCohort.times pvFactor
    let crossSectorMultiplier :=
      effectiveCrossSectorMultiplier config.crossSectorBenefitMultiplier
    let graduateBenefitAdj := graduateBenefitPerCohort * crossSectorMultiplier
    let outbreakPVAdj := outbreakPVPerCohort.times crossSectorMultiplier
    some
      { months := months
        graduatesPerCohort := graduatesEffective
        graduatesAllCohorts := graduatesAllCohorts
        outbreaksPerYearPerCohort := outbreaksPerYearPerCohort
        outbreaksPerYearNational := outbreaksPerYearNational
        epiBenefitPerCohort := JSNum.plus graduateBenefitAdj outbreakPVAdj
        graduateBenefitPerCohort := graduateBenefitAdj
        outbreakPVPerCohort := outbreakPVAdj
        planningYears := planningYears
        discountRate := discountRate
        completionRate := completionRate
        outbreaksPerGraduatePerYear := outbreaksPerGrad
        valuePerOutbreak := valuePerOutbreak
        valuePerGraduate := valuePerGraduate
        crossSectorMultiplier := crossSectorMultiplier }

end InheritedKeys

section BcrHelpers

variable {K : Type} [LinearOrderedField K]

/-- The properties of a saved scenario or portfolio result that the aggregation helpers
read; a property is `none` when the object does not carry it. -/
structure SavedScenario (K : Type) where
  totalEconomicCostAllCohorts : Option K
  natTotalCost : Option K
  totalEpiBenefitsAllCohorts : Option K
  epiBenefitAllCohorts : Option K
  netBenefitAllCohorts : Option K
  graduatesAllCohorts : Option K

/-- The idiom `a ?? b ?? 0` on two optional numbers. -/
def coalesce (a b : Option K) : K :=
  match a, b with
  | some x, _ => x
  | none, some y => y
  | none, none => 0

/-- The idiom `a || b` on an optional number and a number: `a` unless it is missing
or 0. -/
def orTruthy (a : Option K) (b : K) : K :=
  match a with
  | some x => if x = 0 then b else x
  | none => b

/-- Source `safeBcr`. -/
def safeBcr (s : SavedScenario K) : K :=
  let cost := coalesce s.totalEconomicCostAllCohorts s.natTotalCost
  let benefit := coalesce s.totalEpiBenefitsAllCohorts s.epiBenefitAllCohorts
  if cost > 0 then benefit / cost else 0

/-- The cost and benefit part of the object returned by `aggregateScenarioSet`. -/
structure ScenarioSetAggregate (K : Type) where
  count : Nat
  totalEconomicCost : K
  totalEpiBenefit : K
  netBenefit : K
  bcr : K

/-- Source `aggregateScenarioSet`, its cost and benefit part (the graduate subtotals and
the feasibility label are left out). -/
def aggregateScenarioSet (items : List (SavedScenario K)) : ScenarioSetAggregate K :=
  let cost := items.foldl
    (fun a s => a + coalesce s.totalEconomicCostAllCohorts s.natTotalCost) 0
  let benefit := items.foldl
    (fun a s => a + coalesce s.totalEpiBenefitsAllCohorts s.epiBenefitAllCohorts) 0
  { count := items.length
    totalEconomicCost := cost
    totalEpiBenefit := benefit
    netBenefit := benefit - cost
    bcr := if cost > 0 then benefit / cost else 0 }

/-- The indices `aggregateShortlistedScenario` keeps: those with a saved scenario, each
once, in the order of first occurrence.  Entries of the source list that are not
non-negative whole numbers select no saved scenario and are skipped, so the list is taken
to hold natural numbers. -/
def shortlistIndices (saved : List (SavedScenario K)) (idxList : List Nat) : List Nat :=
  idxList.foldl (fun acc i => if i < saved.length ∧ i ∉ acc then acc ++ [i] else acc) []

/-- The totals of the object returned by `aggregateShortlistedScenario`. -/
structure ShortlistAggregate (K : Type) where
  aggregateIndices : List Nat
  graduatesAllCohorts : K
  natTotalCost : K
  totalEconomicCostAllCohorts : K
  epiBenefitAllCohorts : K
  totalEpiBenefitsAllCohorts : K
  netBenefitAllCohorts : K
  natBcr : K

/-- The running sums of the loop in `aggregateShortlistedScenario`. -/
structure ShortlistSums (K : Type) where
  sumGrads : K
  sumCost : K
  sumBenefit : K
  sumNet : K

/-- One iteration of the loop over the kept indices. -/
def shortlistStep (saved : List (SavedScenario K)) (acc : ShortlistSums K) (i : Nat) :
    ShortlistSums K :=
  match saved.get? i with
  | none => acc
  | some s =>
    let sc := orTruthy s.natTotalCost (orTruthy s.totalEconomicCostAllCohorts 0)
    let sb := orTruthy s.epiBenefitAllCohorts (orTruthy s.totalEpiBenefitsAllCohorts 0)
    let sn :=
      match s.netBenefitAllCohorts with
      | some n => n
      | none => sb - sc
    { sumGrads := acc.sumGrads + orTruthy s.graduatesAllCohorts 0
      sumCost := acc.sumCost + sc
      sumBenefit := acc.sumBenefit + sb
      sumNet := acc.sumNet + sn }

/-- Source `aggregateShortlistedScenario` over the saved list `saved`, its totals (the
per-tier graduate subtotals, the id and the synthetic configuration are left out); `none`
when no index is kept. -/
def aggregateShortlistedScenario (saved : List (SavedScenario K)) (idxList : List Nat) :
    Option (ShortlistAggregate K) :=
  let indices := shortlistIndices saved idxList
  if indices.isEmpty then none
  else
    let sums := indices.foldl (shortlistStep saved) ⟨0, 0, 0, 0⟩
    some
      { aggregateIndices := indices
        graduatesAllCohorts := sums.sumGrads
        natTotalCost := sums.sumCost
        totalEconomicCostAllCohorts := sums.sumCost
        epiBenefitAllCohorts := sums.sumBenefit
        totalEpiBenefitsAllCohorts := sums.sumBenefit
        netBenefitAllCohorts := sums.sumNet
        natBcr := if sums.sumCost > 0 then sums.sumBenefit / sums.sumCost else 0 }

end BcrHelpers

section SettingsForm

variable {K : Type} [LinearOrderedField K] [FloorRing K]

/-- The test `s.includes(sub)` on strings. -/
@[irreducible]
def includes (s sub : String) : Bool :=
  decide (sub.data <:+: s.data)

/-- A submitted form value as `applySettingsValuesToState` reads it: `num` is
`Number(raw)` and `inr` is the result of `parseSensitivityValueToINR(raw)`, `absent` for
its `null`.  The parsing of the text itself is not modelled: both readings are inputs. -/
structure FormValue (K : Type) where
  num : JSNum K
  inr : JSNum K

/-- The part of `appState` that `applySettingsValuesToState` writes. -/
structure SettingsState (K : Type) where
  epiSettings : Settings K
  usdRate : K

/-- The helper `applyToAllTiers` of `applySettingsValuesToState`. -/
def applyToAllTiers (fn : TierSettings K → TierSettings K) (s : Settings K) : Settings K :=
  { s with
    frontline := fn s.frontline
    intermediate := fn s.intermediate
    advanced := fn s.advanced }

/-- `Math.round` on a finite number: the nearest whole number, halves rounded up. -/
def mathRound (v : K) : K :=
  ((⌊v + 1 / 2⌋ : ℤ) : K)

/-- The planning-horizon branch: a finite positive value is rounded and stored. -/
def setPlanningHorizon (st : SettingsState K) (num : JSNum K) : SettingsState K :=
  match num with
  | JSNum.fin v =>
    if v > 0 then
      { st with epiSettings :=
          { st.epiSettings with
            general := { st.epiSettings.general with planningHorizonYears := mathRound v } } }
    else st
  | _ => st

/-- The discount branch: a finite non-negative value, read as a percentage when above
1, is clamped to `[0, 1]` and stored. -/
def setDiscountRate (st : SettingsState K) (num : JSNum K) : SettingsState K :=
  match num with
  | JSNum.fin v =>
    if v ≥ 0 then
      let r := if v > 1 then v / 100 else v
      { st with epiSettings :=
          { st.epiSettings with
            general := { st.epiSettings.general with epiDiscountRate := clamp r 0 1 } } }
    else st
  | _ => st

/-- The exchange-rate branch: a finite positive value is stored in both places. -/
def setUsdRate (st : SettingsState K) (num : JSNum K) : SettingsState K :=
  match num with
  | JSNum.fin v =>
    if v > 0 then
      { epiSettings :=
          { st.epiSettings with
            general := { st.epiSettings.general with inrToUsdRate := v } }
        usdRate := v }
    else st
  | _ => st

/-- The second alternative of the value-per-outbreak branch: a finite positive number,
read as millions when below 1000, is stored in every tier. -/
def setOutbreakValueByNumber (st : SettingsState K) (num : JSNum K) : SettingsState K :=
  match num with
  | JSNum.fin n =>
    if n > 0 then
      let v := if n < 1000 then n * 1000000 else n
      { st with epiSettings :=
          applyToAllTiers (fun t => { t with valuePerOutbreak := v }) st.epiSettings }
    else st
  | _ => st

/-- The value-per-outbreak branch: the parsed amount when it is finite and positive,
otherwise the plain number. -/
def setOutbreakValue (st : SettingsState K) (raw : FormValue K) : SettingsState K :=
  match raw.inr with
  | JSNum.fin vInr =>
    if vInr > 0 then
      { st with epiSettings :=
          applyToAllTiers (fun t => { t with valuePerOutbreak := vInr }) st.epiSettings }
    else setOutbreakValueByNumber st raw.num
  | _ => setOutbreakValueByNumber st raw.num

/-- The completion-rate branch: a finite non-negative value, read as a percentage when
above 1, is clamped to `[0, 1]` and stored in every tier. -/
def setCompletionRate (st : SettingsState K) (num : JSNum K) : SettingsState K :=
  match num with
  | JSNum.fin n =>
    if n ≥ 0 then
      let cr := clamp (if n > 1 then n / 100 else n) 0 1
      { st with epiSettings :=
          applyToAllTiers (fun t => { t with completionRate := cr }) st.epiSettings }
    else st
  | _ => st

/-- The outbreaks-per-graduate branch: a finite non-negative value is stored in every
tier. -/
def setOutbreaksPerGraduate (st : SettingsState K) (num : JSNum K) : SettingsState K :=
  match num with
  | JSNum.fin n =>
    if n ≥ 0 then
      { st with epiSettings :=
          applyToAllTiers (fun t => { t with outbreaksPerGraduatePerYear := n }) st.epiSettings }
    else st
  | _ => st

/-- The value-per-graduate branch: a finite non-negative value is stored in every
tier. -/
def setGraduateValue (st : SettingsState K) (num : JSNum K) : SettingsState K :=
  match num with
  | JSNum.fin n =>
    if n ≥ 0 then
      { st with epiSettings :=
          applyToAllTiers (fun t => { t with valuePerGraduate := n }) st.epiSettings }
    else st
  | _ => st

/-- The body of the `forEach` in `applySettingsValuesToState`: one submitted key and
value applied to the state; the first matching branch is taken. -/
def applySettingsValue (st : SettingsState K) (entry : String × FormValue K) :
    SettingsState K :=
  let raw := entry.2
  let lower := toLowerCase entry.1
  if includes lower "planning" && includes lower "horizon" then
    setPlanningHorizon st raw.num
  else if includes lower "discount" then
    setDiscountRate st raw.num
  else if includes lower "usd" || includes lower "exchange" || includes lower "inr_to_usd"
      || includes lower "inrtousd" then
    setUsdRate st raw.num
  else if includes lower "value" && includes lower "outbreak" then
    setOutbreakValue st raw
  else if includes lower "completion" && includes lower "rate" then
    setCompletionRate st raw.num
  else if includes lower "outbreaks" && includes lower "graduate" then
    setOutbreaksPerGraduate st raw.num
  else if includes lower "value" && includes lower "graduate" then
    setGraduateValue st raw.num
  else st

/-- Source `applySettingsValuesToState`, as a function of the state: `values` is `none`
for a missing object and otherwise the submitted entries in key order.  The record of the
applied values and the refresh of the dropdowns are not part of the model. -/
def applySettingsValuesToState (values : Option (List (String × FormValue K)))
    (st : SettingsState K) : SettingsState K :=
  match values with
  | none => st
  | some entries => entries.foldl applySettingsValue st

/-- The ranges of one tier's settings in the data model: completion rate in `[0, 1]`
and the other three values not negative. -/
def TierInRange (t : TierSettings K) : Prop :=
  0 ≤ t.completionRate ∧ t.completionRate ≤ 1 ∧ 0 ≤ t.outbreaksPerGraduatePerYear
    ∧ 0 ≤ t.valuePerOutbreak ∧ 0 ≤ t.valuePerGraduate

/-- The range invariant of the settings as the data model states it: a positive
planning horizon, a discount rate in `[0, 1)` and every tier in range. -/
def SettingsInRange (s : Settings K) : Prop :=
  0 < s.general.planningHorizonYears
    ∧ 0 ≤ s.general.epiDiscountRate ∧ s.general.epiDiscountRate < 1
    ∧ TierInRange s.frontline ∧ TierInRange s.intermediate ∧ TierInRange s.advanced

/-- The range invariant with the discount rate in the closed interval `[0, 1]`. -/
def SettingsInClosedRange (s : Settings K) : Prop :=
  0 < s.general.planningHorizonYears
    ∧ 0 ≤ s.general.epiDiscountRate ∧ s.general.epiDiscountRate ≤ 1
    ∧ TierInRange s.frontline ∧ TierInRange s.intermediate ∧ TierInRange s.advanced

/-- A submitted entry whose planning horizon, if it is one and is accepted, is at least
one half, so that it does not round to 0. -/
def HorizonRoundsUp (entry : String × FormValue K) : Prop :=
  (includes (toLowerCase entry.1) "planning" && includes (toLowerCase entry.1) "horizon") = true →
    ∀ v : K, entry.2.num = JSNum.fin v → 0 < v → 1 / 2 ≤ v

end SettingsForm

/-! ## Concrete inputs used by witnesses and counterexamples -/

section Examples

variable {K : Type} [LinearOrderedField K]

/-- The configuration of the worked example of the specification (intermediate tier,
certificate, medium mentorship, in-person, 7-day response, 100,000 per trainee per
month), with the form defaults in the fields the preference model does not read. -/
def exampleConfig : Config K where
  tier := "intermediate"
  career := "certificate"
  mentorship := "medium"
  delivery := "inperson"
  response := "7"
  costPerTraineePerMonth := 100000
  traineesPerCohort := 25
  cohorts := 10
  planningHorizonYears := some 5
  opportunityCostIncluded := true
  completionRateOverride := JSNum.absent
  mentorSupportCostPerCohortBase := 0
  availableMentorsNational := some 200
  availableTrainingSites := 0
  maxCohortsPerSitePerYear := 0
  crossSectorBenefitMultiplier := JSNum.fin 1
  salaryMonthlyFaculty := JSNum.fin 200000
  salaryMonthlyCoordinator := JSNum.fin 70000
  salaryMonthlyParticipant := JSNum.fin 100000
  preferenceModel := some "Mixed logit model from the preference study"

/-- A frontline tier configuration of a baseline portfolio: 5 cohorts of 20 trainees at
50,000 per trainee per month, opportunity cost switched off, completion set to 0. -/
def frontlineTier : Config K where
  tier := "frontline"
  career := "certificate"
  mentorship := "low"
  delivery := "blended"
  response := "7"
  costPerTraineePerMonth := 50000
  traineesPerCohort := 20
  cohorts := 5
  planningHorizonYears := some 1
  opportunityCostIncluded := false
  completionRateOverride := JSNum.fin 0
  mentorSupportCostPerCohortBase := 0
  availableMentorsNational := some 200
  availableTrainingSites := 1
  maxCohortsPerSitePerYear := 0
  crossSectorBenefitMultiplier := JSNum.fin 1
  salaryMonthlyFaculty := JSNum.absent
  salaryMonthlyCoordinator := JSNum.absent
  salaryMonthlyParticipant := JSNum.absent
  preferenceModel := none

/-- An intermediate tier configuration of a baseline portfolio: 2 cohorts of 20 trainees
at 100,000 per trainee per month, opportunity cost switched off, completion set to 0. -/
def intermediateTier : Config K :=
  { (frontlineTier : Config K) with
    tier := "intermediate"
    costPerTraineePerMonth := 100000
    cohorts := 2 }

/-- The scalar properties of a portfolio configuration object that carries no
single-tier fields of its own. -/
def portfolioOwn : Config K :=
  { (frontlineTier : Config K) with
    tier := "portfolio"
    career := ""
    mentorship := ""
    delivery := ""
    response := ""
    costPerTraineePerMonth := 0
    traineesPerCohort := 0
    cohorts := 0
    availableMentorsNational := none
    completionRateOverride := JSNum.absent
    crossSectorBenefitMultiplier := JSNum.absent }

/-- A two-tier baseline portfolio: the frontline and intermediate tiers above. -/
def examplePortfolio : PortfolioConfig K where
  portfolioTiers :=
    { frontline := some frontlineTier, intermediate := some intermediateTier, advanced := none }
  planningHorizonYears := some 1
  preferenceModel := none
  own := portfolioOwn

/-- The clock used in the examples: every reading is instant 0. -/
def exampleClock : String → Clock := fun _ => ⟨0, 0⟩

/-- A saved single-tier result with no cohorts: its national cost and benefit are 0. -/
def zeroCostScenario : SavedScenario K where
  totalEconomicCostAllCohorts := none
  natTotalCost := some 0
  totalEpiBenefitsAllCohorts := none
  epiBenefitAllCohorts := some 0
  netBenefitAllCohorts := some 0
  graduatesAllCohorts := some 0

/-- The settings state at start-up: the default settings and their exchange rate. -/
def defaultState : SettingsState K where
  epiSettings := defaultEpiSettings
  usdRate := 83

/-- A submitted discount rate of 100 (per cent) under the key `discountRate`. -/
def discountEntry : String × FormValue K :=
  ("discountRate", { num := JSNum.fin 100, inr := JSNum.fin 100000000 })

/-- A submitted planning horizon of 0.4 years under the key `planningHorizonYears`. -/
def shortHorizonEntry : String × FormValue K :=
  ("planningHorizonYears", { num := JSNum.fin 0.4, inr := JSNum.fin 400000 })

end Examples

/-! ## Preference model: theorems -/

section PreferenceTheorems

variable {K : Type} [LinearOrderedField K]

/-- Clamping a percentage and its complement to `[0, 100]` keeps their sum at 100,
whatever the percentage. -/
theorem clamp_add_clamp_complement (x : K) :
    clamp x 0 100 + clamp (100 - x) 0 100 = 100 := by
  unfold clamp
  simp only [min_def, max_def]
  split_ifs <;> linarith

/-- Claim C1: for every configuration and every cost per trainee per month, the
`endorseRate` and `optOutRate` returned by `computeEndorsementAndWTP` sum to exactly 100
(this holds for the softmax branch and for the `0.5` fallback alike). -/
theorem C1_endorse_plus_optout_eq_100 (M : MathFns K) (config : Config K) :
    (computeEndorsementAndWTP M config).endorseRate
      + (computeEndorsementAndWTP M config).optOutRate = 100 := by
  have h := clamp_add_clamp_complement (endorseProb M config * 100)
  have e : (1 - endorseProb M config) * 100 = 100 - endorseProb M config * 100 := by ring
  simpa [computeEndorsementAndWTP, e] using h

/-- Over the reals the softmax of `computeEndorsementAndWTP` is the plain logistic
function of the utility difference, whichever utility is the larger. -/
theorem endorseProb_realMath (config : Config ℝ) :
    endorseProb realMath config
      = 1 / (1 + Real.exp ((ascOptOut : ℝ) - utilProgram config)) := by
  have hpos : ∀ x : ℝ, 0 < Real.exp x := Real.exp_pos
  unfold endorseProb
  simp only [realMath]
  rcases le_total (utilProgram config) (ascOptOut : ℝ) with h | h
  · rw [max_eq_right h, sub_self, Real.exp_zero]
    have hd : Real.exp (utilProgram config - ascOptOut) + 1 > 0 := by
      have := hpos (utilProgram config - ascOptOut)
      linarith
    rw [if_pos hd]
    have hmul : Real.exp (utilProgram config - ascOptOut)
        * Real.exp ((ascOptOut : ℝ) - utilProgram config) = 1 := by
      rw [← Real.exp_add]; simp
    have h1 := hpos ((ascOptOut : ℝ) - utilProgram config)
    rw [div_eq_div_iff (by linarith) (by linarith)]
    linear_combination hmul
  · rw [max_eq_left h, sub_self, Real.exp_zero]
    have hd : 1 + Real.exp ((ascOptOut : ℝ) - utilProgram config) > 0 := by
      have := hpos ((ascOptOut : ℝ) - utilProgram config)
      linarith
    rw [if_pos hd]

/-- Bounds on `exp (-0.66)` from the order-8 Taylor polynomial. -/
theorem exp_neg_066_bounds :
    (0.51684 : ℝ) < Real.exp (-(33 / 50)) ∧ Real.exp (-(33 / 50)) < 0.51686 := by
  have hx : |(-(33 / 50) : ℝ)| ≤ 1 := by rw [abs_le]; constructor <;> norm_num
  have h := Real.exp_bound hx (n := 8) (by norm_num)
  have habs : |(-(33 / 50) : ℝ)| = 33 / 50 := by rw [abs_of_neg (by norm_num)]; norm_num
  rw [habs] at h
  simp only [Finset.sum_range_succ, Finset.sum_range_zero, Nat.factorial] at h
  rw [abs_le] at h
  obtain ⟨h1, h2⟩ := h
  norm_num at h1 h2
  constructor <;> norm_num <;> linarith

/-- Bounds on `exp (-1.32)`, the odds of opting out in the worked example. -/
theorem exp_neg_132_bounds :
    (0.2671 : ℝ) < Real.exp (-(33 / 25)) ∧ Real.exp (-(33 / 25)) < 0.2672 := by
  have e : Real.exp (-(33 / 25)) = Real.exp (-(33 / 50)) * Real.exp (-(33 / 50)) := by
    rw [← Real.exp_add]; norm_num
  obtain ⟨h1, h2⟩ := exp_neg_066_bounds
  have h0 := Real.exp_pos (-(33 / 50))
  rw [e]
  constructor <;> nlinarith

/-- The programme utility of the worked example is 0.719. -/
theorem utilProgram_example (config : Config K)
    (ht : config.tier = "intermediate") (hc : config.career = "certificate")
    (hm : config.mentorship = "medium") (hd : config.delivery = "inperson")
    (hr : config.response = "7") (hcost : config.costPerTraineePerMonth = 100000) :
    utilProgram config = 0.168 + 0.220 + 0 + 0.453 - 0.232 + 0.610 - 0.5
      ∧ utilProgram config = 0.719 := by
  simp [utilProgram, ht, hc, hm, hd, hr, hcost, ascProgram, tierEffect, careerEffect,
    mentorshipEffect, deliveryEffect, responseEffect, costPerThousand]
  constructor <;> norm_num

/-- The endorsement rate of the worked example lies between 78.91 and 78.93. -/
theorem endorseRate_example_bounds (config : Config ℝ)
    (ht : config.tier = "intermediate") (hc : config.career = "certificate")
    (hm : config.mentorship = "medium") (hd : config.delivery = "inperson")
    (hr : config.response = "7") (hcost : config.costPerTraineePerMonth = 100000) :
    78.91 < (computeEndorsementAndWTP realMath config).endorseRate
      ∧ (computeEndorsementAndWTP realMath config).endorseRate < 78.93 := by
  have hu := (utilProgram_example config ht hc hm hd hr hcost).2
  have hp : endorseProb realMath config = 1 / (1 + Real.exp (-(33 / 25))) := by
    rw [endorseProb_realMath, hu]
    norm_num [ascOptOut]
  obtain ⟨h1, h2⟩ := exp_neg_132_bounds
  have hlo : (0.7891 : ℝ) < 1 / (1 + Real.exp (-(33 / 25))) := by
    rw [lt_div_iff₀ (by linarith)]; linarith
  have hhi : 1 / (1 + Real.exp (-(33 / 25))) < (0.7893 : ℝ) := by
    rw [div_lt_iff₀ (by linarith)]; linarith
  simp only [computeEndorsementAndWTP, hp, clamp]
  rw [max_eq_left (by linarith), min_eq_left (by linarith)]
  constructor <;> linarith

/-- Claim C2, amended: for tier intermediate, career certificate, mentorship medium,
delivery in-person, response 7 and cost 100,000 per trainee per month, the programme
utility is 0.168+0.220+0+0.453-0.232+0.610-0.5 = 0.719, the opt-out utility is -0.601,
and the returned `endorseRate` is 78.9 to one decimal place (within 0.05 of 78.9). -/
theorem C2_example_endorsement (config : Config ℝ)
    (ht : config.tier = "intermediate") (hc : config.career = "certificate")
    (hm : config.mentorship = "medium") (hd : config.delivery = "inperson")
    (hr : config.response = "7") (hcost : config.costPerTraineePerMonth = 100000) :
    utilProgram config = 0.168 + 0.220 + 0 + 0.453 - 0.232 + 0.610 - 0.5
      ∧ utilProgram config = 0.719
      ∧ (ascOptOut : ℝ) = -0.601
      ∧ |(computeEndorsementAndWTP realMath config).endorseRate - 78.9| < 0.05 := by
  obtain ⟨h1, h2⟩ := endorseRate_example_bounds config ht hc hm hd hr hcost
  refine ⟨(utilProgram_example config ht hc hm hd hr hcost).1,
    (utilProgram_example config ht hc hm hd hr hcost).2, rfl, ?_⟩
  rw [abs_lt]
  constructor <;> linarith

/-- Witness for C2: the amended statement at the worked example itself. -/
theorem C2_example_endorsement_witness :
    utilProgram (exampleConfig : Config ℝ) = 0.719
      ∧ |(computeEndorsementAndWTP realMath exampleConfig).endorseRate - 78.9| < 0.05 :=
  ⟨(C2_example_endorsement exampleConfig rfl rfl rfl rfl rfl rfl).2.1,
    (C2_example_endorsement exampleConfig rfl rfl rfl rfl rfl rfl).2.2.2⟩

/-- Counterexample for C2 as stated: at the worked example the returned `endorseRate`
is not within 0.05 of 78.6. -/
theorem C2_stated_value_refuted :
    ¬ |(computeEndorsementAndWTP realMath exampleConfig).endorseRate - 78.6| ≤ 0.05 := by
  obtain ⟨h1, _⟩ := endorseRate_example_bounds exampleConfig rfl rfl rfl rfl rfl rfl
  intro h
  rw [abs_le] at h
  linarith [h.2]

/-- The real power with a negated natural exponent is the inverse of the ordinary
power. -/
theorem rpow_neg_ten (x : ℝ) (hx : 0 ≤ x) : x ^ (-(10 : ℝ)) = (x ^ 10)⁻¹ := by
  rw [Real.rpow_neg hx]
  congr 1
  exact_mod_cast Real.rpow_natCast x 10

/-- Claim C3: `presentValueFactor(rate, years)` is 0 whenever `years <= 0`, is `years`
whenever `years > 0` and `rate <= 0`, and is `(1 - (1+rate)^(-years)) / rate` otherwise;
`presentValueFactor(0,5) = 5`, `presentValueFactor(r,0) = 0` for every `r`, and
`presentValueFactor(0.03,10)` is within 0.0005 of 8.530. -/
theorem C3_presentValueFactor :
    (∀ rate years : ℝ, years ≤ 0 → presentValueFactor realMath rate years = 0)
      ∧ (∀ rate years : ℝ, 0 < years → rate ≤ 0 →
          presentValueFactor realMath rate years = years)
      ∧ (∀ rate years : ℝ, 0 < years → 0 < rate →
          presentValueFactor realMath rate years = (1 - (1 + rate) ^ (-years)) / rate)
      ∧ presentValueFactor realMath 0 5 = 5
      ∧ (∀ r : ℝ, presentValueFactor realMath r 0 = 0)
      ∧ |presentValueFactor realMath 0.03 10 - 8.530| ≤ 0.0005 := by
  refine ⟨?_, ?_, ?_, ?_, ?_, ?_⟩
  · intro rate years h
    simp [presentValueFactor, h]
  · intro rate years hy hr
    simp [presentValueFactor, not_le.mpr hy, hr]
  · intro rate years hy hr
    simp [presentValueFactor, not_le.mpr hy, not_le.mpr hr, realMath]
  · norm_num [presentValueFactor]
  · intro r
    simp [presentValueFactor]
  · have e : presentValueFactor realMath 0.03 10
        = (1 - ((1 + 0.03 : ℝ) ^ 10)⁻¹) / 0.03 := by
      have h := rpow_neg_ten (1 + 0.03) (by norm_num)
      simp only [presentValueFactor, realMath]
      rw [if_neg (by norm_num), if_neg (by norm_num), h]
    rw [e, abs_le]
    constructor <;> norm_num

/-- Witness for C3: the three branches of `presentValueFactor` at concrete arguments. -/
theorem C3_presentValueFactor_witness :
    presentValueFactor realMath 0.03 (-2) = 0
      ∧ presentValueFactor realMath (-0.01) 4 = 4
      ∧ presentValueFactor realMath 0.03 10 = (1 - (1 + 0.03) ^ (-(10 : ℝ))) / 0.03 :=
  ⟨C3_presentValueFactor.1 0.03 (-2) (by norm_num),
    C3_presentValueFactor.2.1 (-0.01) 4 (by norm_num) (by norm_num),
    C3_presentValueFactor.2.2.1 0.03 10 (by norm_num) (by norm_num)⟩

end PreferenceTheorems

/-! ## Baseline comparison: theorems -/

section IncrementalTheorems

variable {K : Type} [LinearOrderedField K]

/-- Claim C5: for non-null candidate and baseline results `computeIncrementalMetrics`
returns the cost and benefit differences and their net; `incrementalBcr` is the ratio of
the two differences if and only if the cost difference is positive, and whenever the cost
difference is not positive (whatever the benefit difference) it is the `null` sentinel and
the explanatory note is set. -/
theorem C5_incremental_metrics (s b : CostBenefit K) :
    ∃ m : IncrementalMetrics K,
      computeIncrementalMetrics (some s) (some b) = some m
        ∧ m.deltaCost = s.natTotalCost - b.natTotalCost
        ∧ m.deltaBenefit = s.epiBenefitAllCohorts - b.epiBenefitAllCohorts
        ∧ m.deltaNet = m.deltaBenefit - m.deltaCost
        ∧ (m.incrementalBcr = some (m.deltaBenefit / m.deltaCost) ↔ 0 < m.deltaCost)
        ∧ (m.deltaCost ≤ 0 → m.incrementalBcr = none
            ∧ m.note = some "Incremental BCR not defined when incremental cost â‰¤ 0")
        ∧ (0 < m.deltaCost → m.note = none) := by
  refine ⟨_, rfl, rfl, rfl, rfl, ?_, ?_, ?_⟩
  · by_cases h : s.natTotalCost - b.natTotalCost > 0
    · simp [h]
    · simp only [gt_iff_lt] at h
      simp [h]
  · intro h
    have h2 : ¬ (s.natTotalCost - b.natTotalCost > 0) := not_lt.mpr h
    exact ⟨by simp only [if_neg h2], by simp only [if_pos h]⟩
  · intro h
    have h2 : ¬ (s.natTotalCost - b.natTotalCost ≤ 0) := not_le.mpr h
    simp only [if_neg h2]

/-- Witness for C5: a candidate that is cheaper than the baseline and yields more
benefit has no incremental ratio, and the note is set. -/
theorem C5_incremental_metrics_witness :
    ∃ m : IncrementalMetrics ℚ,
      computeIncrementalMetrics (some ⟨80, 300⟩) (some ⟨100, 200⟩) = some m
        ∧ m.deltaCost = -20 ∧ m.deltaBenefit = 100 ∧ m.incrementalBcr = none
        ∧ m.note = some "Incremental BCR not defined when incremental cost â‰¤ 0" := by
  obtain ⟨m, hm, hc, hb, -, -, hle, -⟩ :=
    C5_incremental_metrics (⟨80, 300⟩ : CostBenefit ℚ) ⟨100, 200⟩
  have hc2 : m.deltaCost = -20 := by rw [hc]; norm_num
  have hb2 : m.deltaBenefit = 100 := by rw [hb]; norm_num
  exact ⟨m, hm, hc2, hb2, (hle (by rw [hc2]; norm_num)).1, (hle (by rw [hc2]; norm_num)).2⟩

end IncrementalTheorems

/-! ## Cost model: theorems -/

section CostTheorems

variable {K : Type} [LinearOrderedField K] [FloorRing K]

/-- Claim C9: `computeCosts` returns
`totalEconomicCostPerCohort = programmeCost + mentorCost + (switch on ? existing
opportunity cost : 0) + (switch on ? salary-based opportunity cost : 0)` with
`programmeCost = costPerTraineePerMonth × months(tier) × traineesPerCohort`, months
3/12/24 for frontline/intermediate/advanced, `mentorCost = base × multiplier`, multiplier
1.3 for medium, 1.7 for high and 1.0 otherwise; `totalEconomicCostAllCohorts` is the
per-cohort total times `cohorts`; and direct + included existing + included salary-based
opportunity cost equals `totalEconomicCostPerCohort` exactly. -/
theorem C9_computeCosts_total (config : Config K) :
    (computeCosts config).programmeCostPerCohort
        = config.costPerTraineePerMonth * tierMonths config.tier * config.traineesPerCohort
      ∧ (tierMonths "frontline" : K) = 3 ∧ (tierMonths "intermediate" : K) = 12
      ∧ (tierMonths "advanced" : K) = 24
      ∧ (computeCosts config).mentorCostPerCohort
          = config.mentorSupportCostPerCohortBase * mentorshipMultiplier config.mentorship
      ∧ (mentorshipMultiplier "medium" : K) = 1.3 ∧ (mentorshipMultiplier "high" : K) = 1.7
      ∧ (∀ m : String, m ≠ "medium" → m ≠ "high" → (mentorshipMultiplier m : K) = 1.0)
      ∧ (computeCosts config).totalEconomicCostPerCohort
          = (computeCosts config).programmeCostPerCohort
            + (computeCosts config).mentorCostPerCohort
            + (if config.opportunityCostIncluded then
                (computeCosts config).programmeCostPerCohort * templateOppRate config.tier
               else 0)
            + (if config.opportunityCostIncluded then
                (computeSalaryBasedOpportunityCostPerCohort config).total
               else 0)
      ∧ (computeCosts config).totalEconomicCostAllCohorts
          = (computeCosts config).totalEconomicCostPerCohort * config.cohorts
      ∧ (computeCosts config).directCostPerCohort
          = (computeCosts config).programmeCostPerCohort
            + (computeCosts config).mentorCostPerCohort
      ∧ (computeCosts config).directCostPerCohort
            + (computeCosts config).opportunityCostPerCohort
            + (computeCosts config).salaryBasedOpportunityCostPerCohort
          = (computeCosts config).totalEconomicCostPerCohort
      ∧ (computeCosts config).directCostPerCohort
            + (if config.opportunityCostIncluded then
                (computeCosts config).opportunityCostPerCohort else 0)
            + (if config.opportunityCostIncluded then
                (computeCosts config).salaryBasedOpportunityCostPerCohort else 0)
          = (computeCosts config).totalEconomicCostPerCohort := by
  refine ⟨rfl, ?_, ?_, ?_, rfl, ?_, ?_, ?_, ?_, rfl, rfl, rfl, ?_⟩
  · simp [tierMonths]
  · simp [tierMonths]
  · simp [tierMonths]
  · simp [mentorshipMultiplier]
  · simp [mentorshipMultiplier]
  · intro m h1 h2
    simp [mentorshipMultiplier, h1, h2]
  · cases h : config.opportunityCostIncluded <;>
      simp [computeCosts, templateOppRate, h]
  · cases h : config.opportunityCostIncluded <;>
      simp [computeCosts, h]

/-- Witness for C9: the multiplier of an intensity other than medium and high. -/
theorem C9_computeCosts_total_witness : (mentorshipMultiplier "low" : ℚ) = 1.0 :=
  (C9_computeCosts_total (exampleConfig : Config ℚ)).2.2.2.2.2.2.2.1 "low"
    (by decide) (by decide)

/-- Claim C10: with `opportunityCostIncluded` true, `computeCosts` returns
`opportunityCostPerCohort = programmeCostPerCohort × template rate` (1.09 frontline,
0.35 intermediate, 0.30 advanced) and `salaryBasedOpportunityCostPerCohort` equal to the
raw salary-based total; with it false both are 0 and `totalEconomicCostPerCohort` equals
`directCostPerCohort`; and `salaryBasedOpportunityCostPerCohortRaw` does not depend on
the switch. -/
theorem C10_opportunity_cost_switch (config : Config K) :
    (config.opportunityCostIncluded = true →
        (computeCosts config).opportunityCostPerCohort
            = (computeCosts config).programmeCostPerCohort * templateOppRate config.tier
          ∧ (computeCosts config).salaryBasedOpportunityCostPerCohort
            = (computeCosts config).salaryBasedOpportunityCostPerCohortRaw)
      ∧ (templateOppRate "frontline" : K) = 1.09
      ∧ (templateOppRate "intermediate" : K) = 0.35
      ∧ (templateOppRate "advanced" : K) = 0.30
      ∧ (config.opportunityCostIncluded = false →
          (computeCosts config).opportunityCostPerCohort = 0
            ∧ (computeCosts config).salaryBasedOpportunityCostPerCohort = 0
            ∧ (computeCosts config).totalEconomicCostPerCohort
              = (computeCosts config).directCostPerCohort)
      ∧ (computeCosts config).salaryBasedOpportunityCostPerCohortRaw
          = (computeSalaryBasedOpportunityCostPerCohort config).total
      ∧ (∀ b : Bool,
          (computeCosts { config with opportunityCostIncluded := b }).salaryBasedOpportunityCostPerCohortRaw
            = (computeCosts config).salaryBasedOpportunityCostPerCohortRaw) := by
  refine ⟨?_, ?_, ?_, ?_, ?_, rfl, ?_⟩
  · intro h
    simp [computeCosts, templateOppRate, h]
  · simp [templateOppRate, costTemplate]
  · simp [templateOppRate, costTemplate]
  · simp [templateOppRate, costTemplate]
  · intro h
    simp [computeCosts, h]
  · intro b
    rfl

/-- Witness for C10: the worked example has the switch on; turning it off zeroes both
opportunity costs. -/
theorem C10_opportunity_cost_switch_witness :
    (computeCosts (exampleConfig : Config ℚ)).salaryBasedOpportunityCostPerCohort
        = (computeCosts (exampleConfig : Config ℚ)).salaryBasedOpportunityCostPerCohortRaw
      ∧ (computeCosts
          { (exampleConfig : Config ℚ) with opportunityCostIncluded := false }).opportunityCostPerCohort
        = 0 :=
  ⟨((C10_opportunity_cost_switch (exampleConfig : Config ℚ)).1 rfl).2,
    ((C10_opportunity_cost_switch
      { (exampleConfig : Config ℚ) with opportunityCostIncluded := false }).2.2.2.2.1 rfl).1⟩

end CostTheorems

/-! ## Scenario aggregation: theorems -/

section SettingsTheorems

variable {K : Type}

/-- The settings store has an entry for each of the three tiers. -/
theorem Settings.tiers_of_mem (settings : Settings K) {tier : String}
    (h : tier ∈ tierKeys) : ∃ ts, settings.tiers tier = some ts := by
  simp only [tierKeys, List.mem_cons, List.mem_singleton, List.not_mem_nil, or_false] at h
  rcases h with h | h | h <;> subst h <;> simp [Settings.tiers]

/-- For a tier with a settings entry `computeEpidemiological` returns a result. -/
theorem computeEpidemiological_isSome [LinearOrderedField K] (M : MathFns K) (settings : Settings K)
    (config : Config K) (e : K) (h : config.tier ∈ tierKeys) :
    ∃ epi, computeEpidemiological M settings config e = some epi := by
  obtain ⟨ts, hts⟩ := settings.tiers_of_mem h
  simp only [computeEpidemiological, hts]
  exact ⟨_, rfl⟩

end SettingsTheorems

section ScenarioTheorems

variable {K : Type} [LinearOrderedField K] [FloorRing K]

/-- The shape of a successful `computeScenario`: every derived output in terms of the
three sub-model results. -/
theorem computeScenario_eq_some (M : MathFns K) (settings : Settings K) (clock : Clock)
    (config : Config K) (epi : Epi K)
    (h : computeEpidemiological M settings config
      (computeEndorsementAndWTP M config).endorseRate = some epi) :
    ∃ r, computeScenario M settings clock config = some r
      ∧ r.costs = computeCosts config
      ∧ r.epi = epi
      ∧ r.config = config
      ∧ r.endorseRate = (computeEndorsementAndWTP M config).endorseRate
      ∧ r.optOutRate = (computeEndorsementAndWTP M config).optOutRate
      ∧ r.epiBenefitPerCohort = epi.epiBenefitPerCohort
      ∧ r.epiBenefitAllCohorts = epi.epiBenefitPerCohort * config.cohorts
      ∧ r.natTotalCost = (computeCosts config).totalEconomicCostPerCohort * config.cohorts
      ∧ r.netBenefitAllCohorts = r.epiBenefitAllCohorts - r.natTotalCost
      ∧ r.graduatesAllCohorts = epi.graduatesAllCohorts
      ∧ r.outbreaksPerYearNational = epi.outbreaksPerYearNational
      ∧ r.bcrPerCohort
          = (if (computeCosts config).totalEconomicCostPerCohort > 0 then
              some (epi.epiBenefitPerCohort / (computeCosts config).totalEconomicCostPerCohort)
             else none)
      ∧ r.natBcr
          = (if r.natTotalCost > 0 then some (r.epiBenefitAllCohorts / r.natTotalCost)
             else none) := by
  simp only [computeScenario, h]
  exact ⟨_, rfl, rfl, rfl, rfl, rfl, rfl, rfl, rfl, rfl, rfl, rfl, rfl, rfl, rfl⟩

/-- Whatever `computeScenario` returns has the shape given by `computeScenario_eq_some`:
the fields of a returned result in terms of the configuration. -/
theorem computeScenario_fields (M : MathFns K) (settings : Settings K) (clock : Clock)
    (config : Config K) (s : ScenarioResult K)
    (h : computeScenario M settings clock config = some s) :
    s.config = config
      ∧ s.endorseRate = (computeEndorsementAndWTP M config).endorseRate
      ∧ s.optOutRate = (computeEndorsementAndWTP M config).optOutRate
      ∧ s.natTotalCost = (computeCosts config).totalEconomicCostPerCohort * config.cohorts
      ∧ s.netBenefitAllCohorts = s.epiBenefitAllCohorts - s.natTotalCost
      ∧ s.natBcr
          = (if s.natTotalCost > 0 then some (s.epiBenefitAllCohorts / s.natTotalCost)
             else none)
      ∧ ∃ epi, computeEpidemiological M settings config
            (computeEndorsementAndWTP M config).endorseRate = some epi
          ∧ s.epi = epi
          ∧ s.epiBenefitAllCohorts = epi.epiBenefitPerCohort * config.cohorts := by
  rcases hepi : computeEpidemiological M settings config
      (computeEndorsementAndWTP M config).endorseRate with _ | epi
  · simp [computeScenario, hepi] at h
  · obtain ⟨r, hr, -, he, hc, h1, h2, -, h4, h5, h6, -, -, -, h9⟩ :=
      computeScenario_eq_some M settings clock config epi hepi
    rw [h] at hr
    cases hr
    exact ⟨hc, h1, h2, h5, h6, h9, epi, rfl, he, h4⟩

/-- Claim C4: for every configuration of one of the three tiers `computeScenario`
returns a result whose `bcrPerCohort` is `epiBenefitPerCohort /
totalEconomicCostPerCohort` when that cost is positive and the `null` sentinel
otherwise, and whose `natBcr` is `epiBenefitAllCohorts / natTotalCost` when
`natTotalCost` is positive and the `null` sentinel otherwise; with a non-positive cost
the reported ratio is the sentinel, never a number. -/
theorem C4_bcr_sentinel (M : MathFns K) (settings : Settings K) (clock : Clock)
    (config : Config K) (ht : config.tier ∈ tierKeys) :
    ∃ r, computeScenario M settings clock config = some r
      ∧ r.costs = computeCosts config
      ∧ r.natTotalCost = r.costs.totalEconomicCostPerCohort * config.cohorts
      ∧ (0 < r.costs.totalEconomicCostPerCohort →
          r.bcrPerCohort = some (r.epiBenefitPerCohort / r.costs.totalEconomicCostPerCohort))
      ∧ (r.costs.totalEconomicCostPerCohort ≤ 0 →
          r.bcrPerCohort = none ∧ ∀ x : K, r.bcrPerCohort ≠ some x)
      ∧ (0 < r.natTotalCost → r.natBcr = some (r.epiBenefitAllCohorts / r.natTotalCost))
      ∧ (r.natTotalCost ≤ 0 → r.natBcr = none ∧ ∀ x : K, r.natBcr ≠ some x) := by
  obtain ⟨epi, hepi⟩ := computeEpidemiological_isSome M settings config
    (computeEndorsementAndWTP M config).endorseRate ht
  obtain ⟨r, hr, hcosts, -, -, -, -, hb, -, hcost, -, -, -, hbcr, hnat⟩ :=
    computeScenario_eq_some M settings clock config epi hepi
  refine ⟨r, hr, hcosts, by rw [hcost, hcosts], ?_, ?_, ?_, ?_⟩
  · intro h
    rw [hbcr, hcosts, hb]
    rw [hcosts] at h
    simp [h]
  · intro h
    rw [hcosts] at h
    have h2 := not_lt.mpr h
    have h3 : r.bcrPerCohort = none := by rw [hbcr]; simp [h2]
    exact ⟨h3, by simp [h3]⟩
  · intro h
    rw [hnat]
    simp [h]
  · intro h
    have h2 := not_lt.mpr h
    have h3 : r.natBcr = none := by rw [hnat]; simp [h2]
    exact ⟨h3, by simp [h3]⟩

/-- Witness for C4: the worked example run with zero cohorts has a national cost of 0,
so its national ratio is the sentinel. -/
theorem C4_bcr_sentinel_witness :
    ∃ r, computeScenario realMath defaultEpiSettings ⟨0, 0⟩
          { (exampleConfig : Config ℝ) with cohorts := 0 } = some r
      ∧ r.natTotalCost = 0 ∧ r.natBcr = none := by
  obtain ⟨r, hr, -, hnat, -, -, -, hnone⟩ :=
    C4_bcr_sentinel realMath defaultEpiSettings ⟨0, 0⟩
      { (exampleConfig : Config ℝ) with cohorts := 0 } (by simp [exampleConfig, tierKeys])
  have h0 : r.natTotalCost = 0 := by rw [hnat]; simp
  exact ⟨r, hr, h0, (hnone (le_of_eq h0)).1⟩

end ScenarioTheorems

/-! ## Portfolio aggregation: theorems -/

section PortfolioTheorems

variable {K : Type} [LinearOrderedField K] [FloorRing K]

/-- A present tier of a known kind evaluates, and its result records its
configuration and the net-benefit identity. -/
theorem tierScenario_of_present (M : MathFns K) (settings : Settings K)
    (clock : String → Clock) (tiers : PortfolioTiers K) (k : String) (tc : Config K)
    (hk : tiers.get k = some tc) (ht : tc.tier ∈ tierKeys) :
    ∃ s, computeScenario M settings (clock k) tc = some s
      ∧ tierScenario M settings clock tiers k = some s
      ∧ s.config = tc
      ∧ s.netBenefitAllCohorts = s.epiBenefitAllCohorts - s.natTotalCost := by
  obtain ⟨epi, hepi⟩ := computeEpidemiological_isSome M settings tc
    (computeEndorsementAndWTP M tc).endorseRate ht
  obtain ⟨r, hr, -, -, hc, -, -, -, -, -, hn, -⟩ :=
    computeScenario_eq_some M settings (clock k) tc epi hepi
  exact ⟨r, hr, by simp [tierScenario, hk, hr], hc, hn⟩

/-- Under a key of the portfolio there is either no tier or a tier that evaluates. -/
theorem tier_cases (M : MathFns K) (settings : Settings K) (clock : String → Clock)
    (tiers : PortfolioTiers K) (H : TiersKnown tiers) (k : String) (hk : k ∈ tierKeys) :
    tiers.get k = none
      ∨ ∃ tc s, tiers.get k = some tc ∧ computeScenario M settings (clock k) tc = some s := by
  rcases h : tiers.get k with _ | tc
  · exact Or.inl rfl
  · obtain ⟨s, hs, -⟩ := tierScenario_of_present M settings clock tiers k tc h (H k hk tc h)
    exact Or.inr ⟨tc, s, rfl, hs⟩

/-- The state of the loop of `computePortfolioScenario` after the three keys: every
accumulator is the corresponding sum over the present tiers and the breakdown holds
each tier result. -/
theorem portfolio_fold (M : MathFns K) (settings : Settings K) (clock : String → Clock)
    (tiers : PortfolioTiers K) (H : TiersKnown tiers) :
    ∃ acc, tierKeys.foldlM (portfolioStep M settings clock tiers) PortfolioAcc.init = some acc
      ∧ acc.totalCost = tierTotal M settings clock tiers (fun s => s.natTotalCost)
      ∧ acc.totalBenefit = tierTotal M settings clock tiers (fun s => s.epiBenefitAllCohorts)
      ∧ acc.totalGrads = tierTotal M settings clock tiers (fun s => s.graduatesAllCohorts)
      ∧ acc.outbreaksPerYear
          = tierTotal M settings clock tiers (fun s => s.outbreaksPerYearNational)
      ∧ acc.wtpAll = tierTotal M settings clock tiers (fun s => s.wtpAllCohorts)
      ∧ acc.endorseWeighted
          = tierWeightedTotal M settings clock tiers (fun s => s.endorseRate)
      ∧ acc.optOutWeighted
          = tierWeightedTotal M settings clock tiers (fun s => s.optOutRate)
      ∧ acc.weightDenom = totalWeight tiers
      ∧ (∀ k ∈ tierKeys, acc.breakdown.get k = tierScenario M settings clock tiers k) := by
  rcases tier_cases M settings clock tiers H "frontline" (by simp [tierKeys])
    with h1 | ⟨tc1, s1, h1, e1⟩ <;>
  rcases tier_cases M settings clock tiers H "intermediate" (by simp [tierKeys])
    with h2 | ⟨tc2, s2, h2, e2⟩ <;>
  rcases tier_cases M settings clock tiers H "advanced" (by simp [tierKeys])
    with h3 | ⟨tc3, s3, h3, e3⟩
  all_goals
    simp [tierKeys, List.foldlM, portfolioStep, PortfolioAcc.init, tierTotal, tierValue,
      tierWeightedTotal, totalWeight, tierWeight, tierScenario, Breakdown.set, Breakdown.get,
      add_assoc, *]

/-- The result of `computePortfolioScenario` in terms of the sums over the present
tiers. -/
theorem computePortfolioScenario_spec (M : MathFns K) (settings : Settings K)
    (clock : String → Clock) (cfg : PortfolioConfig K) (H : TiersKnown cfg.portfolioTiers) :
    ∃ p, computePortfolioScenario M settings clock cfg = some p
      ∧ p.natTotalCost
          = tierTotal M settings clock cfg.portfolioTiers (fun s => s.natTotalCost)
      ∧ p.epiBenefitAllCohorts
          = tierTotal M settings clock cfg.portfolioTiers (fun s => s.epiBenefitAllCohorts)
      ∧ p.netBenefitAllCohorts = p.epiBenefitAllCohorts - p.natTotalCost
      ∧ p.graduatesAllCohorts
          = tierTotal M settings clock cfg.portfolioTiers (fun s => s.graduatesAllCohorts)
      ∧ p.outbreaksPerYearNational
          = tierTotal M settings clock cfg.portfolioTiers (fun s => s.outbreaksPerYearNational)
      ∧ p.natBcr
          = (if p.natTotalCost > 0 then some (p.epiBenefitAllCohorts / p.natTotalCost)
             else none)
      ∧ p.endorseRate
          = (if totalWeight cfg.portfolioTiers > 0 then
              tierWeightedTotal M settings clock cfg.portfolioTiers (fun s => s.endorseRate)
                / totalWeight cfg.portfolioTiers
             else 0)
      ∧ p.optOutRate
          = (if totalWeight cfg.portfolioTiers > 0 then
              tierWeightedTotal M settings clock cfg.portfolioTiers (fun s => s.optOutRate)
                / totalWeight cfg.portfolioTiers
             else max 0 (100 - p.endorseRate))
      ∧ (∀ k ∈ tierKeys,
          p.portfolioBreakdown.get k = tierScenario M settings clock cfg.portfolioTiers k) := by
  obtain ⟨acc, hacc, h1, h2, h3, h4, -, h6, h7, h8, h9⟩ :=
    portfolio_fold M settings clock cfg.portfolioTiers H
  simp only [computePortfolioScenario, hacc]
  refine ⟨_, rfl, h1, h2, rfl, h3, h4, rfl, ?_, ?_, h9⟩
  · simp only [h6, h8]
  · simp only [h6, h7, h8]

/-- The value of the net benefit of a tier is its benefit less its cost, also for an
absent tier. -/
theorem tierValue_net (M : MathFns K) (settings : Settings K) (clock : String → Clock)
    (tiers : PortfolioTiers K) (k : String) :
    tierValue M settings clock tiers (fun s => s.netBenefitAllCohorts) k
      = tierValue M settings clock tiers (fun s => s.epiBenefitAllCohorts) k
        - tierValue M settings clock tiers (fun s => s.natTotalCost) k := by
  unfold tierValue
  rcases h : tierScenario M settings clock tiers k with _ | s
  · simp
  · have hs : ∃ tc, computeScenario M settings (clock k) tc = some s := by
      unfold tierScenario at h
      rcases hk : tiers.get k with _ | tc
      · simp [hk] at h
      · exact ⟨tc, by simpa [hk] using h⟩
    obtain ⟨tc, htc⟩ := hs
    exact (computeScenario_fields M settings (clock k) tc s htc).2.2.2.2.1

/-- Claim C6: for a portfolio configuration with up to three tier configurations (each of
one of the three tiers) `computePortfolioScenario` returns `natTotalCost`,
`epiBenefitAllCohorts`, `netBenefitAllCohorts`, `graduatesAllCohorts` and
`outbreaksPerYearNational` equal to the sums over the present tiers of the same field
of `computeScenario` on the tier configuration; `natBcr` is the summed benefit over the
summed cost when the summed cost is positive and the `null` sentinel otherwise; and
`portfolioBreakdown` maps each present tier to its `computeScenario` result. -/
theorem C6_portfolio_sums (M : MathFns K) (settings : Settings K)
    (clock : String → Clock) (cfg : PortfolioConfig K) (H : TiersKnown cfg.portfolioTiers) :
    ∃ p, computePortfolioScenario M settings clock cfg = some p
      ∧ p.natTotalCost
          = tierTotal M settings clock cfg.portfolioTiers (fun s => s.natTotalCost)
      ∧ p.epiBenefitAllCohorts
          = tierTotal M settings clock cfg.portfolioTiers (fun s => s.epiBenefitAllCohorts)
      ∧ p.netBenefitAllCohorts
          = tierTotal M settings clock cfg.portfolioTiers (fun s => s.netBenefitAllCohorts)
      ∧ p.graduatesAllCohorts
          = tierTotal M settings clock cfg.portfolioTiers (fun s => s.graduatesAllCohorts)
      ∧ p.outbreaksPerYearNational
          = tierTotal M settings clock cfg.portfolioTiers (fun s => s.outbreaksPerYearNational)
      ∧ (0 < tierTotal M settings clock cfg.portfolioTiers (fun s => s.natTotalCost) →
          p.natBcr
            = some (tierTotal M settings clock cfg.portfolioTiers (fun s => s.epiBenefitAllCohorts)
                / tierTotal M settings clock cfg.portfolioTiers (fun s => s.natTotalCost)))
      ∧ (tierTotal M settings clock cfg.portfolioTiers (fun s => s.natTotalCost) ≤ 0 →
          p.natBcr = none)
      ∧ (∀ k ∈ tierKeys, ∀ tc, cfg.portfolioTiers.get k = some tc →
          p.portfolioBreakdown.get k = computeScenario M settings (clock k) tc)
      ∧ (∀ k ∈ tierKeys, cfg.portfolioTiers.get k = none →
          p.portfolioBreakdown.get k = none) := by
  obtain ⟨p, hp, hc, hb, hn, hg, ho, hbcr, -, -, hbd⟩ :=
    computePortfolioScenario_spec M settings clock cfg H
  refine ⟨p, hp, hc, hb, ?_, hg, ho, ?_, ?_, ?_, ?_⟩
  · rw [hn, hb, hc]
    simp only [tierTotal, tierKeys, List.map_cons, List.map_nil, List.sum_cons, List.sum_nil,
      tierValue_net]
    ring
  · intro h
    rw [hbcr, hb, hc, if_pos h]
  · intro h
    rw [hbcr, hc, if_neg (not_lt.mpr h)]
  · intro k hk tc htc
    rw [hbd k hk]
    simp [tierScenario, htc]
  · intro k hk htc
    rw [hbd k hk]
    simp [tierScenario, htc]

/-- Claim C8: for every portfolio whose total weight (the sum over the present tiers of
`cohorts × traineesPerCohort`) is positive, `computePortfolioScenario` returns
`endorseRate` and `optOutRate` equal to the weighted sums of the tier rates (those of
`computeScenario` on each tier) divided by the total weight. -/
theorem C8_portfolio_weighted_rates (M : MathFns K) (settings : Settings K)
    (clock : String → Clock) (cfg : PortfolioConfig K) (H : TiersKnown cfg.portfolioTiers)
    (hw : 0 < totalWeight cfg.portfolioTiers) :
    ∃ p, computePortfolioScenario M settings clock cfg = some p
      ∧ p.endorseRate
          = tierWeightedTotal M settings clock cfg.portfolioTiers (fun s => s.endorseRate)
            / totalWeight cfg.portfolioTiers
      ∧ p.optOutRate
          = tierWeightedTotal M settings clock cfg.portfolioTiers (fun s => s.optOutRate)
            / totalWeight cfg.portfolioTiers
      ∧ (∀ k ∈ tierKeys, ∀ tc, cfg.portfolioTiers.get k = some tc →
          ∃ s, computeScenario M settings (clock k) tc = some s
            ∧ tierValue M settings clock cfg.portfolioTiers (fun s => s.endorseRate) k
                = s.endorseRate
            ∧ tierValue M settings clock cfg.portfolioTiers (fun s => s.optOutRate) k
                = s.optOutRate
            ∧ tierWeight cfg.portfolioTiers k = tc.cohorts * tc.traineesPerCohort) := by
  obtain ⟨p, hp, -, -, -, -, -, -, he, ho, -⟩ :=
    computePortfolioScenario_spec M settings clock cfg H
  refine ⟨p, hp, ?_, ?_, ?_⟩
  · rw [he, if_pos hw]
  · rw [ho, if_pos hw]
  · intro k hk tc htc
    obtain ⟨s, hs, hts, -⟩ :=
      tierScenario_of_present M settings clock cfg.portfolioTiers k tc htc (H k hk tc htc)
    exact ⟨s, hs, by simp [tierValue, hts], by simp [tierValue, hts], by simp [tierWeight, htc]⟩

/-- The tiers of the example portfolio are of known kinds. -/
theorem examplePortfolio_known :
    TiersKnown (examplePortfolio : PortfolioConfig ℝ).portfolioTiers := by
  intro k hk tc h
  simp only [tierKeys, List.mem_cons, List.mem_singleton, List.not_mem_nil, or_false] at hk
  rcases hk with rfl | rfl | rfl <;>
    simp [PortfolioTiers.get, examplePortfolio] at h <;>
    subst h <;> simp [tierKeys, frontlineTier, intermediateTier]

/-- The weights of the example portfolio add up to 140 trainees. -/
theorem examplePortfolio_weight :
    totalWeight (examplePortfolio : PortfolioConfig ℝ).portfolioTiers = 140 := by
  simp [totalWeight, tierWeight, tierKeys, PortfolioTiers.get, examplePortfolio,
    frontlineTier, intermediateTier]
  norm_num

/-- Witness for C6: the example portfolio has no advanced tier, and its breakdown has
none either, while the totals are the sums over its two tiers. -/
theorem C6_portfolio_sums_witness :
    ∃ p, computePortfolioScenario realMath defaultEpiSettings exampleClock examplePortfolio
          = some p
      ∧ p.natTotalCost
          = tierTotal realMath defaultEpiSettings exampleClock
              (examplePortfolio : PortfolioConfig ℝ).portfolioTiers (fun s => s.natTotalCost)
      ∧ p.portfolioBreakdown.get "advanced" = none := by
  obtain ⟨p, hp, hc, -, -, -, -, -, -, -, hnone⟩ :=
    C6_portfolio_sums realMath defaultEpiSettings exampleClock
      (examplePortfolio : PortfolioConfig ℝ) examplePortfolio_known
  exact ⟨p, hp, hc, hnone "advanced" (by simp [tierKeys])
    (by simp [PortfolioTiers.get, examplePortfolio])⟩

/-- Witness for C8: the example portfolio has total weight 140, so its rates are the
weighted sums divided by 140. -/
theorem C8_portfolio_weighted_rates_witness :
    ∃ p, computePortfolioScenario realMath defaultEpiSettings exampleClock examplePortfolio
          = some p
      ∧ p.endorseRate
          = tierWeightedTotal realMath defaultEpiSettings exampleClock
              (examplePortfolio : PortfolioConfig ℝ).portfolioTiers (fun s => s.endorseRate)
            / 140 := by
  obtain ⟨p, hp, he, -, -⟩ :=
    C8_portfolio_weighted_rates realMath defaultEpiSettings exampleClock
      (examplePortfolio : PortfolioConfig ℝ) examplePortfolio_known
      (by rw [examplePortfolio_weight]; norm_num)
  exact ⟨p, hp, by rw [he, examplePortfolio_weight]⟩

/-- A tier result stored under a key comes from `computeScenario` on the tier
configuration under that key. -/
theorem tierScenario_some (M : MathFns K) (settings : Settings K) (clock : String → Clock)
    (tiers : PortfolioTiers K) (k : String) (s : ScenarioResult K)
    (h : tierScenario M settings clock tiers k = some s) :
    ∃ tc, tiers.get k = some tc ∧ computeScenario M settings (clock k) tc = some s := by
  unfold tierScenario at h
  rcases hk : tiers.get k with _ | tc
  · simp [hk] at h
  · exact ⟨tc, rfl, by simpa [hk] using h⟩

/-- With a positive tier cost, the tier cost times the tier ratio is the tier benefit;
so the cost-weighted value of a tier is its benefit. -/
theorem tierValue_cost_mul_bcr (M : MathFns K) (settings : Settings K)
    (clock : String → Clock) (tiers : PortfolioTiers K) (k : String)
    (hpos : ∀ s, tierScenario M settings clock tiers k = some s → 0 < s.natTotalCost) :
    tierValue M settings clock tiers (fun s => s.natTotalCost * bcrValue s) k
      = tierValue M settings clock tiers (fun s => s.epiBenefitAllCohorts) k := by
  unfold tierValue
  rcases h : tierScenario M settings clock tiers k with _ | s
  · rfl
  · obtain ⟨tc, -, htc⟩ := tierScenario_some M settings clock tiers k s h
    have hb := (computeScenario_fields M settings (clock k) tc s htc).2.2.2.2.2.1
    have hc := hpos s h
    have : bcrValue s = s.epiBenefitAllCohorts / s.natTotalCost := by
      simp [bcrValue, hb, hc]
    simp only [this]
    field_simp

/-- The cost of a tier is not negative when present tiers have positive cost. -/
theorem tierValue_cost_nonneg (M : MathFns K) (settings : Settings K)
    (clock : String → Clock) (tiers : PortfolioTiers K) (k : String)
    (hpos : ∀ s, tierScenario M settings clock tiers k = some s → 0 < s.natTotalCost) :
    0 ≤ tierValue M settings clock tiers (fun s => s.natTotalCost) k := by
  unfold tierValue
  rcases h : tierScenario M settings clock tiers k with _ | s
  · exact le_refl 0
  · exact le_of_lt (hpos s h)

/-- The cost of a present tier is positive when present tiers have positive cost. -/
theorem tierValue_cost_pos (M : MathFns K) (settings : Settings K)
    (clock : String → Clock) (tiers : PortfolioTiers K) (H : TiersKnown tiers) (k : String)
    (hk : k ∈ tierKeys) (hp : (tiers.get k).isSome = true)
    (hpos : ∀ s, tierScenario M settings clock tiers k = some s → 0 < s.natTotalCost) :
    0 < tierValue M settings clock tiers (fun s => s.natTotalCost) k := by
  obtain ⟨tc, htc⟩ := Option.isSome_iff_exists.mp hp
  obtain ⟨s, -, hs, -⟩ := tierScenario_of_present M settings clock tiers k tc htc (H k hk tc htc)
  simpa [tierValue, hs] using hpos s hs

/-- A portfolio with at least one tier, all of positive cost, has a positive total
cost. -/
theorem tierTotal_cost_pos (M : MathFns K) (settings : Settings K)
    (clock : String → Clock) (tiers : PortfolioTiers K) (H : TiersKnown tiers)
    (hpos : ∀ k ∈ tierKeys, ∀ s, tierScenario M settings clock tiers k = some s →
      0 < s.natTotalCost)
    (hne : 0 < tierCount tiers) :
    0 < tierTotal M settings clock tiers (fun s => s.natTotalCost) := by
  have hex : ∃ k ∈ tierKeys, (tiers.get k).isSome = true := by
    unfold tierCount at hne
    obtain ⟨k, hk⟩ := List.exists_mem_of_length_pos hne
    rw [List.mem_filter] at hk
    exact ⟨k, hk.1, hk.2⟩
  obtain ⟨k, hk, hp⟩ := hex
  have h1 := tierValue_cost_nonneg M settings clock tiers "frontline"
    (hpos "frontline" (by simp [tierKeys]))
  have h2 := tierValue_cost_nonneg M settings clock tiers "intermediate"
    (hpos "intermediate" (by simp [tierKeys]))
  have h3 := tierValue_cost_nonneg M settings clock tiers "advanced"
    (hpos "advanced" (by simp [tierKeys]))
  have h4 := tierValue_cost_pos M settings clock tiers H k hk hp (hpos k hk)
  simp only [tierTotal, tierKeys, List.map_cons, List.map_nil, List.sum_cons, List.sum_nil]
  simp only [tierKeys, List.mem_cons, List.mem_singleton, List.not_mem_nil, or_false] at hk
  rcases hk with rfl | rfl | rfl <;> linarith

/-- Claim C7, amended: for every portfolio with at least one tier, all tiers of positive
cost, `natBcr` is the cost-weighted mean of the per-tier `natBcr` values
(`natBcr × Σ cost = Σ cost × tier BCR`), and it differs from their arithmetic mean if and
only if `n × Σ (cost × tier BCR) ≠ (Σ cost) × (Σ tier BCR)`, `n` being the number of
tiers; different tier costs alone do not make the two differ. -/
theorem C7_portfolio_bcr_vs_mean (M : MathFns K) (settings : Settings K)
    (clock : String → Clock) (cfg : PortfolioConfig K) (H : TiersKnown cfg.portfolioTiers)
    (hpos : ∀ k ∈ tierKeys, ∀ s,
      tierScenario M settings clock cfg.portfolioTiers k = some s → 0 < s.natTotalCost)
    (hne : 0 < tierCount cfg.portfolioTiers) :
    ∃ p B, computePortfolioScenario M settings clock cfg = some p
      ∧ p.natBcr = some B
      ∧ B * tierTotal M settings clock cfg.portfolioTiers (fun s => s.natTotalCost)
          = tierTotal M settings clock cfg.portfolioTiers
              (fun s => s.natTotalCost * bcrValue s)
      ∧ (B ≠ tierTotal M settings clock cfg.portfolioTiers bcrValue
              / (tierCount cfg.portfolioTiers : K)
          ↔ (tierCount cfg.portfolioTiers : K)
                * tierTotal M settings clock cfg.portfolioTiers
                    (fun s => s.natTotalCost * bcrValue s)
              ≠ tierTotal M settings clock cfg.portfolioTiers (fun s => s.natTotalCost)
                * tierTotal M settings clock cfg.portfolioTiers bcrValue) := by
  obtain ⟨p, hp, hc, hb, -, -, -, hbcr, -, -, -⟩ :=
    computePortfolioScenario_spec M settings clock cfg H
  have hcpos := tierTotal_cost_pos M settings clock cfg.portfolioTiers H hpos hne
  have hn : (0 : K) < (tierCount cfg.portfolioTiers : K) := Nat.cast_pos.mpr hne
  have hwb : tierTotal M settings clock cfg.portfolioTiers
        (fun s => s.natTotalCost * bcrValue s)
      = tierTotal M settings clock cfg.portfolioTiers (fun s => s.epiBenefitAllCohorts) := by
    simp only [tierTotal, tierKeys, List.map_cons, List.map_nil, List.sum_cons, List.sum_nil]
    rw [tierValue_cost_mul_bcr M settings clock _ "frontline"
        (hpos "frontline" (by simp [tierKeys])),
      tierValue_cost_mul_bcr M settings clock _ "intermediate"
        (hpos "intermediate" (by simp [tierKeys])),
      tierValue_cost_mul_bcr M settings clock _ "advanced"
        (hpos "advanced" (by simp [tierKeys]))]
  refine ⟨p, p.epiBenefitAllCohorts / p.natTotalCost, hp, ?_, ?_, ?_⟩
  · rw [hbcr, if_pos (by rw [hc]; exact hcpos)]
  · rw [hwb, ← hc, ← hb]
    have : p.natTotalCost ≠ 0 := by rw [hc]; exact ne_of_gt hcpos
    field_simp
  · rw [hwb, ← hc, ← hb]
    have h1 : p.natTotalCost ≠ 0 := by rw [hc]; exact ne_of_gt hcpos
    have h2 : (tierCount cfg.portfolioTiers : K) ≠ 0 := ne_of_gt hn
    rw [not_iff_not, div_eq_div_iff h1 h2]
    constructor
    · intro h; linear_combination h
    · intro h; linear_combination h

/-- With the completion override at 0 no trainee graduates, so a returned result has no
benefit. -/
theorem benefit_zero_of_completion_zero (M : MathFns K) (settings : Settings K)
    (clock : Clock) (config : Config K) (s : ScenarioResult K)
    (hov : config.completionRateOverride = JSNum.fin 0)
    (h : computeScenario M settings clock config = some s) :
    s.epiBenefitAllCohorts = 0 := by
  obtain ⟨-, -, -, -, -, -, epi, hepi, -, hb⟩ :=
    computeScenario_fields M settings clock config s h
  have he : epi.epiBenefitPerCohort = 0 := by
    unfold computeEpidemiological at hepi
    rcases hts : settings.tiers config.tier with _ | ts
    · simp [hts] at hepi
    · simp only [hts, Option.some.injEq] at hepi
      rw [← hepi]
      simp [effectiveCompletionRate, hov]
  rw [hb, he, zero_mul]

/-- The frontline tier of the example portfolio costs 15,000,000 in total. -/
theorem frontlineTier_cost :
    (computeCosts (frontlineTier : Config ℝ)).totalEconomicCostPerCohort
      * (frontlineTier : Config ℝ).cohorts = 15000000 := by
  simp [computeCosts, frontlineTier, tierMonths, mentorshipMultiplier]
  norm_num

/-- The intermediate tier of the example portfolio costs 48,000,000 in total. -/
theorem intermediateTier_cost :
    (computeCosts (intermediateTier : Config ℝ)).totalEconomicCostPerCohort
      * (intermediateTier : Config ℝ).cohorts = 48000000 := by
  simp [computeCosts, intermediateTier, frontlineTier, tierMonths, mentorshipMultiplier]
  norm_num

/-- The two tier results of the example portfolio: their costs, benefits and ratios. -/
theorem examplePortfolio_tiers :
    ∃ sf si,
      computeScenario realMath defaultEpiSettings (exampleClock "frontline") frontlineTier
          = some sf
        ∧ computeScenario realMath defaultEpiSettings (exampleClock "intermediate")
            intermediateTier = some si
        ∧ tierScenario realMath defaultEpiSettings exampleClock
            (examplePortfolio : PortfolioConfig ℝ).portfolioTiers "frontline" = some sf
        ∧ tierScenario realMath defaultEpiSettings exampleClock
            (examplePortfolio : PortfolioConfig ℝ).portfolioTiers "intermediate" = some si
        ∧ tierScenario realMath defaultEpiSettings exampleClock
            (examplePortfolio : PortfolioConfig ℝ).portfolioTiers "advanced" = none
        ∧ sf.natTotalCost = 15000000 ∧ si.natTotalCost = 48000000
        ∧ sf.epiBenefitAllCohorts = 0 ∧ si.epiBenefitAllCohorts = 0
        ∧ sf.natBcr = some 0 ∧ si.natBcr = some 0 := by
  obtain ⟨sf, hsf, htf, -, -⟩ :=
    tierScenario_of_present realMath defaultEpiSettings exampleClock
      (examplePortfolio : PortfolioConfig ℝ).portfolioTiers "frontline" frontlineTier
      (by simp [PortfolioTiers.get, examplePortfolio]) (by simp [tierKeys, frontlineTier])
  obtain ⟨si, hsi, hti, -, -⟩ :=
    tierScenario_of_present realMath defaultEpiSettings exampleClock
      (examplePortfolio : PortfolioConfig ℝ).portfolioTiers "intermediate" intermediateTier
      (by simp [PortfolioTiers.get, examplePortfolio])
      (by simp [tierKeys, intermediateTier])
  obtain ⟨-, -, -, hcf, -, hrf, -⟩ := computeScenario_fields _ _ _ _ sf hsf
  obtain ⟨-, -, -, hci, -, hri, -⟩ := computeScenario_fields _ _ _ _ si hsi
  have hbf := benefit_zero_of_completion_zero _ _ _ _ sf (by simp [frontlineTier]) hsf
  have hbi := benefit_zero_of_completion_zero _ _ _ _ si
    (by simp [intermediateTier, frontlineTier]) hsi
  rw [frontlineTier_cost] at hcf
  rw [intermediateTier_cost] at hci
  refine ⟨sf, si, hsf, hsi, htf, hti, ?_, hcf, hci, hbf, hbi, ?_, ?_⟩
  · simp [tierScenario, PortfolioTiers.get, examplePortfolio]
  · rw [hrf, hcf, hbf]; norm_num
  · rw [hri, hci, hbi]; norm_num

/-- Counterexample for C7 as stated: the two tiers of the example portfolio have
positive and different costs (15,000,000 and 48,000,000), yet the portfolio `natBcr`
equals the arithmetic mean of the two per-tier `natBcr` values. -/
theorem C7_different_costs_same_mean :
    ∃ p sf si,
      computePortfolioScenario realMath defaultEpiSettings exampleClock examplePortfolio
          = some p
        ∧ computeScenario realMath defaultEpiSettings (exampleClock "frontline") frontlineTier
          = some sf
        ∧ computeScenario realMath defaultEpiSettings (exampleClock "intermediate")
            intermediateTier = some si
        ∧ 0 < sf.natTotalCost ∧ 0 < si.natTotalCost ∧ sf.natTotalCost ≠ si.natTotalCost
        ∧ sf.natBcr = some 0 ∧ si.natBcr = some 0
        ∧ p.natBcr = some ((bcrValue sf + bcrValue si) / 2) := by
  obtain ⟨sf, si, hsf, hsi, htf, hti, hta, hcf, hci, hbf, hbi, hrf, hri⟩ :=
    examplePortfolio_tiers
  obtain ⟨p, hp, hc, hb, -, -, -, hbcr, -, -, -⟩ :=
    computePortfolioScenario_spec realMath defaultEpiSettings exampleClock
      (examplePortfolio : PortfolioConfig ℝ) examplePortfolio_known
  have hc2 : p.natTotalCost = 63000000 := by
    rw [hc]
    simp [tierTotal, tierKeys, tierValue, htf, hti, hta, hcf, hci]
    norm_num
  have hb2 : p.epiBenefitAllCohorts = 0 := by
    rw [hb]
    simp [tierTotal, tierKeys, tierValue, htf, hti, hta, hbf, hbi]
  refine ⟨p, sf, si, hp, hsf, hsi, ?_, ?_, ?_, hrf, hri, ?_⟩
  · rw [hcf]; norm_num
  · rw [hci]; norm_num
  · rw [hcf, hci]; norm_num
  · rw [hbcr, hc2, hb2]
    simp [bcrValue, hrf, hri]

/-- Witness for C7: the example portfolio, whose two tiers have positive cost. -/
theorem C7_portfolio_bcr_vs_mean_witness :
    ∃ p B,
      computePortfolioScenario realMath defaultEpiSettings exampleClock examplePortfolio
          = some p
        ∧ p.natBcr = some B
        ∧ B * tierTotal realMath defaultEpiSettings exampleClock
              (examplePortfolio : PortfolioConfig ℝ).portfolioTiers (fun s => s.natTotalCost)
          = tierTotal realMath defaultEpiSettings exampleClock
              (examplePortfolio : PortfolioConfig ℝ).portfolioTiers
              (fun s => s.natTotalCost * bcrValue s) := by
  obtain ⟨sf, si, -, -, htf, hti, hta, hcf, hci, -⟩ := examplePortfolio_tiers
  obtain ⟨p, B, hp, hB, hw, -⟩ :=
    C7_portfolio_bcr_vs_mean realMath defaultEpiSettings exampleClock
      (examplePortfolio : PortfolioConfig ℝ) examplePortfolio_known
      (by
        intro k hk s hs
        simp only [tierKeys, List.mem_cons, List.mem_singleton, List.not_mem_nil,
          or_false] at hk
        rcases hk with rfl | rfl | rfl
        · rw [htf] at hs; cases hs; rw [hcf]; norm_num
        · rw [hti] at hs; cases hs; rw [hci]; norm_num
        · rw [hta] at hs; cases hs)
      (by simp [tierCount, tierKeys, PortfolioTiers.get, examplePortfolio])
  exact ⟨p, B, hp, hB, hw⟩

end PortfolioTheorems

/-! ## Salary-based opportunity cost: theorems -/

section TableTheorems

variable {K : Type} [LinearOrderedField K]

/-- The `|| "intermediate"` default of the tier does not change the duration: an empty
tier has the default duration of 12 months, that of the intermediate tier. -/
theorem tierMonths_orIntermediate (tier : String) :
    (tierMonths (if tier = "" then "intermediate" else tier) : K) = tierMonths tier := by
  by_cases h : tier = ""
  · subst h; simp [tierMonths]
  · simp [h]

/-- One mentor supervises a positive number of fellows, whatever the intensity. -/
theorem mentorshipMentorCapacity_pos (intensity : String) :
    (0 : K) < mentorshipMentorCapacity intensity := by
  unfold mentorshipMentorCapacity
  split_ifs <;> norm_num

/-- The contact days assumed for a tier never exceed the days of its duration. -/
theorem contactDaysByTier_le_totalDays (tier : String) :
    (contactDaysByTier tier : K) ≤ tierMonths tier * salaryOcDaysPerMonth := by
  unfold contactDaysByTier tierMonths salaryOcDaysPerMonth
  split_ifs <;> norm_num

/-- The duration of a tier is positive. -/
theorem tierMonths_pos (tier : String) : (0 : K) < tierMonths tier := by
  unfold tierMonths
  split_ifs <;> norm_num

end TableTheorems

section SalaryTheorems

variable {K : Type} [LinearOrderedField K] [FloorRing K]

/-- The faculty count of the salary-based cost is the `mentorsPerCohort` of the capacity
model, which does not depend on the number of cohorts. -/
theorem salary_nFaculty (config : Config K) :
    (computeSalaryBasedOpportunityCostPerCohort config).meta.nFaculty
        = ((⌈config.traineesPerCohort / mentorshipMentorCapacity config.mentorship⌉ : ℤ) : K)
      ∧ (computeSalaryBasedOpportunityCostPerCohort config).meta.nFaculty
        = (computeCapacity config).mentorsPerCohort := by
  have h := mentorshipMentorCapacity_pos (K := K) config.mentorship
  simp [computeSalaryBasedOpportunityCostPerCohort, computeCapacity, h]

/-- Claim C11: with delivery `inperson` and finite, non-negative monthly salaries
`computeSalaryBasedOpportunityCostPerCohort` returns for each role exactly
`monthly salary × months(tier) × count`, the counts being `traineesPerCohort`
participants, 1 coordinator and `ceil(traineesPerCohort / fellowsPerMentor)` faculty (the
`mentorsPerCohort` of the capacity model, whatever the configured number of cohorts), and
the total is the sum of the three role costs. -/
theorem C11_inperson_salary_cost (config : Config K) (sf sc sp : K)
    (hd : config.delivery = "inperson")
    (hf : config.salaryMonthlyFaculty = JSNum.fin sf) (hf0 : 0 ≤ sf)
    (hc : config.salaryMonthlyCoordinator = JSNum.fin sc) (hc0 : 0 ≤ sc)
    (hp : config.salaryMonthlyParticipant = JSNum.fin sp) (hp0 : 0 ≤ sp) :
    (computeSalaryBasedOpportunityCostPerCohort config).byRole.faculty
        = sf * tierMonths config.tier
          * ((⌈config.traineesPerCohort / mentorshipMentorCapacity config.mentorship⌉ : ℤ) : K)
      ∧ (computeSalaryBasedOpportunityCostPerCohort config).byRole.coordinator
        = sc * tierMonths config.tier * 1
      ∧ (computeSalaryBasedOpportunityCostPerCohort config).byRole.participant
        = sp * tierMonths config.tier * config.traineesPerCohort
      ∧ (computeSalaryBasedOpportunityCostPerCohort config).total
        = (computeSalaryBasedOpportunityCostPerCohort config).byRole.faculty
          + (computeSalaryBasedOpportunityCostPerCohort config).byRole.coordinator
          + (computeSalaryBasedOpportunityCostPerCohort config).byRole.participant
      ∧ ((⌈config.traineesPerCohort / mentorshipMentorCapacity config.mentorship⌉ : ℤ) : K)
        = (computeCapacity config).mentorsPerCohort
      ∧ (∀ c : K,
          (computeSalaryBasedOpportunityCostPerCohort { config with cohorts := c }).byRole
            = (computeSalaryBasedOpportunityCostPerCohort config).byRole) := by
  have hcap := mentorshipMentorCapacity_pos (K := K) config.mentorship
  have hlow : toLowerCase "inperson" = "inperson" := by decide
  have hm := tierMonths_orIntermediate (K := K) config.tier
  refine ⟨?_, ?_, ?_, rfl, ?_, ?_⟩
  · simp [computeSalaryBasedOpportunityCostPerCohort, computeCapacity, hd, hlow, hf, hf0,
      salaryOrDefault, hcap, hm]
  · simp [computeSalaryBasedOpportunityCostPerCohort, hd, hlow, hc, hc0, salaryOrDefault, hm]
  · simp [computeSalaryBasedOpportunityCostPerCohort, hd, hlow, hp, hp0, salaryOrDefault, hm]
  · simp [computeCapacity, hcap]
  · intro c
    rfl

/-- Witness for C11: the worked example (in-person, intermediate, 25 trainees, medium
mentorship) has 8 faculty, so the faculty cost is 200,000 × 12 × 8. -/
theorem C11_inperson_salary_cost_witness :
    (computeSalaryBasedOpportunityCostPerCohort (exampleConfig : Config ℚ)).byRole.faculty
      = 19200000 := by
  have h := (C11_inperson_salary_cost (exampleConfig : Config ℚ) 200000 70000 100000 rfl rfl
    (by norm_num) rfl (by norm_num) rfl (by norm_num)).1
  have hceil : ⌈((25 : ℚ) / 3.5)⌉ = 8 := by
    rw [Int.ceil_eq_iff]; norm_num
  rw [h]
  simp [exampleConfig, tierMonths, mentorshipMentorCapacity, hceil]
  norm_num

/-- The contact days and total days recorded by the salary-based cost. -/
theorem salary_days (config : Config K) :
    (computeSalaryBasedOpportunityCostPerCohort config).meta.totalDays
        = tierMonths config.tier * 30
      ∧ (config.delivery = "blended" →
          (computeSalaryBasedOpportunityCostPerCohort config).meta.contactDays
            = contactDaysByTier (if config.tier = "" then "intermediate" else config.tier))
      ∧ (config.delivery = "online" →
          (computeSalaryBasedOpportunityCostPerCohort config).meta.contactDays = 0)
      ∧ (config.delivery = "blended" ∨ config.delivery = "online" →
          (computeSalaryBasedOpportunityCostPerCohort config).meta.contactDays
            ≤ (computeSalaryBasedOpportunityCostPerCohort config).meta.totalDays) := by
  have hm := tierMonths_orIntermediate (K := K) config.tier
  have hb : toLowerCase "blended" = "blended" := by decide
  have ho : toLowerCase "online" = "online" := by decide
  have hle := contactDaysByTier_le_totalDays (K := K)
    (if config.tier = "" then "intermediate" else config.tier)
  have hpos := tierMonths_pos (K := K) config.tier
  refine ⟨?_, ?_, ?_, ?_⟩
  · simp [computeSalaryBasedOpportunityCostPerCohort, hm, salaryOcDaysPerMonth]
  · intro hd
    simp [computeSalaryBasedOpportunityCostPerCohort, hd, hb]
  · intro hd
    simp [computeSalaryBasedOpportunityCostPerCohort, hd, ho]
  · rintro (hd | hd)
    · simpa [computeSalaryBasedOpportunityCostPerCohort, hd, hb, hm] using hle
    · simp [computeSalaryBasedOpportunityCostPerCohort, hd, ho, hm, salaryOcDaysPerMonth]
      positivity

/-- Claim C12: with delivery `blended` or `online` and finite, non-negative monthly
salaries, the contact days are 20/60/90 (frontline/intermediate/advanced) for blended and
0 for online; participant and coordinator costs are `salary × (contact days / 30) ×
count` and the faculty cost is `salary × (contact days / 30 + 0.5 × (total days − contact
days) / 30) × faculty count` with `total days = months × 30`; so with 0 contact days the
faculty cost is `0.5 × salary × (total days / 30) × faculty count` and the other two are
0. -/
theorem C12_blended_online_salary_cost (config : Config K) (sf sc sp : K)
    (hd : config.delivery = "blended" ∨ config.delivery = "online")
    (hf : config.salaryMonthlyFaculty = JSNum.fin sf) (hf0 : 0 ≤ sf)
    (hc : config.salaryMonthlyCoordinator = JSNum.fin sc) (hc0 : 0 ≤ sc)
    (hp : config.salaryMonthlyParticipant = JSNum.fin sp) (hp0 : 0 ≤ sp) :
    (computeSalaryBasedOpportunityCostPerCohort config).meta.totalDays
        = tierMonths config.tier * 30
      ∧ (config.delivery = "blended" →
          (computeSalaryBasedOpportunityCostPerCohort config).meta.contactDays
            = contactDaysByTier (if config.tier = "" then "intermediate" else config.tier))
      ∧ (contactDaysByTier "frontline" : K) = 20
      ∧ (contactDaysByTier "intermediate" : K) = 60
      ∧ (contactDaysByTier "advanced" : K) = 90
      ∧ (config.delivery = "online" →
          (computeSalaryBasedOpportunityCostPerCohort config).meta.contactDays = 0)
      ∧ (computeSalaryBasedOpportunityCostPerCohort config).byRole.participant
        = sp * ((computeSalaryBasedOpportunityCostPerCohort config).meta.contactDays / 30)
          * config.traineesPerCohort
      ∧ (computeSalaryBasedOpportunityCostPerCohort config).byRole.coordinator
        = sc * ((computeSalaryBasedOpportunityCostPerCohort config).meta.contactDays / 30) * 1
      ∧ (computeSalaryBasedOpportunityCostPerCohort config).byRole.faculty
        = sf * ((computeSalaryBasedOpportunityCostPerCohort config).meta.contactDays / 30
              + 0.5 * (((computeSalaryBasedOpportunityCostPerCohort config).meta.totalDays
                  - (computeSalaryBasedOpportunityCostPerCohort config).meta.contactDays) / 30))
          * (computeSalaryBasedOpportunityCostPerCohort config).meta.nFaculty
      ∧ ((computeSalaryBasedOpportunityCostPerCohort config).meta.contactDays = 0 →
          (computeSalaryBasedOpportunityCostPerCohort config).byRole.faculty
              = 0.5 * sf
                * ((computeSalaryBasedOpportunityCostPerCohort config).meta.totalDays / 30)
                * (computeSalaryBasedOpportunityCostPerCohort config).meta.nFaculty
            ∧ (computeSalaryBasedOpportunityCostPerCohort config).byRole.participant = 0
            ∧ (computeSalaryBasedOpportunityCostPerCohort config).byRole.coordinator = 0) := by
  obtain ⟨htd, hbl, hon, hle⟩ := salary_days config
  have hle2 := hle hd
  have hb : toLowerCase "blended" = "blended" := by decide
  have ho : toLowerCase "online" = "online" := by decide
  have hnot : toLowerCase config.delivery ≠ "inperson" := by
    rcases hd with hd | hd
    · rw [hd, hb]; decide
    · rw [hd, ho]; decide
  have hpart : (computeSalaryBasedOpportunityCostPerCohort config).byRole.participant
      = sp * ((computeSalaryBasedOpportunityCostPerCohort config).meta.contactDays / 30)
        * config.traineesPerCohort := by
    simp [computeSalaryBasedOpportunityCostPerCohort, hnot, hp, hp0, salaryOrDefault,
      salaryOcDaysPerMonth]
  have hcoord : (computeSalaryBasedOpportunityCostPerCohort config).byRole.coordinator
      = sc * ((computeSalaryBasedOpportunityCostPerCohort config).meta.contactDays / 30) * 1 := by
    simp [computeSalaryBasedOpportunityCostPerCohort, hnot, hc, hc0, salaryOrDefault,
      salaryOcDaysPerMonth]
  have hfac : (computeSalaryBasedOpportunityCostPerCohort config).byRole.faculty
      = sf * ((computeSalaryBasedOpportunityCostPerCohort config).meta.contactDays / 30
            + 0.5 * (max 0 ((computeSalaryBasedOpportunityCostPerCohort config).meta.totalDays
                - (computeSalaryBasedOpportunityCostPerCohort config).meta.contactDays) / 30))
        * (computeSalaryBasedOpportunityCostPerCohort config).meta.nFaculty := by
    simp [computeSalaryBasedOpportunityCostPerCohort, hnot, hf, hf0, salaryOrDefault,
      salaryOcDaysPerMonth]
  rw [max_eq_right (sub_nonneg.mpr hle2)] at hfac
  refine ⟨htd, hbl, ?_, ?_, ?_, hon, hpart, hcoord, hfac, ?_⟩
  · simp [contactDaysByTier]
  · simp [contactDaysByTier]
  · simp [contactDaysByTier]
  · intro h0
    rw [hfac, hpart, hcoord, h0]
    refine ⟨?_, ?_, ?_⟩
    · ring
    · simp
    · simp

/-- Witness for C12: the worked example delivered online has no contact days, so its
participant and coordinator costs are 0. -/
theorem C12_blended_online_salary_cost_witness :
    (computeSalaryBasedOpportunityCostPerCohort
        { (exampleConfig : Config ℚ) with delivery := "online" }).meta.contactDays = 0
      ∧ (computeSalaryBasedOpportunityCostPerCohort
        { (exampleConfig : Config ℚ) with delivery := "online" }).byRole.participant = 0
      ∧ (computeSalaryBasedOpportunityCostPerCohort
        { (exampleConfig : Config ℚ) with delivery := "online" }).byRole.coordinator = 0 := by
  obtain ⟨-, -, -, -, -, hon, -, -, -, hzero⟩ :=
    C12_blended_online_salary_cost { (exampleConfig : Config ℚ) with delivery := "online" }
      200000 70000 100000 (Or.inr rfl) rfl (by norm_num) rfl (by norm_num) rfl (by norm_num)
  exact ⟨hon rfl, (hzero (hon rfl)).2.1, (hzero (hon rfl)).2.2⟩

end SalaryTheorems

/-! ## Epidemiological benefit model: theorems -/

section EpiTheorems

variable {K : Type} [LinearOrderedField K]

/-- The cross-sector multiplier used by the benefit model always lies in `[0.8, 2.0]`. -/
theorem effectiveCrossSectorMultiplier_mem (v : JSNum K) :
    (0.8 : K) ≤ effectiveCrossSectorMultiplier v ∧ effectiveCrossSectorMultiplier v ≤ 2.0 := by
  cases v <;> simp only [effectiveCrossSectorMultiplier] <;>
    refine ⟨le_max_left _ _, max_le (by norm_num) ?_⟩
  · exact min_le_left _ _
  · exact min_le_left _ _
  · norm_num
  · exact min_le_left _ _
  · exact min_le_left _ _

/-- The completion rate used by the benefit model always lies in `[0, 1]`. -/
theorem effectiveCompletionRate_mem (tierRate : K) (override : JSNum K) :
    0 ≤ effectiveCompletionRate tierRate override
      ∧ effectiveCompletionRate tierRate override ≤ 1 := by
  unfold effectiveCompletionRate
  exact ⟨le_max_left _ _, max_le zero_le_one (min_le_left _ _)⟩

/-- The result of `computeEpidemiological` for a tier with settings entry `ts`: every
output in terms of the inputs. -/
theorem computeEpidemiological_eq_some (M : MathFns K) (settings : Settings K)
    (config : Config K) (endorseRate : K) (ts : TierSettings K)
    (hts : settings.tiers config.tier = some ts) :
    ∃ epi, computeEpidemiological M settings config endorseRate = some epi
      ∧ epi.months = tierMonths config.tier
      ∧ epi.completionRate
          = effectiveCompletionRate ts.completionRate config.completionRateOverride
      ∧ epi.graduatesPerCohort
          = config.traineesPerCohort * epi.completionRate * (endorseRate / 100)
      ∧ epi.graduatesAllCohorts = epi.graduatesPerCohort * config.cohorts
      ∧ epi.outbreaksPerYearPerCohort
          = epi.graduatesPerCohort * ts.outbreaksPerGraduatePerYear
            * responseTimeMultiplier config.response
      ∧ epi.outbreaksPerYearNational = epi.outbreaksPerYearPerCohort * config.cohorts
      ∧ epi.planningYears
          = (match config.planningHorizonYears with
              | some y => if y > 0 then y else settings.general.planningHorizonYears
              | none => settings.general.planningHorizonYears)
      ∧ epi.discountRate = settings.general.epiDiscountRate
      ∧ epi.valuePerGraduate = ts.valuePerGraduate
      ∧ epi.valuePerOutbreak = ts.valuePerOutbreak
      ∧ epi.outbreaksPerGraduatePerYear = ts.outbreaksPerGraduatePerYear
      ∧ epi.crossSectorMultiplier
          = effectiveCrossSectorMultiplier config.crossSectorBenefitMultiplier
      ∧ epi.epiBenefitPerCohort
          = epi.graduatesPerCohort * epi.valuePerGraduate
              * presentValueFactor M epi.discountRate epi.planningYears
              * epi.crossSectorMultiplier
            + epi.outbreaksPerYearPerCohort * epi.valuePerOutbreak
              * presentValueFactor M epi.discountRate epi.planningYears
              * epi.crossSectorMultiplier := by
  simp only [computeEpidemiological, hts]
  exact ⟨_, rfl, rfl, rfl, rfl, rfl, rfl, rfl, rfl, rfl, rfl, rfl, rfl, rfl, rfl⟩

/-- For every configuration of one of the three tiers the numeric model of
`computeEpidemiological` returns `graduatesPerCohort = traineesPerCohort ×
completionRate × (endorseRate/100)`, `graduatesAllCohorts = graduatesPerCohort ×
cohorts`, `outbreaksPerYearPerCohort = graduatesPerCohort ×
outbreaksPerGraduatePerYear × responseTimeMultiplier` and `outbreaksPerYearNational =
outbreaksPerYearPerCohort × cohorts`; with no override and a tier completion rate in
`[0, 1]` the completion rate is the tier setting. -/
theorem epi_graduates_and_outbreaks (M : MathFns K) (settings : Settings K)
    (config : Config K) (endorseRate : K) (ht : config.tier ∈ tierKeys) :
    ∃ epi ts, settings.tiers config.tier = some ts
      ∧ computeEpidemiological M settings config endorseRate = some epi
      ∧ epi.graduatesPerCohort
          = config.traineesPerCohort * epi.completionRate * (endorseRate / 100)
      ∧ epi.graduatesAllCohorts = epi.graduatesPerCohort * config.cohorts
      ∧ epi.outbreaksPerYearPerCohort
          = epi.graduatesPerCohort * ts.outbreaksPerGraduatePerYear
            * responseTimeMultiplier config.response
      ∧ epi.outbreaksPerYearNational = epi.outbreaksPerYearPerCohort * config.cohorts
      ∧ (config.completionRateOverride = JSNum.absent → 0 ≤ ts.completionRate →
          ts.completionRate ≤ 1 → epi.completionRate = ts.completionRate) := by
  obtain ⟨ts, hts⟩ := settings.tiers_of_mem ht
  obtain ⟨epi, hepi, -, hcr, hg, hga, ho, hon, -⟩ :=
    computeEpidemiological_eq_some M settings config endorseRate ts hts
  refine ⟨epi, ts, hts, hepi, hg, hga, ho, hon, ?_⟩
  intro hov h0 h1
  rw [hcr, hov]
  simp [effectiveCompletionRate, h0, h1]

/-- The worked example under the default settings, at an endorsement rate of 80:
25 × 0.9 × 0.8 = 18 graduates per cohort. -/
theorem epi_graduates_and_outbreaks_example :
    ∃ epi, computeEpidemiological realMath defaultEpiSettings (exampleConfig : Config ℝ) 80
          = some epi
      ∧ epi.graduatesPerCohort = 18 := by
  obtain ⟨epi, ts, hts, hepi, hg, -, -, -, hcr⟩ :=
    epi_graduates_and_outbreaks realMath defaultEpiSettings (exampleConfig : Config ℝ) 80
      (by simp [exampleConfig, tierKeys])
  have hts2 : ts = (defaultEpiSettings : Settings ℝ).intermediate := by
    simp [Settings.tiers, exampleConfig] at hts
    exact hts.symm
  have hc : epi.completionRate = 0.9 := by
    rw [hcr rfl (by rw [hts2]; norm_num [defaultEpiSettings])
      (by rw [hts2]; norm_num [defaultEpiSettings]), hts2]
    simp [defaultEpiSettings]
  refine ⟨epi, hepi, ?_⟩
  rw [hg, hc]
  norm_num [exampleConfig]

/-- Claim C14: for every configuration of one of the three tiers
`computeEpidemiological` returns `epiBenefitPerCohort = m × pvFactor ×
(graduatesPerCohort × valuePerGraduate + outbreaksPerYearPerCohort × valuePerOutbreak)`
with `pvFactor = presentValueFactor(discountRate, planningYears)` and `m` the configured
cross-sector multiplier clamped to `[0.8, 2.0]`, a missing, zero or negative multiplier
being replaced by 1.0 first; the reported `crossSectorMultiplier` lies in `[0.8, 2.0]`. -/
theorem C14_epi_benefit (M : MathFns K) (settings : Settings K)
    (config : Config K) (endorseRate : K) (ht : config.tier ∈ tierKeys) :
    ∃ epi ts, settings.tiers config.tier = some ts
      ∧ computeEpidemiological M settings config endorseRate = some epi
      ∧ epi.epiBenefitPerCohort
          = epi.crossSectorMultiplier
            * presentValueFactor M epi.discountRate epi.planningYears
            * (epi.graduatesPerCohort * epi.valuePerGraduate
                + epi.outbreaksPerYearPerCohort * epi.valuePerOutbreak)
      ∧ epi.discountRate = settings.general.epiDiscountRate
      ∧ epi.valuePerGraduate = ts.valuePerGraduate
      ∧ epi.valuePerOutbreak = ts.valuePerOutbreak
      ∧ (∀ y : K, config.planningHorizonYears = some y → 0 < y → epi.planningYears = y)
      ∧ (config.planningHorizonYears = none →
          epi.planningYears = settings.general.planningHorizonYears)
      ∧ (∀ x : K, config.crossSectorBenefitMultiplier = JSNum.fin x → 0 < x →
          epi.crossSectorMultiplier = clamp x 0.8 2.0)
      ∧ (∀ x : K, config.crossSectorBenefitMultiplier = JSNum.fin x → x ≤ 0 →
          epi.crossSectorMultiplier = clamp 1.0 0.8 2.0 ∧ epi.crossSectorMultiplier = 1.0)
      ∧ (config.crossSectorBenefitMultiplier = JSNum.absent →
          epi.crossSectorMultiplier = clamp 1.0 0.8 2.0 ∧ epi.crossSectorMultiplier = 1.0)
      ∧ 0.8 ≤ epi.crossSectorMultiplier ∧ epi.crossSectorMultiplier ≤ 2.0 := by
  obtain ⟨ts, hts⟩ := settings.tiers_of_mem ht
  obtain ⟨epi, hepi, -, -, -, -, -, -, hpy, hdr, hvg, hvo, -, hm, hb⟩ :=
    computeEpidemiological_eq_some M settings config endorseRate ts hts
  have hmem := effectiveCrossSectorMultiplier_mem config.crossSectorBenefitMultiplier
  have h1 : clamp (1.0 : K) 0.8 2.0 = 1.0 := by
    unfold clamp
    rw [max_eq_left (by norm_num), min_eq_left (by norm_num)]
  refine ⟨epi, ts, hts, hepi, ?_, hdr, hvg, hvo, ?_, ?_, ?_, ?_, ?_, ?_, ?_⟩
  · rw [hb]; ring
  · intro y hy hpos
    rw [hpy, hy]
    simp [hpos]
  · intro hy
    rw [hpy, hy]
  · intro x hx hpos
    rw [hm, hx]
    have hne : x ≠ 0 := ne_of_gt hpos
    simp only [effectiveCrossSectorMultiplier, clamp, if_neg hne, if_neg (not_le.mpr hpos)]
    rcases le_total x 0.8 with h | h
    · rw [min_eq_right (by linarith), max_eq_left h, max_eq_right h,
        min_eq_left (by norm_num)]
    · rcases le_total x 2.0 with h2 | h2
      · rw [min_eq_right h2, max_eq_right h, max_eq_left h, min_eq_left h2]
      · rw [min_eq_left h2, max_eq_right (by norm_num), max_eq_left h, min_eq_right h2]
  · intro x hx hneg
    have : epi.crossSectorMultiplier = 1.0 := by
      rw [hm, hx]
      simp only [effectiveCrossSectorMultiplier]
      by_cases h0 : x = 0
      · rw [if_pos h0, if_neg (by norm_num), min_eq_right (by norm_num),
          max_eq_right (by norm_num)]
      · rw [if_neg h0, if_pos hneg, min_eq_right (by norm_num), max_eq_right (by norm_num)]
    exact ⟨by rw [this, h1], this⟩
  · intro hx
    have : epi.crossSectorMultiplier = 1.0 := by
      rw [hm, hx]
      simp only [effectiveCrossSectorMultiplier]
      rw [min_eq_right (by norm_num), max_eq_right (by norm_num)]
    exact ⟨by rw [this, h1], this⟩
  · rw [hm]; exact hmem.1
  · rw [hm]; exact hmem.2

/-- Witness for C14: the worked example with a configured multiplier of 5 reports the
clamped value 2. -/
theorem C14_epi_benefit_witness :
    ∃ epi, computeEpidemiological realMath defaultEpiSettings
          { (exampleConfig : Config ℝ) with crossSectorBenefitMultiplier := JSNum.fin 5 } 80
          = some epi
      ∧ epi.crossSectorMultiplier = 2 ∧ epi.planningYears = 5 := by
  obtain ⟨epi, ts, -, hepi, -, -, -, -, hy, -, hx, -⟩ :=
    C14_epi_benefit realMath defaultEpiSettings
      { (exampleConfig : Config ℝ) with crossSectorBenefitMultiplier := JSNum.fin 5 } 80
      (by simp [exampleConfig, tierKeys])
  refine ⟨epi, hepi, ?_, hy 5 rfl (by norm_num)⟩
  rw [hx 5 rfl (by norm_num)]
  unfold clamp
  rw [max_eq_left (by norm_num), min_eq_right (by norm_num)]
  norm_num

end EpiTheorems

/-! ## Willingness to pay and capacity: theorems -/

section WtpTheorems

variable {K : Type} [LinearOrderedField K]

/-- Claim C15: `computeEndorsementAndWTP` returns `wtpPerTraineePerMonth = (ascProgram +
tier + career + mentorship + delivery + response effects) / |costPerThousand| × 1000`,
unclamped and whatever the cost per trainee per month; the value can be negative: tier
frontline, career `career_path`, mentorship low, delivery online, response 30 gives
`(0.168 − 0.122 − 1.073) / 0.005 × 1000 = −205,400`. -/
theorem C15_wtp (M : MathFns K) (config : Config K) :
    (computeEndorsementAndWTP M config).wtpPerTraineePerMonth
        = (ascProgram + tierEffect config.tier + careerEffect config.career
            + mentorshipEffect config.mentorship + deliveryEffect config.delivery
            + responseEffect config.response) / |(costPerThousand : K)| * 1000
      ∧ |(costPerThousand : K)| = 0.005
      ∧ (∀ c : K,
          (computeEndorsementAndWTP M
              { config with costPerTraineePerMonth := c }).wtpPerTraineePerMonth
            = (computeEndorsementAndWTP M config).wtpPerTraineePerMonth)
      ∧ (config.tier = "frontline" → config.career = "career_path" →
          config.mentorship = "low" → config.delivery = "online" → config.response = "30" →
          (computeEndorsementAndWTP M config).wtpPerTraineePerMonth
              = (0.168 - 0.122 - 1.073) / 0.005 * 1000
            ∧ (computeEndorsementAndWTP M config).wtpPerTraineePerMonth = -205400) := by
  have habs : |(costPerThousand : K)| = 0.005 := by
    unfold costPerThousand
    rw [abs_of_neg (by norm_num)]
    norm_num
  refine ⟨rfl, habs, fun c => rfl, ?_⟩
  intro ht hc hm hd hr
  simp only [computeEndorsementAndWTP, nonCostUtility, habs]
  simp [ht, hc, hm, hd, hr, ascProgram, tierEffect, careerEffect, mentorshipEffect,
    deliveryEffect, responseEffect]
  constructor <;> norm_num

/-- Witness for C15: the negative example evaluated at a concrete configuration. -/
theorem C15_wtp_witness :
    (computeEndorsementAndWTP realMath
        { (exampleConfig : Config ℝ) with
          tier := "frontline", career := "career_path", mentorship := "low",
          delivery := "online", response := "30" }).wtpPerTraineePerMonth = -205400 :=
  ((C15_wtp realMath
      { (exampleConfig : Config ℝ) with
        tier := "frontline", career := "career_path", mentorship := "low",
        delivery := "online", response := "30" }).2.2.2 rfl rfl rfl rfl rfl).2

end WtpTheorems

section CapacityTheorems

variable {K : Type} [LinearOrderedField K] [FloorRing K]

/-- Claim C16: `computeCapacity` returns `mentorsPerCohort = ceil(traineesPerCohort /
fellowsPerMentor)` with `fellowsPerMentor` 2 for high, 3.5 for medium and 5 otherwise,
`totalMentorsRequired = mentorsPerCohort × cohorts`, `mentorShortfall = max(0,
totalMentorsRequired − availableMentors)`, and status "Within current capacity" if and
only if `totalMentorsRequired <= availableMentors`, equivalently `mentorShortfall = 0`,
otherwise "Requires capacity expansion". -/
theorem C16_capacity (config : Config K) :
    (computeCapacity config).mentorsPerCohort
        = ((⌈config.traineesPerCohort / (computeCapacity config).fellowsPerMentor⌉ : ℤ) : K)
      ∧ (config.mentorship = "high" → (computeCapacity config).fellowsPerMentor = 2)
      ∧ (config.mentorship = "medium" → (computeCapacity config).fellowsPerMentor = 3.5)
      ∧ (config.mentorship ≠ "high" → config.mentorship ≠ "medium" →
          (computeCapacity config).fellowsPerMentor = 5)
      ∧ (computeCapacity config).totalMentorsRequired
        = (computeCapacity config).mentorsPerCohort * config.cohorts
      ∧ (computeCapacity config).availableMentors = config.availableMentorsNational.getD 200
      ∧ (computeCapacity config).mentorShortfall
        = max 0 ((computeCapacity config).totalMentorsRequired
            - (computeCapacity config).availableMentors)
      ∧ ((computeCapacity config).status = "Within current capacity"
          ↔ (computeCapacity config).totalMentorsRequired
              ≤ (computeCapacity config).availableMentors)
      ∧ ((computeCapacity config).status = "Within current capacity"
          ↔ (computeCapacity config).mentorShortfall = 0)
      ∧ ((computeCapacity config).status ≠ "Within current capacity"
          → (computeCapacity config).status = "Requires capacity expansion") := by
  have hcap := mentorshipMentorCapacity_pos (K := K) config.mentorship
  have hstatus : (computeCapacity config).status = "Within current capacity"
      ↔ (computeCapacity config).totalMentorsRequired
          ≤ (computeCapacity config).availableMentors := by
    simp only [computeCapacity]
    by_cases h : (if mentorshipMentorCapacity config.mentorship > (0 : K) then
          ((⌈config.traineesPerCohort / mentorshipMentorCapacity config.mentorship⌉ : ℤ) : K)
        else 0) * config.cohorts ≤ config.availableMentorsNational.getD 200
    · simp [h]
    · simp [h]
  refine ⟨?_, ?_, ?_, ?_, rfl, rfl, rfl, hstatus, ?_, ?_⟩
  · simp [computeCapacity, hcap]
  · intro h
    simp [computeCapacity, mentorshipMentorCapacity, h]
  · intro h
    simp [computeCapacity, mentorshipMentorCapacity, h]
  · intro h1 h2
    simp [computeCapacity, mentorshipMentorCapacity, h1, h2]
  · rw [hstatus]
    show _ ↔ max 0 ((computeCapacity config).totalMentorsRequired
      - (computeCapacity config).availableMentors) = 0
    constructor
    · intro h
      exact max_eq_left (by linarith)
    · intro h
      have := le_max_right 0 ((computeCapacity config).totalMentorsRequired
        - (computeCapacity config).availableMentors)
      rw [h] at this
      linarith
  · intro h
    have hor : (computeCapacity config).status = "Within current capacity"
        ∨ (computeCapacity config).status = "Requires capacity expansion" := by
      simp only [computeCapacity]
      split_ifs <;> simp
    exact hor.resolve_left h

/-- Witness for C16: the worked example needs 8 mentors per cohort and 80 in total,
within the 200 available. -/
theorem C16_capacity_witness :
    (computeCapacity (exampleConfig : Config ℚ)).fellowsPerMentor = 3.5
      ∧ (computeCapacity (exampleConfig : Config ℚ)).status = "Within current capacity" := by
  obtain ⟨hm, -, hmed, -, ht, ha, -, hs, -, -⟩ := C16_capacity (exampleConfig : Config ℚ)
  have hf := hmed rfl
  refine ⟨hf, hs.mpr ?_⟩
  have hceil : ⌈((25 : ℚ) / 3.5)⌉ = 8 := by
    rw [Int.ceil_eq_iff]; norm_num
  rw [ht, ha, hm, hf]
  simp [exampleConfig, hceil]
  norm_num

end CapacityTheorems

/-! ## Cohort ceiling: theorems -/

section CohortCeilingTheorems

variable {K : Type} [LinearOrderedField K] [FloorRing K]

/-- The three tier keys are already lower case and not empty. -/
theorem toLowerCase_tierKey (tier : String) (h : tier ∈ tierKeys) :
    toLowerCase (if tier = "" then "frontline" else tier) = tier := by
  simp only [tierKeys, List.mem_cons, List.mem_singleton, List.not_mem_nil, or_false] at h
  rcases h with rfl | rfl | rfl <;> decide

/-- The ceiling for a tier of the three and a positive horizon, in terms of the parsed
site count. -/
theorem computeMaxFeasibleCohorts_eq (tier : String) (h : K) (s : JSNum K)
    (ht : tier ∈ tierKeys) (hh : 0 < h) :
    computeMaxFeasibleCohorts tier (JSNum.fin h) s
      = max 1 ((⌊(12 * h / tierMonths tier) * parsePositiveInt s 1⌋ : ℤ) : K) := by
  have hd := tierMonths_pos (K := K) tier
  have hm : ¬ (h * 12 ≤ 0 ∨ (tierMonths tier : K) ≤ 0) := by
    rintro (h1 | h1) <;> linarith
  simp only [computeMaxFeasibleCohorts, toLowerCase_tierKey tier ht, if_neg hm]
  rw [mul_comm h 12]

/-- A positive whole number of sites is parsed to itself. -/
theorem parsePositiveInt_natCast (n : ℕ) (hn : 0 < n) (fallback : K) :
    parsePositiveInt (JSNum.fin (n : K)) fallback = n := by
  have h1 : ¬ ((n : K) ≤ 0) := not_le.mpr (Nat.cast_pos.mpr hn)
  have h2 : (1 : K) ≤ n := by exact_mod_cast hn
  simp only [parsePositiveInt, if_neg h1, Int.floor_natCast, Int.cast_natCast]
  exact max_eq_right h2

/-- Claim C17, amended: for every tier of the three, every horizon of `h > 0` years and
every site argument `s`, `computeMaxFeasibleCohorts(tier, h, s) = max(1, floor((12·h /
duration) × sites))` with durations 3/12/24 months, where `sites = parsePositiveInt(s,
1)`: a positive whole number of sites is taken as it is, and a site count that is zero,
negative or not a finite number is taken as 1 site. -/
theorem C17_max_feasible_cohorts (tier : String) (h : K) (s : JSNum K)
    (ht : tier ∈ tierKeys) (hh : 0 < h) :
    computeMaxFeasibleCohorts tier (JSNum.fin h) s
        = max 1 ((⌊(12 * h / tierMonths tier) * parsePositiveInt s 1⌋ : ℤ) : K)
      ∧ (tierMonths "frontline" : K) = 3 ∧ (tierMonths "intermediate" : K) = 12
      ∧ (tierMonths "advanced" : K) = 24
      ∧ (∀ n : ℕ, 0 < n →
          computeMaxFeasibleCohorts tier (JSNum.fin h) (JSNum.fin (n : K))
            = max 1 ((⌊(12 * h / tierMonths tier) * (n : K)⌋ : ℤ) : K))
      ∧ (∀ x : K, x ≤ 0 → parsePositiveInt (JSNum.fin x) (1 : K) = 1)
      ∧ parsePositiveInt (JSNum.absent : JSNum K) 1 = 1
      ∧ parsePositiveInt (JSNum.nan : JSNum K) 1 = 1 := by
  refine ⟨computeMaxFeasibleCohorts_eq tier h s ht hh, ?_, ?_, ?_, ?_, ?_, rfl, rfl⟩
  · simp [tierMonths]
  · simp [tierMonths]
  · simp [tierMonths]
  · intro n hn
    rw [computeMaxFeasibleCohorts_eq tier h _ ht hh, parsePositiveInt_natCast n hn]
  · intro x hx
    simp [parsePositiveInt, hx]

/-- Witness for C17: the intermediate tier over 3 years with 2 sites allows
`floor((36/12) × 2) = 6` cohorts. -/
theorem C17_max_feasible_cohorts_witness :
    computeMaxFeasibleCohorts "intermediate" (JSNum.fin (3 : ℚ)) (JSNum.fin ((2 : ℕ) : ℚ)) = 6 := by
  have h := (C17_max_feasible_cohorts "intermediate" (3 : ℚ) (JSNum.fin ((2 : ℕ) : ℚ))
    (by simp [tierKeys]) (by norm_num)).2.2.2.2.1 2 (by norm_num)
  rw [h]
  have hf : ⌊(12 * (3 : ℚ) / tierMonths "intermediate") * ((2 : ℕ) : ℚ)⌋ = 6 := by
    rw [Int.floor_eq_iff]
    simp [tierMonths]
    norm_num
  rw [hf]
  norm_num

/-- Counterexample for C17 as stated: with 0 available sites the frontline ceiling over
one year is 4 (the site count is taken as 1), not `max(1, floor((12/3) × 0)) = 1`. -/
theorem C17_zero_sites_counted_as_one :
    computeMaxFeasibleCohorts "frontline" (JSNum.fin (1 : ℚ)) (JSNum.fin 0) = 4
      ∧ max 1 ((⌊(12 * (1 : ℚ) / tierMonths "frontline") * 0⌋ : ℤ) : ℚ) = 1
      ∧ computeMaxFeasibleCohorts "frontline" (JSNum.fin (1 : ℚ)) (JSNum.fin 0)
          ≠ max 1 ((⌊(12 * (1 : ℚ) / tierMonths "frontline") * 0⌋ : ℤ) : ℚ) := by
  have h1 : computeMaxFeasibleCohorts "frontline" (JSNum.fin (1 : ℚ)) (JSNum.fin 0) = 4 := by
    rw [computeMaxFeasibleCohorts_eq "frontline" 1 _ (by simp [tierKeys]) (by norm_num)]
    have hf : ⌊(12 * (1 : ℚ) / tierMonths "frontline") * parsePositiveInt (JSNum.fin 0) 1⌋
        = 4 := by
      rw [Int.floor_eq_iff]
      simp [tierMonths, parsePositiveInt]
      norm_num
    rw [hf]
    norm_num
  have h2 : max 1 ((⌊(12 * (1 : ℚ) / tierMonths "frontline") * 0⌋ : ℤ) : ℚ) = 1 := by
    simp
  refine ⟨h1, h2, ?_⟩
  rw [h1, h2]
  norm_num

/-- Claim C18: `computeMaxFeasibleCohorts("frontline", 1, 4)` returns 16, which is
`floor((12/3) × 4)`. -/
theorem C18_frontline_one_year_four_sites :
    computeMaxFeasibleCohorts "frontline" (JSNum.fin (1 : K)) (JSNum.fin 4) = 16
      ∧ ((⌊((12 : K) / 3) * 4⌋ : ℤ) : K) = 16 := by
  have hp : parsePositiveInt (JSNum.fin (4 : K)) 1 = 4 := by
    have := parsePositiveInt_natCast (K := K) 4 (by norm_num) 1
    simpa using this
  have hf : ⌊((12 : K) / 3) * 4⌋ = 16 := by
    rw [Int.floor_eq_iff]
    constructor <;> norm_num
  constructor
  · rw [computeMaxFeasibleCohorts_eq "frontline" 1 _ (by simp [tierKeys]) (by norm_num), hp]
    have h3 : (tierMonths "frontline" : K) = 3 := by simp [tierMonths]
    rw [h3, mul_one, hf]
    norm_num
  · rw [hf]
    norm_num

end CohortCeilingTheorems

/-! ## Scenario aggregation: derived outputs and determinism -/

section ScenarioDerivedTheorems

variable {K : Type} [LinearOrderedField K] [FloorRing K]

/-- Claim C19: for every configuration of one of the three tiers `computeScenario`
returns `wtpPerCohort = wtpPerTraineePerMonth × months(tier) × traineesPerCohort`,
`wtpAllCohorts = wtpPerCohort × cohorts`, `netBenefitPerCohort = epiBenefitPerCohort −
totalEconomicCostPerCohort`, `epiBenefitAllCohorts = epiBenefitPerCohort × cohorts` and
`netBenefitAllCohorts = epiBenefitAllCohorts − natTotalCost` with `natTotalCost =
totalEconomicCostPerCohort × cohorts`. -/
theorem C19_scenario_derived_outputs (M : MathFns K) (settings : Settings K)
    (clock : Clock) (config : Config K) (ht : config.tier ∈ tierKeys) :
    ∃ r, computeScenario M settings clock config = some r
      ∧ r.wtpPerTraineePerMonth = (computeEndorsementAndWTP M config).wtpPerTraineePerMonth
      ∧ r.wtpPerCohort
          = r.wtpPerTraineePerMonth * tierMonths config.tier * config.traineesPerCohort
      ∧ r.wtpAllCohorts = r.wtpPerCohort * config.cohorts
      ∧ r.costs = computeCosts config
      ∧ computeEpidemiological M settings config
          (computeEndorsementAndWTP M config).endorseRate = some r.epi
      ∧ r.epiBenefitPerCohort = r.epi.epiBenefitPerCohort
      ∧ r.netBenefitPerCohort
          = r.epiBenefitPerCohort - r.costs.totalEconomicCostPerCohort
      ∧ r.epiBenefitAllCohorts = r.epiBenefitPerCohort * config.cohorts
      ∧ r.natTotalCost = r.costs.totalEconomicCostPerCohort * config.cohorts
      ∧ r.netBenefitAllCohorts = r.epiBenefitAllCohorts - r.natTotalCost := by
  obtain ⟨ts, hts⟩ := settings.tiers_of_mem ht
  obtain ⟨epi, hepi, hmonths, -⟩ := computeEpidemiological_eq_some M settings config
    (computeEndorsementAndWTP M config).endorseRate ts hts
  simp only [computeScenario, hepi]
  exact ⟨_, rfl, rfl, by rw [hmonths], rfl, rfl, rfl, rfl, rfl, rfl, rfl, rfl⟩

/-- Witness for C19: the worked example over the reals; its willingness to pay per
cohort is the monthly figure times 12 months times 25 trainees. -/
theorem C19_scenario_derived_outputs_witness :
    ∃ r, computeScenario realMath defaultEpiSettings ⟨0, 0⟩ (exampleConfig : Config ℝ) = some r
      ∧ r.wtpPerCohort = r.wtpPerTraineePerMonth * 12 * 25
      ∧ r.wtpAllCohorts = r.wtpPerCohort * 10 := by
  obtain ⟨r, hr, -, hc, ha, -⟩ :=
    C19_scenario_derived_outputs realMath defaultEpiSettings ⟨0, 0⟩
      (exampleConfig : Config ℝ) (by simp [exampleConfig, tierKeys])
  refine ⟨r, hr, ?_, ?_⟩
  · rw [hc]; simp [exampleConfig, tierMonths]
  · rw [ha]; simp [exampleConfig]

/-- A returned result carries the clock readings of its evaluation. -/
theorem computeScenario_stamp (M : MathFns K) (settings : Settings K) (clock : Clock)
    (config : Config K) (r : ScenarioResult K)
    (h : computeScenario M settings clock config = some r) :
    r.id = toString clock.dateNow ∧ r.timestamp = clock.newDate := by
  unfold computeScenario at h
  rcases hepi : computeEpidemiological M settings config
      (computeEndorsementAndWTP M config).endorseRate with _ | epi
  · simp [hepi] at h
  · simp only [hepi, Option.some.injEq] at h
    rw [← h]
    exact ⟨rfl, rfl⟩

/-- Claim C20, amended: two evaluations of `computeScenario` on the same configuration
with the same settings return results identical in every field other than `id` and
`timestamp`, which are read from the clock at each evaluation; evaluations at equal clock
readings are identical in every field. -/
theorem C20_deterministic_up_to_stamp (M : MathFns K) (settings : Settings K)
    (clock₁ clock₂ : Clock) (config : Config K) :
    (computeScenario M settings clock₁ config).map ScenarioResult.withoutStamp
        = (computeScenario M settings clock₂ config).map ScenarioResult.withoutStamp
      ∧ (clock₁ = clock₂ →
          computeScenario M settings clock₁ config = computeScenario M settings clock₂ config)
      ∧ (∀ r₁ r₂, computeScenario M settings clock₁ config = some r₁ →
          computeScenario M settings clock₂ config = some r₂ →
          r₁.id = toString clock₁.dateNow ∧ r₁.timestamp = clock₁.newDate
            ∧ r₂.id = toString clock₂.dateNow ∧ r₂.timestamp = clock₂.newDate
            ∧ r₁.withoutStamp = r₂.withoutStamp) := by
  have hmap : (computeScenario M settings clock₁ config).map ScenarioResult.withoutStamp
      = (computeScenario M settings clock₂ config).map ScenarioResult.withoutStamp := by
    rcases hepi : computeEpidemiological M settings config
        (computeEndorsementAndWTP M config).endorseRate with _ | epi
    · simp only [computeScenario, hepi]
    · simp only [computeScenario, hepi]
      rfl
  refine ⟨hmap, ?_, ?_⟩
  · intro h
    rw [h]
  · intro r₁ r₂ h₁ h₂
    obtain ⟨a1, a2⟩ := computeScenario_stamp M settings clock₁ config r₁ h₁
    obtain ⟨b1, b2⟩ := computeScenario_stamp M settings clock₂ config r₂ h₂
    rw [h₁, h₂] at hmap
    exact ⟨a1, a2, b1, b2, Option.some.inj hmap⟩

/-- Witness for C20: the worked example evaluated at two different instants. -/
theorem C20_deterministic_up_to_stamp_witness :
    (computeScenario realMath defaultEpiSettings ⟨0, 0⟩
        (exampleConfig : Config ℝ)).map ScenarioResult.withoutStamp
      = (computeScenario realMath defaultEpiSettings ⟨1, 1⟩
        (exampleConfig : Config ℝ)).map ScenarioResult.withoutStamp :=
  (C20_deterministic_up_to_stamp realMath defaultEpiSettings ⟨0, 0⟩ ⟨1, 1⟩
    (exampleConfig : Config ℝ)).1

/-- Counterexample for C20 as stated: the worked example evaluated at two instants one
millisecond apart gives two results whose `timestamp` (and so the results themselves)
differ. -/
theorem C20_stamps_differ :
    ∃ r₁ r₂,
      computeScenario realMath defaultEpiSettings ⟨0, 0⟩ (exampleConfig : Config ℝ) = some r₁
        ∧ computeScenario realMath defaultEpiSettings ⟨1, 1⟩ (exampleConfig : Config ℝ)
            = some r₂
        ∧ r₁.timestamp ≠ r₂.timestamp ∧ r₁.id ≠ r₂.id ∧ r₁ ≠ r₂ := by
  have hmem : (exampleConfig : Config ℝ).tier ∈ tierKeys := by simp [exampleConfig, tierKeys]
  obtain ⟨ts, hts⟩ := (defaultEpiSettings : Settings ℝ).tiers_of_mem hmem
  obtain ⟨epi, hepi, -⟩ := computeEpidemiological_eq_some realMath defaultEpiSettings
    (exampleConfig : Config ℝ)
    (computeEndorsementAndWTP realMath (exampleConfig : Config ℝ)).endorseRate ts hts
  obtain ⟨r₁, h₁, -⟩ := computeScenario_eq_some realMath defaultEpiSettings ⟨0, 0⟩
    (exampleConfig : Config ℝ) epi hepi
  obtain ⟨r₂, h₂, -⟩ := computeScenario_eq_some realMath defaultEpiSettings ⟨1, 1⟩
    (exampleConfig : Config ℝ) epi hepi
  obtain ⟨a1, a2⟩ := computeScenario_stamp _ _ _ _ r₁ h₁
  obtain ⟨b1, b2⟩ := computeScenario_stamp _ _ _ _ r₂ h₂
  have ht : r₁.timestamp ≠ r₂.timestamp := by
    rw [a2, b2]; decide
  have hi : r₁.id ≠ r₂.id := by
    rw [a1, b1]; decide
  exact ⟨r₁, r₂, h₁, h₂, ht, hi, fun h => ht (by rw [h])⟩

end ScenarioDerivedTheorems

/-! ## Completion rate, graduate bounds and salary defaults: theorems -/

section RangeTheorems

variable {K : Type} [LinearOrderedField K]

/-- The `Math.max(0, Math.min(1, x))` of the benefit model is the clamp to `[0, 1]`. -/
theorem max_min_eq_clamp (x : K) : max 0 (min 1 x) = clamp x 0 1 := by
  unfold clamp
  rcases le_total x 0 with h0 | h0
  · rw [min_eq_right (by linarith), max_eq_left h0, max_eq_right h0, min_eq_left (by norm_num)]
  · rcases le_total x 1 with h1 | h1
    · rw [min_eq_right h1, max_eq_right h0, max_eq_left h0, min_eq_left h1]
    · rw [min_eq_left h1, max_eq_right (by norm_num), max_eq_left h0, min_eq_right h1]

/-- Claim C22: the completion rate used by `computeEpidemiological` lies in `[0, 1]`:
with no override it is the tier's settings `completionRate` clamped to `[0, 1]`; with a
finite override `v` it is `clamp(v/100, 0, 1)` when `v > 1` and `clamp(v, 0, 1)` when
`v <= 1`; and the completed trainees per cohort, of which the graduates are the endorsed
share, are `traineesPerCohort ×` that rate. -/
theorem C22_completion_rate (M : MathFns K) (settings : Settings K)
    (config : Config K) (endorseRate : K) (ht : config.tier ∈ tierKeys) :
    ∃ epi ts, settings.tiers config.tier = some ts
      ∧ computeEpidemiological M settings config endorseRate = some epi
      ∧ 0 ≤ epi.completionRate ∧ epi.completionRate ≤ 1
      ∧ (config.completionRateOverride = JSNum.absent →
          epi.completionRate = clamp ts.completionRate 0 1)
      ∧ (∀ v : K, config.completionRateOverride = JSNum.fin v → 1 < v →
          epi.completionRate = clamp (v / 100) 0 1)
      ∧ (∀ v : K, config.completionRateOverride = JSNum.fin v → v ≤ 1 →
          epi.completionRate = clamp v 0 1)
      ∧ epi.graduatesPerCohort
          = (config.traineesPerCohort * epi.completionRate) * (endorseRate / 100) := by
  obtain ⟨ts, hts⟩ := settings.tiers_of_mem ht
  obtain ⟨epi, hepi, -, hcr, hg, -⟩ :=
    computeEpidemiological_eq_some M settings config endorseRate ts hts
  have hmem := effectiveCompletionRate_mem ts.completionRate config.completionRateOverride
  refine ⟨epi, ts, hts, hepi, by rw [hcr]; exact hmem.1, by rw [hcr]; exact hmem.2,
    ?_, ?_, ?_, hg⟩
  · intro h
    rw [hcr, h, ← max_min_eq_clamp]
    rfl
  · intro v h hv
    rw [hcr, h, ← max_min_eq_clamp]
    simp only [effectiveCompletionRate, if_pos hv]
  · intro v h hv
    rw [hcr, h, ← max_min_eq_clamp]
    simp only [effectiveCompletionRate, if_neg (not_lt.mpr hv)]

/-- Witness for C22: the worked example with a completion override of 85 (a percentage)
uses the rate 0.85. -/
theorem C22_completion_rate_witness :
    ∃ epi, computeEpidemiological realMath defaultEpiSettings
          { (exampleConfig : Config ℝ) with completionRateOverride := JSNum.fin 85 } 80
          = some epi
      ∧ epi.completionRate = 0.85 := by
  obtain ⟨epi, ts, -, hepi, -, -, -, hpct, -, -⟩ :=
    C22_completion_rate realMath defaultEpiSettings
      { (exampleConfig : Config ℝ) with completionRateOverride := JSNum.fin 85 } 80
      (by simp [exampleConfig, tierKeys])
  refine ⟨epi, hepi, ?_⟩
  rw [hpct 85 rfl (by norm_num)]
  unfold clamp
  rw [max_eq_left (by norm_num), min_eq_left (by norm_num)]
  norm_num

/-- Claim C29: for every configuration of one of the three tiers with
`traineesPerCohort >= 0` and `cohorts >= 0`, every `endorseRate` in `[0, 100]` and every
settings and override value, `computeEpidemiological` returns `0 <= graduatesPerCohort
<= traineesPerCohort` and `0 <= graduatesAllCohorts <= traineesPerCohort × cohorts`. -/
theorem C29_graduates_bounded (M : MathFns K) (settings : Settings K)
    (config : Config K) (endorseRate : K) (ht : config.tier ∈ tierKeys)
    (htr : 0 ≤ config.traineesPerCohort) (hco : 0 ≤ config.cohorts)
    (he0 : 0 ≤ endorseRate) (he1 : endorseRate ≤ 100) :
    ∃ epi, computeEpidemiological M settings config endorseRate = some epi
      ∧ 0 ≤ epi.graduatesPerCohort ∧ epi.graduatesPerCohort ≤ config.traineesPerCohort
      ∧ 0 ≤ epi.graduatesAllCohorts
      ∧ epi.graduatesAllCohorts ≤ config.traineesPerCohort * config.cohorts := by
  obtain ⟨ts, hts⟩ := settings.tiers_of_mem ht
  obtain ⟨epi, hepi, -, hcr, hg, hga, -⟩ :=
    computeEpidemiological_eq_some M settings config endorseRate ts hts
  obtain ⟨hc0, hc1⟩ :=
    effectiveCompletionRate_mem ts.completionRate config.completionRateOverride
  rw [← hcr] at hc0 hc1
  have hf0 : 0 ≤ endorseRate / 100 := div_nonneg he0 (by norm_num)
  have hf1 : endorseRate / 100 ≤ 1 := by
    rw [div_le_one (by norm_num)]; exact he1
  have hcomp0 : 0 ≤ config.traineesPerCohort * epi.completionRate := mul_nonneg htr hc0
  have hcomp1 : config.traineesPerCohort * epi.completionRate ≤ config.traineesPerCohort := by
    calc config.traineesPerCohort * epi.completionRate
        ≤ config.traineesPerCohort * 1 := mul_le_mul_of_nonneg_left hc1 htr
      _ = config.traineesPerCohort := mul_one _
  have hg0 : 0 ≤ epi.graduatesPerCohort := by
    rw [hg]; exact mul_nonneg hcomp0 hf0
  have hg1 : epi.graduatesPerCohort ≤ config.traineesPerCohort := by
    rw [hg]
    calc config.traineesPerCohort * epi.completionRate * (endorseRate / 100)
        ≤ config.traineesPerCohort * epi.completionRate * 1 :=
          mul_le_mul_of_nonneg_left hf1 hcomp0
      _ = config.traineesPerCohort * epi.completionRate := mul_one _
      _ ≤ config.traineesPerCohort := hcomp1
  refine ⟨epi, hepi, hg0, hg1, ?_, ?_⟩
  · rw [hga]; exact mul_nonneg hg0 hco
  · rw [hga]; exact mul_le_mul_of_nonneg_right hg1 hco

/-- Witness for C29: the worked example at an endorsement rate of 80. -/
theorem C29_graduates_bounded_witness :
    ∃ epi, computeEpidemiological realMath defaultEpiSettings (exampleConfig : Config ℝ) 80
          = some epi
      ∧ 0 ≤ epi.graduatesPerCohort ∧ epi.graduatesPerCohort ≤ 25 := by
  obtain ⟨epi, hepi, h0, h1, -, -⟩ :=
    C29_graduates_bounded realMath defaultEpiSettings (exampleConfig : Config ℝ) 80
      (by simp [exampleConfig, tierKeys]) (by norm_num [exampleConfig])
      (by norm_num [exampleConfig]) (by norm_num) (by norm_num)
  exact ⟨epi, hepi, h0, by simpa [exampleConfig] using h1⟩

/-- The monthly salary the salary-based cost uses is never negative. -/
theorem salaryOrDefault_nonneg (v : JSNum K) (d : K) (hd : 0 ≤ d) :
    0 ≤ salaryOrDefault v d := by
  cases v <;> simp only [salaryOrDefault] <;> try exact hd
  split_ifs with h
  · exact h
  · exact hd

end RangeTheorems

section SalaryGuardTheorems

variable {K : Type} [LinearOrderedField K]

/-- A rejected salary input is replaced by the default. -/
theorem salaryOrDefault_of_invalid (v : JSNum K) (d : K) (h : salaryInvalid v) :
    salaryOrDefault v d = d := by
  cases v <;> simp only [salaryOrDefault]
  simp only [salaryInvalid] at h
  rw [if_neg (not_le.mpr h)]

/-- The assumed contact days of a tier are not negative. -/
theorem contactDaysByTier_nonneg (tier : String) : (0 : K) ≤ contactDaysByTier tier := by
  unfold contactDaysByTier
  split_ifs <;> norm_num

end SalaryGuardTheorems

section SalaryDefaultTheorems

variable {K : Type} [LinearOrderedField K] [FloorRing K]

/-- The quantities recorded in the `meta` block of the salary-based cost are not
negative when the cohort size is not. -/
theorem salary_meta_nonneg (config : Config K) (htr : 0 ≤ config.traineesPerCohort) :
    0 ≤ (computeSalaryBasedOpportunityCostPerCohort config).meta.salaryMonthly.faculty
      ∧ 0 ≤ (computeSalaryBasedOpportunityCostPerCohort config).meta.salaryMonthly.coordinator
      ∧ 0 ≤ (computeSalaryBasedOpportunityCostPerCohort config).meta.salaryMonthly.participant
      ∧ 0 ≤ (computeSalaryBasedOpportunityCostPerCohort config).meta.months
      ∧ 0 ≤ (computeSalaryBasedOpportunityCostPerCohort config).meta.nFaculty
      ∧ 0 ≤ (computeSalaryBasedOpportunityCostPerCohort config).meta.contactDays := by
  have hcap := mentorshipMentorCapacity_pos (K := K) config.mentorship
  have hmo := tierMonths_pos (K := K)
    (if config.tier = "" then "intermediate" else config.tier)
  have h30 : (0 : K) < salaryOcDaysPerMonth := by norm_num [salaryOcDaysPerMonth]
  refine ⟨?_, ?_, ?_, le_of_lt hmo, ?_, ?_⟩
  · exact salaryOrDefault_nonneg _ _ (by norm_num [salaryDefaultFaculty])
  · exact salaryOrDefault_nonneg _ _ (by norm_num [salaryDefaultCoordinator])
  · exact salaryOrDefault_nonneg _ _ (by norm_num [salaryDefaultParticipant])
  · rw [(salary_nFaculty config).1]
    exact_mod_cast Int.ceil_nonneg (div_nonneg htr (le_of_lt hcap))
  · have e : (computeSalaryBasedOpportunityCostPerCohort config).meta.contactDays
        = if toLowerCase config.delivery = "blended" then
            contactDaysByTier (if config.tier = "" then "intermediate" else config.tier)
          else if toLowerCase config.delivery = "online" then 0
          else tierMonths (if config.tier = "" then "intermediate" else config.tier)
            * salaryOcDaysPerMonth := rfl
    rw [e]
    generalize (if config.tier = "" then "intermediate" else config.tier) = t at hmo
    by_cases hb : toLowerCase config.delivery = "blended"
    · rw [if_pos hb]
      exact contactDaysByTier_nonneg _
    · rw [if_neg hb]
      by_cases ho : toLowerCase config.delivery = "online"
      · rw [if_pos ho]
      · rw [if_neg ho]
        exact mul_nonneg (le_of_lt hmo) (le_of_lt h30)

/-- With a non-negative cohort size every role cost of the salary-based opportunity
cost is non-negative, whatever the salary inputs. -/
theorem salary_costs_nonneg (config : Config K) (htr : 0 ≤ config.traineesPerCohort) :
    0 ≤ (computeSalaryBasedOpportunityCostPerCohort config).byRole.faculty
      ∧ 0 ≤ (computeSalaryBasedOpportunityCostPerCohort config).byRole.coordinator
      ∧ 0 ≤ (computeSalaryBasedOpportunityCostPerCohort config).byRole.participant := by
  obtain ⟨hf, hc, hp, hm, hn, hd⟩ := salary_meta_nonneg config htr
  have h30 : (0 : K) < salaryOcDaysPerMonth := by norm_num [salaryOcDaysPerMonth]
  have hdc := div_nonneg hd (le_of_lt h30)
  have hnc : 0 ≤ max 0 ((computeSalaryBasedOpportunityCostPerCohort config).meta.totalDays
      - (computeSalaryBasedOpportunityCostPerCohort config).meta.contactDays)
      / salaryOcDaysPerMonth := div_nonneg (le_max_left 0 _) (le_of_lt h30)
  have ef : (computeSalaryBasedOpportunityCostPerCohort config).byRole.faculty
      = if toLowerCase config.delivery = "inperson" then
          (computeSalaryBasedOpportunityCostPerCohort config).meta.salaryMonthly.faculty
            * (computeSalaryBasedOpportunityCostPerCohort config).meta.months
            * (computeSalaryBasedOpportunityCostPerCohort config).meta.nFaculty
        else
          (computeSalaryBasedOpportunityCostPerCohort config).meta.salaryMonthly.faculty
            * ((computeSalaryBasedOpportunityCostPerCohort config).meta.contactDays
                  / salaryOcDaysPerMonth
                + 0.5 * (max 0 ((computeSalaryBasedOpportunityCostPerCohort config).meta.totalDays
                    - (computeSalaryBasedOpportunityCostPerCohort config).meta.contactDays)
                  / salaryOcDaysPerMonth))
            * (computeSalaryBasedOpportunityCostPerCohort config).meta.nFaculty := rfl
  have ec : (computeSalaryBasedOpportunityCostPerCohort config).byRole.coordinator
      = if toLowerCase config.delivery = "inperson" then
          (computeSalaryBasedOpportunityCostPerCohort config).meta.salaryMonthly.coordinator
            * (computeSalaryBasedOpportunityCostPerCohort config).meta.months * 1
        else
          (computeSalaryBasedOpportunityCostPerCohort config).meta.salaryMonthly.coordinator
            * ((computeSalaryBasedOpportunityCostPerCohort config).meta.contactDays
                  / salaryOcDaysPerMonth) * 1 := rfl
  have ep : (computeSalaryBasedOpportunityCostPerCohort config).byRole.participant
      = if toLowerCase config.delivery = "inperson" then
          (computeSalaryBasedOpportunityCostPerCohort config).meta.salaryMonthly.participant
            * (computeSalaryBasedOpportunityCostPerCohort config).meta.months
            * config.traineesPerCohort
        else
          (computeSalaryBasedOpportunityCostPerCohort config).meta.salaryMonthly.participant
            * ((computeSalaryBasedOpportunityCostPerCohort config).meta.contactDays
                  / salaryOcDaysPerMonth) * config.traineesPerCohort := rfl
  refine ⟨?_, ?_, ?_⟩
  · rw [ef]
    split_ifs
    · exact mul_nonneg (mul_nonneg hf hm) hn
    · exact mul_nonneg (mul_nonneg hf (add_nonneg hdc (mul_nonneg (by norm_num) hnc))) hn
  · rw [ec]
    split_ifs
    · exact mul_nonneg (mul_nonneg hc hm) zero_le_one
    · exact mul_nonneg (mul_nonneg hc hdc) zero_le_one
  · rw [ep]
    split_ifs
    · exact mul_nonneg (mul_nonneg hp hm) htr
    · exact mul_nonneg (mul_nonneg hp hdc) htr

/-- Claim C25: a monthly salary (faculty, coordinator or participant) that is absent,
negative or not finite is replaced by the default of its role (200000, 70000, 100000), so
that with `traineesPerCohort >= 0` every role cost and the total of
`computeSalaryBasedOpportunityCostPerCohort` are (finite and) non-negative. -/
theorem C25_salary_defaults (config : Config K) :
    (salaryInvalid config.salaryMonthlyFaculty →
        (computeSalaryBasedOpportunityCostPerCohort config).meta.salaryMonthly.faculty
          = 200000)
      ∧ (salaryInvalid config.salaryMonthlyCoordinator →
        (computeSalaryBasedOpportunityCostPerCohort config).meta.salaryMonthly.coordinator
          = 70000)
      ∧ (salaryInvalid config.salaryMonthlyParticipant →
        (computeSalaryBasedOpportunityCostPerCohort config).meta.salaryMonthly.participant
          = 100000)
      ∧ (salaryInvalid (JSNum.absent : JSNum K) ∧ salaryInvalid (JSNum.nan : JSNum K)
          ∧ salaryInvalid (JSNum.posInf : JSNum K) ∧ salaryInvalid (JSNum.negInf : JSNum K)
          ∧ ∀ x : K, x < 0 → salaryInvalid (JSNum.fin x))
      ∧ (0 ≤ config.traineesPerCohort →
          0 ≤ (computeSalaryBasedOpportunityCostPerCohort config).byRole.faculty
            ∧ 0 ≤ (computeSalaryBasedOpportunityCostPerCohort config).byRole.coordinator
            ∧ 0 ≤ (computeSalaryBasedOpportunityCostPerCohort config).byRole.participant
            ∧ 0 ≤ (computeSalaryBasedOpportunityCostPerCohort config).total) := by
  refine ⟨?_, ?_, ?_, ⟨trivial, trivial, trivial, trivial, fun x hx => hx⟩, ?_⟩
  · intro h
    exact salaryOrDefault_of_invalid _ _ h
  · intro h
    exact salaryOrDefault_of_invalid _ _ h
  · intro h
    exact salaryOrDefault_of_invalid _ _ h
  · intro htr
    obtain ⟨h1, h2, h3⟩ := salary_costs_nonneg config htr
    exact ⟨h1, h2, h3, add_nonneg (add_nonneg h1 h2) h3⟩

/-- Witness for C25: the worked example with a negative faculty salary and a missing
participant salary uses the defaults 200000 and 100000. -/
theorem C25_salary_defaults_witness :
    (computeSalaryBasedOpportunityCostPerCohort
        { (exampleConfig : Config ℚ) with
          salaryMonthlyFaculty := JSNum.fin (-5)
          salaryMonthlyParticipant := JSNum.nan }).meta.salaryMonthly.faculty = 200000
      ∧ 0 ≤ (computeSalaryBasedOpportunityCostPerCohort
        { (exampleConfig : Config ℚ) with
          salaryMonthlyFaculty := JSNum.fin (-5)
          salaryMonthlyParticipant := JSNum.nan }).total := by
  obtain ⟨hf, -, -, -, hnn⟩ :=
    C25_salary_defaults
      { (exampleConfig : Config ℚ) with
        salaryMonthlyFaculty := JSNum.fin (-5)
        salaryMonthlyParticipant := JSNum.nan }
  refine ⟨hf ?_, (hnn ?_).2.2.2⟩
  · show (-5 : ℚ) < 0
    norm_num
  · show (0 : ℚ) ≤ 25
    norm_num

end SalaryDefaultTheorems

/-! ## Softmax: denominator, logistic form and monotonicity in cost -/

section SoftmaxTheorems

/-- Over the reals the endorsement probability lies strictly between 0 and 1. -/
theorem endorseProb_realMath_mem (config : Config ℝ) :
    0 < endorseProb realMath config ∧ endorseProb realMath config < 1 := by
  rw [endorseProb_realMath]
  have h := Real.exp_pos ((ascOptOut : ℝ) - utilProgram config)
  constructor
  · positivity
  · rw [div_lt_one (by linarith)]
    linarith

/-- Over the reals the clamps of `computeEndorsementAndWTP` are the identity. -/
theorem rates_realMath (config : Config ℝ) :
    (computeEndorsementAndWTP realMath config).endorseRate
        = endorseProb realMath config * 100
      ∧ (computeEndorsementAndWTP realMath config).optOutRate
        = (1 - endorseProb realMath config) * 100 := by
  obtain ⟨h0, h1⟩ := endorseProb_realMath_mem config
  simp only [computeEndorsementAndWTP, clamp]
  constructor
  · rw [max_eq_left (by linarith), min_eq_left (by linarith)]
  · rw [max_eq_left (by linarith), min_eq_left (by linarith)]

/-- Claim C26: for every finite cost per trainee per month and every enum assignment the
softmax denominator of `computeEndorsementAndWTP` is at least 1, so the `0.5` fallback is
never taken; the endorsement probability is the logistic `1 / (1 + exp(U_optout −
U_program))`, lies strictly between 0 and 1, and the clamp to `[0, 100]` leaves
`endorseRate` and `optOutRate` unchanged. -/
theorem C26_softmax_denominator (config : Config ℝ) :
    1 ≤ Real.exp (utilProgram config - max (utilProgram config) ascOptOut)
          + Real.exp ((ascOptOut : ℝ) - max (utilProgram config) ascOptOut)
      ∧ endorseProb realMath config
          = Real.exp (utilProgram config - max (utilProgram config) ascOptOut)
            / (Real.exp (utilProgram config - max (utilProgram config) ascOptOut)
                + Real.exp ((ascOptOut : ℝ) - max (utilProgram config) ascOptOut))
      ∧ endorseProb realMath config
          = 1 / (1 + Real.exp ((ascOptOut : ℝ) - utilProgram config))
      ∧ 0 < endorseProb realMath config ∧ endorseProb realMath config < 1
      ∧ (computeEndorsementAndWTP realMath config).endorseRate
          = endorseProb realMath config * 100
      ∧ (computeEndorsementAndWTP realMath config).optOutRate
          = (1 - endorseProb realMath config) * 100 := by
  have hden : 1 ≤ Real.exp (utilProgram config - max (utilProgram config) ascOptOut)
      + Real.exp ((ascOptOut : ℝ) - max (utilProgram config) ascOptOut) := by
    rcases le_total (utilProgram config) (ascOptOut : ℝ) with h | h
    · rw [max_eq_right h, sub_self, Real.exp_zero]
      have := Real.exp_pos (utilProgram config - ascOptOut)
      linarith
    · rw [max_eq_left h, sub_self, Real.exp_zero]
      have := Real.exp_pos ((ascOptOut : ℝ) - utilProgram config)
      linarith
  refine ⟨hden, ?_, endorseProb_realMath config, (endorseProb_realMath_mem config).1,
    (endorseProb_realMath_mem config).2, (rates_realMath config).1, (rates_realMath config).2⟩
  simp only [endorseProb, realMath]
  rw [if_pos (by linarith)]

/-- The programme utility falls as the cost rises, by 0.005 per thousand. -/
theorem utilProgram_cost (config : Config ℝ) (c : ℝ) :
    utilProgram { config with costPerTraineePerMonth := c }
      = nonCostUtility config + costPerThousand * (c / 1000) := rfl

/-- Claim C27: endorsement is strictly decreasing in cost. For two configurations that
differ only in `costPerTraineePerMonth`, with `c1 < c2`, `computeEndorsementAndWTP`
returns `endorseRate(c1) > endorseRate(c2)` and `optOutRate(c1) < optOutRate(c2)`, and the
same `wtpPerTraineePerMonth` for both. -/
theorem C27_endorsement_decreasing_in_cost (config : Config ℝ) (c1 c2 : ℝ) (h : c1 < c2) :
    (computeEndorsementAndWTP realMath
          { config with costPerTraineePerMonth := c2 }).endorseRate
        < (computeEndorsementAndWTP realMath
          { config with costPerTraineePerMonth := c1 }).endorseRate
      ∧ (computeEndorsementAndWTP realMath
          { config with costPerTraineePerMonth := c1 }).optOutRate
        < (computeEndorsementAndWTP realMath
          { config with costPerTraineePerMonth := c2 }).optOutRate
      ∧ (computeEndorsementAndWTP realMath
          { config with costPerTraineePerMonth := c1 }).wtpPerTraineePerMonth
        = (computeEndorsementAndWTP realMath
          { config with costPerTraineePerMonth := c2 }).wtpPerTraineePerMonth := by
  have hu : utilProgram { config with costPerTraineePerMonth := c2 }
      < utilProgram { config with costPerTraineePerMonth := c1 } := by
    rw [utilProgram_cost, utilProgram_cost]
    unfold costPerThousand
    linarith
  have he : Real.exp ((ascOptOut : ℝ) - utilProgram { config with costPerTraineePerMonth := c1 })
      < Real.exp ((ascOptOut : ℝ) - utilProgram { config with costPerTraineePerMonth := c2 }) :=
    Real.exp_lt_exp.mpr (by linarith)
  have h1 := Real.exp_pos
    ((ascOptOut : ℝ) - utilProgram { config with costPerTraineePerMonth := c1 })
  have hp : endorseProb realMath { config with costPerTraineePerMonth := c2 }
      < endorseProb realMath { config with costPerTraineePerMonth := c1 } := by
    rw [endorseProb_realMath, endorseProb_realMath]
    exact one_div_lt_one_div_of_lt (by linarith) (by linarith)
  refine ⟨?_, ?_, rfl⟩
  · rw [(rates_realMath _).1, (rates_realMath _).1]
    linarith
  · rw [(rates_realMath _).2, (rates_realMath _).2]
    linarith

/-- Witness for C27: the worked example at 100,000 against the same at 150,000. -/
theorem C27_endorsement_decreasing_in_cost_witness :
    (computeEndorsementAndWTP realMath
          { (exampleConfig : Config ℝ) with costPerTraineePerMonth := 150000 }).endorseRate
        < (computeEndorsementAndWTP realMath
          { (exampleConfig : Config ℝ) with costPerTraineePerMonth := 100000 }).endorseRate :=
  (C27_endorsement_decreasing_in_cost exampleConfig 100000 150000 (by norm_num)).1

end SoftmaxTheorems

/-! ## Present value factor as an annuity sum -/

section AnnuityTheorems

/-- The closed form of the annuity sum at a positive rate. -/
theorem annuitySum_closed (r : ℝ) (hr : 0 < r) (n : ℕ) :
    annuitySum r n = (1 - ((1 + r) ^ n)⁻¹) / r := by
  have h1 : (1 + r) ≠ 0 := by linarith
  induction n with
  | zero => simp [annuitySum]
  | succ k ih =>
    have e : annuitySum r (k + 1) = annuitySum r k + 1 / (1 + r) ^ (k + 1) := by
      unfold annuitySum
      rw [Finset.sum_range_succ]
    rw [e, ih]
    have hk : (1 + r) ^ k ≠ 0 := pow_ne_zero _ h1
    field_simp
    ring

/-- Over the reals `presentValueFactor` at a whole number of years is the annuity sum,
for a positive rate and for rate 0. -/
theorem presentValueFactor_eq_annuitySum (r : ℝ) (hr : 0 ≤ r) (n : ℕ) :
    presentValueFactor realMath r n = annuitySum r n := by
  rcases Nat.eq_zero_or_pos n with h0 | hn
  · subst h0
    simp [presentValueFactor, annuitySum]
  · have hn2 : ¬ ((n : ℝ) ≤ 0) := not_le.mpr (Nat.cast_pos.mpr hn)
    rcases eq_or_lt_of_le hr with hr0 | hrpos
    · subst hr0
      simp [presentValueFactor, annuitySum, hn2]
    · rw [annuitySum_closed r hrpos n]
      simp only [presentValueFactor, realMath, if_neg hn2, if_neg (not_le.mpr hrpos)]
      rw [Real.rpow_neg (by linarith), Real.rpow_natCast]

/-- Each term of the annuity sum lies between 0 and 1 when the rate is not negative. -/
theorem annuity_term_mem (r : ℝ) (hr : 0 ≤ r) (t : ℕ) :
    0 ≤ 1 / (1 + r) ^ (t + 1) ∧ 1 / (1 + r) ^ (t + 1) ≤ 1 := by
  have h1 : (1 : ℝ) ≤ (1 + r) ^ (t + 1) := one_le_pow₀ (by linarith)
  constructor
  · positivity
  · rw [div_le_one (by linarith)]
    exact h1

/-- Claim C30: for every natural number of years `n` and every rate `r > 0`,
`presentValueFactor(r, n)` equals the sum over `t = 1..n` of `1/(1+r)^t`, and for `r = 0`
it equals the same sum, which is `n`; consequently `presentValueFactor(r, n) <= n` and it
is non-decreasing in `n`. -/
theorem C30_presentValueFactor_annuity :
    (∀ (r : ℝ) (n : ℕ), 0 < r → presentValueFactor realMath r n = annuitySum r n)
      ∧ (∀ n : ℕ, presentValueFactor realMath 0 n = annuitySum 0 n
          ∧ presentValueFactor realMath 0 n = n)
      ∧ (∀ (r : ℝ) (n : ℕ), 0 ≤ r → presentValueFactor realMath r n ≤ n)
      ∧ (∀ (r : ℝ) (n m : ℕ), 0 ≤ r → n ≤ m →
          presentValueFactor realMath r n ≤ presentValueFactor realMath r m) := by
  refine ⟨fun r n hr => presentValueFactor_eq_annuitySum r (le_of_lt hr) n, ?_, ?_, ?_⟩
  · intro n
    refine ⟨presentValueFactor_eq_annuitySum 0 (le_refl 0) n, ?_⟩
    rw [presentValueFactor_eq_annuitySum 0 (le_refl 0) n]
    simp [annuitySum]
  · intro r n hr
    rw [presentValueFactor_eq_annuitySum r hr n]
    unfold annuitySum
    calc ∑ t in Finset.range n, 1 / (1 + r) ^ (t + 1)
        ≤ ∑ _t in Finset.range n, (1 : ℝ) :=
          Finset.sum_le_sum (fun t _ => (annuity_term_mem r hr t).2)
      _ = n := by simp
  · intro r n m hr hnm
    rw [presentValueFactor_eq_annuitySum r hr n, presentValueFactor_eq_annuitySum r hr m]
    unfold annuitySum
    exact Finset.sum_le_sum_of_subset_of_nonneg
      (Finset.range_subset.mpr hnm) (fun t _ _ => (annuity_term_mem r hr t).1)

/-- Witness for C30: three years at 3 percent. -/
theorem C30_presentValueFactor_annuity_witness :
    presentValueFactor realMath 0.03 (3 : ℕ)
        = 1 / (1 + 0.03) ^ 1 + 1 / (1 + 0.03) ^ 2 + 1 / (1 + 0.03) ^ 3
      ∧ presentValueFactor realMath 0.03 (3 : ℕ) ≤ (3 : ℕ) := by
  refine ⟨?_, C30_presentValueFactor_annuity.2.2.1 0.03 3 (by norm_num)⟩
  rw [C30_presentValueFactor_annuity.1 0.03 3 (by norm_num)]
  simp [annuitySum, Finset.sum_range_succ]

end AnnuityTheorems

/-! ## Portfolio rates: sum and bounds -/

section PortfolioRateTheorems

variable {K : Type} [LinearOrderedField K] [FloorRing K]

/-- The two rates of a returned tier result sum to 100. -/
theorem scenario_rates_sum (M : MathFns K) (settings : Settings K) (clock : Clock)
    (config : Config K) (s : ScenarioResult K)
    (h : computeScenario M settings clock config = some s) :
    s.endorseRate + s.optOutRate = 100 := by
  obtain ⟨-, he, ho, -⟩ := computeScenario_fields M settings clock config s h
  rw [he, ho]
  have hc := clamp_add_clamp_complement (endorseProb M config * 100)
  have e : (1 - endorseProb M config) * 100 = 100 - endorseProb M config * 100 := by ring
  simpa [computeEndorsementAndWTP, e] using hc

/-- For one key of a portfolio with non-negative cohort counts and sizes: the weight is
not negative, the weighted rates add up to 100 times the weight, and a bound on the
endorsement rate of a tier of positive weight carries over to the weighted rate. -/
theorem tier_key_weighted (M : MathFns K) (settings : Settings K) (clock : String → Clock)
    (tiers : PortfolioTiers K) (H : TiersKnown tiers)
    (hnn : ∀ k ∈ tierKeys, ∀ tc, tiers.get k = some tc →
      0 ≤ tc.cohorts ∧ 0 ≤ tc.traineesPerCohort)
    (k : String) (hk : k ∈ tierKeys) :
    0 ≤ tierWeight tiers k
      ∧ tierValue M settings clock tiers (fun s => s.endorseRate) k * tierWeight tiers k
          + tierValue M settings clock tiers (fun s => s.optOutRate) k * tierWeight tiers k
        = 100 * tierWeight tiers k
      ∧ (∀ lo hi : K,
          (∀ s, tierScenario M settings clock tiers k = some s → 0 < tierWeight tiers k →
            lo ≤ s.endorseRate ∧ s.endorseRate ≤ hi) →
          lo * tierWeight tiers k
              ≤ tierValue M settings clock tiers (fun s => s.endorseRate) k
                * tierWeight tiers k
            ∧ tierValue M settings clock tiers (fun s => s.endorseRate) k
                * tierWeight tiers k
              ≤ hi * tierWeight tiers k) := by
  rcases tier_cases M settings clock tiers H k hk with h | ⟨tc, s, h, hs⟩
  · have hw : tierWeight tiers k = 0 := by simp [tierWeight, h]
    rw [hw]
    refine ⟨le_refl 0, by ring, fun lo hi _ => ⟨by simp, by simp⟩⟩
  · have hts : tierScenario M settings clock tiers k = some s := by
      simp [tierScenario, h, hs]
    have hw : tierWeight tiers k = tc.cohorts * tc.traineesPerCohort := by
      simp [tierWeight, h]
    have hw0 : 0 ≤ tierWeight tiers k := by
      rw [hw]
      exact mul_nonneg (hnn k hk tc h).1 (hnn k hk tc h).2
    have hsum := scenario_rates_sum M settings (clock k) tc s hs
    have he : tierValue M settings clock tiers (fun s => s.endorseRate) k = s.endorseRate := by
      simp [tierValue, hts]
    have ho : tierValue M settings clock tiers (fun s => s.optOutRate) k = s.optOutRate := by
      simp [tierValue, hts]
    rw [he, ho]
    refine ⟨hw0, ?_, ?_⟩
    · rw [← add_mul, hsum]
    · intro lo hi hb
      rcases eq_or_lt_of_le hw0 with h0 | hpos
      · rw [← h0]
        simp
      · obtain ⟨h1, h2⟩ := hb s hts hpos
        exact ⟨mul_le_mul_of_nonneg_right h1 hw0, mul_le_mul_of_nonneg_right h2 hw0⟩

/-- Claim C28: for every portfolio whose tiers (each of one of the three kinds) have
non-negative `cohorts` and `traineesPerCohort`, the empty portfolio and portfolios of
total weight 0 included, the `endorseRate` and `optOutRate` returned by
`computePortfolioScenario` sum to exactly 100; and when the total weight is positive,
`endorseRate` lies between the smallest and the largest tier `endorseRate` among the
tiers of positive weight. -/
theorem C28_portfolio_rates (M : MathFns K) (settings : Settings K)
    (clock : String → Clock) (cfg : PortfolioConfig K) (H : TiersKnown cfg.portfolioTiers)
    (hnn : ∀ k ∈ tierKeys, ∀ tc, cfg.portfolioTiers.get k = some tc →
      0 ≤ tc.cohorts ∧ 0 ≤ tc.traineesPerCohort) :
    ∃ p, computePortfolioScenario M settings clock cfg = some p
      ∧ p.endorseRate + p.optOutRate = 100
      ∧ (0 < totalWeight cfg.portfolioTiers →
          ∀ lo hi : K,
            (∀ k ∈ tierKeys, ∀ s,
              tierScenario M settings clock cfg.portfolioTiers k = some s →
              0 < tierWeight cfg.portfolioTiers k →
              lo ≤ s.endorseRate ∧ s.endorseRate ≤ hi) →
            lo ≤ p.endorseRate ∧ p.endorseRate ≤ hi) := by
  obtain ⟨p, hp, -, -, -, -, -, -, he, ho, -⟩ :=
    computePortfolioScenario_spec M settings clock cfg H
  obtain ⟨f0, fs, fb⟩ := tier_key_weighted M settings clock cfg.portfolioTiers H hnn
    "frontline" (by simp [tierKeys])
  obtain ⟨i0, is, ib⟩ := tier_key_weighted M settings clock cfg.portfolioTiers H hnn
    "intermediate" (by simp [tierKeys])
  obtain ⟨a0, as, ab⟩ := tier_key_weighted M settings clock cfg.portfolioTiers H hnn
    "advanced" (by simp [tierKeys])
  have hW : totalWeight cfg.portfolioTiers
      = tierWeight cfg.portfolioTiers "frontline"
        + tierWeight cfg.portfolioTiers "intermediate"
        + tierWeight cfg.portfolioTiers "advanced" := by
    simp [totalWeight, tierKeys, add_assoc]
  have hE : ∀ f : ScenarioResult K → K,
      tierWeightedTotal M settings clock cfg.portfolioTiers f
        = tierValue M settings clock cfg.portfolioTiers f "frontline"
            * tierWeight cfg.portfolioTiers "frontline"
          + tierValue M settings clock cfg.portfolioTiers f "intermediate"
            * tierWeight cfg.portfolioTiers "intermediate"
          + tierValue M settings clock cfg.portfolioTiers f "advanced"
            * tierWeight cfg.portfolioTiers "advanced" := by
    intro f
    simp [tierWeightedTotal, tierKeys, add_assoc]
  refine ⟨p, hp, ?_, ?_⟩
  · by_cases hw : totalWeight cfg.portfolioTiers > 0
    · rw [he, ho, if_pos hw, if_pos hw, ← add_div, div_eq_iff (ne_of_gt hw), hE, hE, hW]
      linarith
    · rw [ho, he, if_neg hw, if_neg hw]
      simp
  · intro hw lo hi hb
    obtain ⟨f1, f2⟩ := fb lo hi (hb "frontline" (by simp [tierKeys]))
    obtain ⟨i1, i2⟩ := ib lo hi (hb "intermediate" (by simp [tierKeys]))
    obtain ⟨a1, a2⟩ := ab lo hi (hb "advanced" (by simp [tierKeys]))
    rw [he, if_pos hw, le_div_iff₀ hw, div_le_iff₀ hw, hE, hW]
    constructor <;> linarith

/-- Witness for C28: the example portfolio, whose tiers have non-negative cohort counts
and sizes. -/
theorem C28_portfolio_rates_witness :
    ∃ p, computePortfolioScenario realMath defaultEpiSettings exampleClock examplePortfolio
          = some p
      ∧ p.endorseRate + p.optOutRate = 100 := by
  obtain ⟨p, hp, hsum, -⟩ :=
    C28_portfolio_rates realMath defaultEpiSettings exampleClock
      (examplePortfolio : PortfolioConfig ℝ) examplePortfolio_known
      (by
        intro k hk tc h
        simp only [tierKeys, List.mem_cons, List.mem_singleton, List.not_mem_nil,
          or_false] at hk
        rcases hk with rfl | rfl | rfl <;>
          simp [PortfolioTiers.get, examplePortfolio] at h <;>
          subst h <;> norm_num [frontlineTier, intermediateTier])
  exact ⟨p, hp, hsum⟩

end PortfolioRateTheorems

/-! ## Unknown attribute values -/

section UnknownValueTheorems

variable {K : Type} [LinearOrderedField K]

/-- An attribute value that is not a key of its coefficient table has effect 0 in the
numeric model, the effect of the zero-coefficient level. -/
theorem effect_of_unknown :
    (∀ v : String, v ≠ "frontline" → v ≠ "intermediate" → v ≠ "advanced" →
        (tierEffect v : K) = 0 ∧ (tierEffect "frontline" : K) = 0)
      ∧ (∀ v : String, v ≠ "certificate" → v ≠ "uniqual" → v ≠ "career_path" →
        (careerEffect v : K) = 0 ∧ (careerEffect "certificate" : K) = 0)
      ∧ (∀ v : String, v ≠ "low" → v ≠ "medium" → v ≠ "high" →
        (mentorshipEffect v : K) = 0 ∧ (mentorshipEffect "low" : K) = 0)
      ∧ (∀ v : String, v ≠ "blended" → v ≠ "inperson" → v ≠ "online" →
        (deliveryEffect v : K) = 0 ∧ (deliveryEffect "blended" : K) = 0)
      ∧ (∀ v : String, v ≠ "30" → v ≠ "15" → v ≠ "7" →
        (responseEffect v : K) = 0 ∧ (responseEffect "30" : K) = 0) := by
  refine ⟨?_, ?_, ?_, ?_, ?_⟩ <;> intro v h1 h2 h3
  · constructor <;> norm_num [tierEffect, h1, h2, h3]
  · constructor <;> norm_num [careerEffect, h1, h2, h3]
  · constructor <;> norm_num [mentorshipEffect, h1, h2, h3]
  · constructor <;> norm_num [deliveryEffect, h1, h2, h3]
  · constructor <;> norm_num [responseEffect, h1, h2, h3]

/-- On configurations free of inherited property names, an unknown tier gives exactly
the result of the frontline tier. -/
theorem unknown_tier_as_frontline (M : MathFns K) (config : Config K) (v : String)
    (h1 : v ≠ "frontline") (h2 : v ≠ "intermediate") (h3 : v ≠ "advanced")
    (hv : v ∉ objectPrototypeKeys)
    (hfree : usesInheritedKey { config with tier := "frontline" } = false) :
    computeEndorsementAndWTPValue M { config with tier := v }
      = computeEndorsementAndWTPValue M { config with tier := "frontline" } := by
  have hfree2 : usesInheritedKey { config with tier := v } = false := by
    simp only [usesInheritedKey, Bool.or_eq_false_iff, decide_eq_false_iff_not] at hfree ⊢
    exact ⟨⟨⟨⟨hv, hfree.1.1.1.2⟩, hfree.1.1.2⟩, hfree.1.2⟩, hfree.2⟩
  have ht : (tierEffect v : K) = tierEffect "frontline" := by
    norm_num [tierEffect, h1, h2, h3]
  simp only [computeEndorsementAndWTPValue, hfree, hfree2, computeEndorsementAndWTP,
    endorseProb, utilProgram, nonCostUtility, ht]

/-- Evaluation for C21 at the failing input: with `tier = "constructor"`, a value that is
not a key of the coefficient table, `computeEndorsementAndWTP` returns the fallback rates
50 and 50 and a `NaN` willingness to pay, while with the zero-coefficient level
`frontline` in its place the willingness to pay is the number 199,800; the two results
differ. -/
theorem C21_inherited_key_not_zero_effect :
    computeEndorsementAndWTPValue realMath
        { (exampleConfig : Config ℝ) with tier := "constructor" }
        = { endorseRate := 50, optOutRate := 50, wtpPerTraineePerMonth := JSNum.nan }
      ∧ (computeEndorsementAndWTPValue realMath
          { (exampleConfig : Config ℝ) with tier := "frontline" }).wtpPerTraineePerMonth
        = JSNum.fin 199800
      ∧ computeEndorsementAndWTPValue realMath
          { (exampleConfig : Config ℝ) with tier := "constructor" }
        ≠ computeEndorsementAndWTPValue realMath
          { (exampleConfig : Config ℝ) with tier := "frontline" } := by
  have hu : usesInheritedKey { (exampleConfig : Config ℝ) with tier := "constructor" }
      = true := by decide
  have hf : usesInheritedKey { (exampleConfig : Config ℝ) with tier := "frontline" }
      = false := by decide
  have h1 : computeEndorsementAndWTPValue realMath
      { (exampleConfig : Config ℝ) with tier := "constructor" }
      = { endorseRate := 50, optOutRate := 50, wtpPerTraineePerMonth := JSNum.nan } := by
    simp only [computeEndorsementAndWTPValue, hu, if_true, clamp]
    norm_num
  have habs : |(costPerThousand : ℝ)| = 0.005 := by
    unfold costPerThousand
    rw [abs_of_neg (by norm_num)]
    norm_num
  have h2 : (computeEndorsementAndWTPValue realMath
      { (exampleConfig : Config ℝ) with tier := "frontline" }).wtpPerTraineePerMonth
      = JSNum.fin 199800 := by
    simp only [computeEndorsementAndWTPValue, hf, computeEndorsementAndWTP, nonCostUtility,
      habs]
    simp [exampleConfig, ascProgram, tierEffect, careerEffect, mentorshipEffect,
      deliveryEffect, responseEffect]
    norm_num
  refine ⟨h1, h2, ?_⟩
  intro h
  have h3 := congrArg PreferenceValue.wtpPerTraineePerMonth h
  rw [h1, h2] at h3
  cases h3

end UnknownValueTheorems

/-! ## Benefit-cost ratio of the aggregation helpers -/

section BcrHelperTheorems

variable {K : Type} [LinearOrderedField K]

/-- Evaluation for C24 at the failing input: for a saved scenario whose total cost is 0,
`safeBcr`, the `bcr` of `aggregateScenarioSet` and the `natBcr` of
`aggregateShortlistedScenario` are all the number 0; none of them is a sentinel. -/
theorem C24_helpers_return_zero :
    safeBcr (zeroCostScenario : SavedScenario ℚ) = 0
      ∧ (aggregateScenarioSet [(zeroCostScenario : SavedScenario ℚ)]).totalEconomicCost = 0
      ∧ (aggregateScenarioSet [(zeroCostScenario : SavedScenario ℚ)]).bcr = 0
      ∧ (aggregateShortlistedScenario [(zeroCostScenario : SavedScenario ℚ)] [0]).map
          (fun a => (a.natTotalCost, a.natBcr)) = some (0, 0) := by
  refine ⟨?_, ?_, ?_, ?_⟩
  · simp [safeBcr, zeroCostScenario, coalesce]
  · simp [aggregateScenarioSet, zeroCostScenario, coalesce]
  · simp [aggregateScenarioSet, zeroCostScenario, coalesce]
  · simp [aggregateShortlistedScenario, shortlistIndices, shortlistStep, zeroCostScenario,
      orTruthy]

/-- Whatever the saved scenario, `safeBcr` of a non-positive cost is the number 0. -/
theorem safeBcr_of_nonpos (s : SavedScenario K)
    (h : coalesce s.totalEconomicCostAllCohorts s.natTotalCost ≤ 0) :
    safeBcr s = 0 := by
  simp only [safeBcr, if_neg (not_lt.mpr h)]

end BcrHelperTheorems

/-! ## Settings form: range invariant -/

section SettingsRangeTheorems

variable {K : Type} [LinearOrderedField K]

/-- A clamp lies between its bounds. -/
theorem clamp_mem (x lo hi : K) (h : lo ≤ hi) : lo ≤ clamp x lo hi ∧ clamp x lo hi ≤ hi := by
  unfold clamp
  exact ⟨le_min (le_max_right _ _) h, min_le_right _ _⟩

/-- Updating every tier with a map that keeps a tier in range keeps the closed-range
invariant. -/
theorem applyToAllTiers_preserves (fn : TierSettings K → TierSettings K) (s : Settings K)
    (hfn : ∀ t, TierInRange t → TierInRange (fn t)) (h : SettingsInClosedRange s) :
    SettingsInClosedRange (applyToAllTiers fn s) := by
  obtain ⟨hp, hd0, hd1, hf, hi, ha⟩ := h
  exact ⟨hp, hd0, hd1, hfn _ hf, hfn _ hi, hfn _ ha⟩

/-- The default settings satisfy the range invariant of the data model. -/
theorem defaultEpiSettings_inRange : SettingsInRange (defaultEpiSettings : Settings K) := by
  simp only [SettingsInRange, TierInRange, defaultEpiSettings]
  norm_num

end SettingsRangeTheorems

section SettingsFormTheorems

variable {K : Type} [LinearOrderedField K] [FloorRing K]

/-- Rounding a number of at least one half gives a positive whole number. -/
theorem mathRound_pos (v : K) (h : 1 / 2 ≤ v) : 0 < mathRound v := by
  unfold mathRound
  have h1 : (1 : ℤ) ≤ ⌊v + 1 / 2⌋ := by
    rw [Int.le_floor]
    push_cast
    linarith
  have h2 : (0 : ℤ) < ⌊v + 1 / 2⌋ := by linarith
  exact_mod_cast h2

/-- The seven branches keep the closed-range invariant; the planning-horizon branch
provided an accepted value does not round to 0. -/
theorem branches_preserve (st : SettingsState K) (h : SettingsInClosedRange st.epiSettings) :
    (∀ num : JSNum K, (∀ v : K, num = JSNum.fin v → 0 < v → 1 / 2 ≤ v) →
        SettingsInClosedRange (setPlanningHorizon st num).epiSettings)
      ∧ (∀ num : JSNum K, SettingsInClosedRange (setDiscountRate st num).epiSettings)
      ∧ (∀ num : JSNum K, SettingsInClosedRange (setUsdRate st num).epiSettings)
      ∧ (∀ raw : FormValue K, SettingsInClosedRange (setOutbreakValue st raw).epiSettings)
      ∧ (∀ num : JSNum K, SettingsInClosedRange (setCompletionRate st num).epiSettings)
      ∧ (∀ num : JSNum K, SettingsInClosedRange (setOutbreaksPerGraduate st num).epiSettings)
      ∧ (∀ num : JSNum K, SettingsInClosedRange (setGraduateValue st num).epiSettings) := by
  have hall : ∀ fn : TierSettings K → TierSettings K,
      (∀ t, TierInRange t → TierInRange (fn t)) →
      SettingsInClosedRange (applyToAllTiers fn st.epiSettings) :=
    fun fn hfn => applyToAllTiers_preserves fn st.epiSettings hfn h
  have hc := clamp_mem (K := K)
  have hbyNumber : ∀ num : JSNum K,
      SettingsInClosedRange (setOutbreakValueByNumber st num).epiSettings := by
    intro num
    cases num <;> simp only [setOutbreakValueByNumber] <;> try exact h
    split_ifs with hpos hlt
    · exact hall _ (fun t ht =>
        ⟨ht.1, ht.2.1, ht.2.2.1, mul_nonneg (le_of_lt hpos) (by norm_num), ht.2.2.2.2⟩)
    · exact hall _ (fun t ht => ⟨ht.1, ht.2.1, ht.2.2.1, le_of_lt hpos, ht.2.2.2.2⟩)
    · exact h
  obtain ⟨hp, hd0, hd1, hf, hi, ha⟩ := h
  refine ⟨?_, ?_, ?_, ?_, ?_, ?_, ?_⟩
  · intro num hr
    cases num <;> simp only [setPlanningHorizon] <;> try exact ⟨hp, hd0, hd1, hf, hi, ha⟩
    split_ifs with hpos
    · exact ⟨mathRound_pos _ (hr _ rfl hpos), hd0, hd1, hf, hi, ha⟩
    · exact ⟨hp, hd0, hd1, hf, hi, ha⟩
  · intro num
    cases num <;> simp only [setDiscountRate] <;> try exact ⟨hp, hd0, hd1, hf, hi, ha⟩
    split_ifs with hpos
    all_goals first
      | exact ⟨hp, (hc _ 0 1 zero_le_one).1, (hc _ 0 1 zero_le_one).2, hf, hi, ha⟩
      | exact ⟨hp, hd0, hd1, hf, hi, ha⟩
  · intro num
    cases num <;> simp only [setUsdRate] <;> try exact ⟨hp, hd0, hd1, hf, hi, ha⟩
    split_ifs with hpos
    · exact ⟨hp, hd0, hd1, hf, hi, ha⟩
    · exact ⟨hp, hd0, hd1, hf, hi, ha⟩
  · intro raw
    obtain ⟨num, inr⟩ := raw
    cases inr <;> simp only [setOutbreakValue] <;> try exact hbyNumber num
    split_ifs with hpos
    · exact hall _ (fun t ht => ⟨ht.1, ht.2.1, ht.2.2.1, le_of_lt hpos, ht.2.2.2.2⟩)
    · exact hbyNumber num
  · intro num
    cases num <;> simp only [setCompletionRate] <;> try exact ⟨hp, hd0, hd1, hf, hi, ha⟩
    split_ifs with hpos
    all_goals first
      | exact hall _ (fun t ht => ⟨(hc _ 0 1 zero_le_one).1, (hc _ 0 1 zero_le_one).2,
          ht.2.2.1, ht.2.2.2.1, ht.2.2.2.2⟩)
      | exact ⟨hp, hd0, hd1, hf, hi, ha⟩
  · intro num
    cases num <;> simp only [setOutbreaksPerGraduate] <;>
      try exact ⟨hp, hd0, hd1, hf, hi, ha⟩
    split_ifs with hpos
    · exact hall _ (fun t ht => ⟨ht.1, ht.2.1, hpos, ht.2.2.2.1, ht.2.2.2.2⟩)
    · exact ⟨hp, hd0, hd1, hf, hi, ha⟩
  · intro num
    cases num <;> simp only [setGraduateValue] <;> try exact ⟨hp, hd0, hd1, hf, hi, ha⟩
    split_ifs with hpos
    · exact hall _ (fun t ht => ⟨ht.1, ht.2.1, ht.2.2.1, ht.2.2.2.1, hpos⟩)
    · exact ⟨hp, hd0, hd1, hf, hi, ha⟩

/-- One submitted entry keeps the closed-range invariant, provided an accepted planning
horizon does not round to 0. -/
theorem applySettingsValue_preserves (st : SettingsState K) (entry : String × FormValue K)
    (h : SettingsInClosedRange st.epiSettings) (hr : HorizonRoundsUp entry) :
    SettingsInClosedRange (applySettingsValue st entry).epiSettings := by
  obtain ⟨b1, b2, b3, b4, b5, b6, b7⟩ := branches_preserve st h
  unfold applySettingsValue
  dsimp only
  split_ifs with c1
  · exact b1 _ (hr c1)
  · exact b2 _
  · exact b3 _
  · exact b4 _
  · exact b5 _
  · exact b6 _
  · exact b7 _
  · exact h

/-- A list of submitted entries keeps the closed-range invariant. -/
theorem foldl_applySettingsValue_preserves (entries : List (String × FormValue K))
    (st : SettingsState K) (h : SettingsInClosedRange st.epiSettings)
    (hr : ∀ e ∈ entries, HorizonRoundsUp e) :
    SettingsInClosedRange (entries.foldl applySettingsValue st).epiSettings := by
  induction entries generalizing st with
  | nil => exact h
  | cons e rest ih =>
    rw [List.foldl_cons]
    exact ih _ (applySettingsValue_preserves st e h (hr e (List.mem_cons_self _ _)))
      (fun e2 he2 => hr e2 (List.mem_cons_of_mem _ he2))

/-- Claim C23, amended: `applySettingsValuesToState` preserves the range invariant with
the discount rate in the closed interval: starting from settings with
`planningHorizonYears > 0`, `epiDiscountRate` in `[0, 1]`, every tier `completionRate` in
`[0, 1]` and `outbreaksPerGraduatePerYear`, `valuePerOutbreak`, `valuePerGraduate` not
negative, applying any map of submitted form values in which every accepted planning
horizon is at least one half leaves settings in the same ranges. -/
theorem C23_settings_range_preserved (values : Option (List (String × FormValue K)))
    (st : SettingsState K) (h : SettingsInClosedRange st.epiSettings)
    (hr : ∀ entries, values = some entries → ∀ e ∈ entries, HorizonRoundsUp e) :
    SettingsInClosedRange (applySettingsValuesToState values st).epiSettings := by
  cases values with
  | none => exact h
  | some entries =>
    exact foldl_applySettingsValue_preserves entries st h (hr entries rfl)

/-- The key `discountRate` selects the discount branch, not the planning-horizon one. -/
theorem discountRate_key :
    includes (toLowerCase "discountRate") "planning" = false
      ∧ includes (toLowerCase "discountRate") "discount" = true := by
  unfold includes
  constructor <;> decide

/-- A submitted discount rate of 100 sets the stored rate to 1. -/
theorem discountEntry_result :
    (applySettingsValuesToState (some [(discountEntry : String × FormValue K)])
        defaultState).epiSettings.general.epiDiscountRate = 1 := by
  simp only [applySettingsValuesToState, List.foldl_cons, List.foldl_nil, applySettingsValue,
    discountEntry, discountRate_key.1, discountRate_key.2, Bool.false_and, if_true,
    setDiscountRate]
  simp [clamp]

/-- Witness for C23: the default settings after a submitted discount rate of 100. -/
theorem C23_settings_range_preserved_witness :
    SettingsInClosedRange
      (applySettingsValuesToState (some [(discountEntry : String × FormValue ℚ)])
        defaultState).epiSettings := by
  have h0 := defaultEpiSettings_inRange (K := ℚ)
  refine C23_settings_range_preserved (some [discountEntry]) defaultState
    ⟨h0.1, h0.2.1, le_of_lt h0.2.2.1, h0.2.2.2⟩ ?_
  intro entries he e hmem
  cases he
  rw [List.mem_singleton] at hmem
  subst hmem
  intro hkey
  simp [discountEntry, discountRate_key.1] at hkey

/-- Counterexample for C23 as stated: the default settings are in range, and after a
submitted discount rate of 100 the stored rate is 1, outside `[0, 1)`. -/
theorem C23_discount_rate_reaches_one :
    SettingsInRange (defaultState : SettingsState ℚ).epiSettings
      ∧ ¬ SettingsInRange
          (applySettingsValuesToState (some [(discountEntry : String × FormValue ℚ)])
            defaultState).epiSettings := by
  refine ⟨defaultEpiSettings_inRange, ?_⟩
  intro h
  have h1 := h.2.2.1
  rw [discountEntry_result] at h1
  exact lt_irrefl _ h1

/-- The key `planningHorizonYears` selects the planning-horizon branch. -/
theorem planningHorizon_key :
    (includes (toLowerCase "planningHorizonYears") "planning"
      && includes (toLowerCase "planningHorizonYears") "horizon") = true := by
  unfold includes
  decide

/-- A submitted planning horizon of 0.4 passes the guard `v > 0` and is rounded to 0. -/
theorem shortHorizon_result :
    (applySettingsValuesToState (some [(shortHorizonEntry : String × FormValue ℚ)])
        defaultState).epiSettings.general.planningHorizonYears = 0 := by
  have hfl : ⌊(0.4 : ℚ) + 1 / 2⌋ = 0 := by
    rw [Int.floor_eq_iff]
    constructor <;> norm_num
  simp only [applySettingsValuesToState, List.foldl_cons, List.foldl_nil, applySettingsValue,
    shortHorizonEntry, planningHorizon_key, if_true, setPlanningHorizon, mathRound]
  rw [if_pos (by norm_num), hfl]
  norm_num

end SettingsFormTheorems

/-! ## Response-time multiplier: values outside the table -/

section ResponseValueTheorems

variable {K : Type} [LinearOrderedField K]

/-- For a response value that is not the name of an inherited property, the multiplier
is the number given by `responseTimeMultiplier`. -/
theorem respMultiplierValue_of_not_inherited (r : String) (h : r ∉ objectPrototypeKeys) :
    (respMultiplierValue r : JSNum K) = JSNum.fin (responseTimeMultiplier r) := by
  unfold respMultiplierValue responseTimeMultiplier
  split_ifs <;> rfl

/-- For a response value that is the name of an inherited property, the multiplier is
not a number. -/
theorem respMultiplierValue_of_inherited (r : String) (h : r ∈ objectPrototypeKeys) :
    (respMultiplierValue r : JSNum K) = JSNum.nan := by
  have h30 : r ≠ "30" := by rintro rfl; revert h; decide
  have h15 : r ≠ "15" := by rintro rfl; revert h; decide
  have h7 : r ≠ "7" := by rintro rfl; revert h; decide
  simp only [respMultiplierValue, if_neg h30, if_neg h15, if_neg h7, if_pos h]

/-- The multiplier table: 1.0, 1.2 and 1.5 for the three keys, and the default 1 for
every other value that is not the name of an inherited property. -/
theorem respMultiplierValue_table :
    (respMultiplierValue "30" : JSNum K) = JSNum.fin 1.0
      ∧ (respMultiplierValue "15" : JSNum K) = JSNum.fin 1.2
      ∧ (respMultiplierValue "7" : JSNum K) = JSNum.fin 1.5
      ∧ (∀ r : String, r ≠ "30" → r ≠ "15" → r ≠ "7" → r ∉ objectPrototypeKeys →
          (respMultiplierValue r : JSNum K) = JSNum.fin 1) := by
  refine ⟨?_, ?_, ?_, ?_⟩
  · simp [respMultiplierValue]
  · simp [respMultiplierValue]
  · simp [respMultiplierValue]
  · intro r h1 h2 h3 h
    simp only [respMultiplierValue, if_neg h1, if_neg h2, if_neg h3, if_neg h]

/-- On a configuration whose response value is not the name of an inherited property,
`computeEpidemiological` returns the numbers of the numeric model. -/
theorem computeEpidemiologicalValue_of_not_inherited (M : MathFns K) (settings : Settings K)
    (config : Config K) (endorseRate : K) (h : config.response ∉ objectPrototypeKeys) :
    computeEpidemiologicalValue M settings config endorseRate
      = (computeEpidemiological M settings config endorseRate).map Epi.toValue := by
  unfold computeEpidemiologicalValue computeEpidemiological
  cases settings.tiers config.tier with
  | none => rfl
  | some ts =>
    simp only [respMultiplierValue_of_not_inherited _ h, JSNum.scale, JSNum.times, JSNum.plus,
      Option.map, Epi.toValue]

/-- On a configuration of a tier with settings entry `ts` whose response value is the
name of an inherited property, `computeEpidemiological` returns the graduates of the
numeric model, and `NaN` for both outbreak counts, the outbreak benefit and the total
benefit. -/
theorem computeEpidemiologicalValue_of_inherited (M : MathFns K) (settings : Settings K)
    (config : Config K) (endorseRate : K) (ts : TierSettings K)
    (hts : settings.tiers config.tier = some ts) (h : config.response ∈ objectPrototypeKeys) :
    ∃ v, computeEpidemiologicalValue M settings config endorseRate = some v
      ∧ v.completionRate
          = effectiveCompletionRate ts.completionRate config.completionRateOverride
      ∧ v.graduatesPerCohort
          = config.traineesPerCohort * v.completionRate * (endorseRate / 100)
      ∧ v.graduatesAllCohorts = v.graduatesPerCohort * config.cohorts
      ∧ v.outbreaksPerYearPerCohort = JSNum.nan
      ∧ v.outbreaksPerYearNational = JSNum.nan
      ∧ v.outbreakPVPerCohort = JSNum.nan
      ∧ v.epiBenefitPerCohort = JSNum.nan := by
  simp only [computeEpidemiologicalValue, hts, respMultiplierValue_of_inherited _ h,
    JSNum.scale, JSNum.times, JSNum.plus]
  exact ⟨_, rfl, rfl, rfl, rfl, rfl, rfl, rfl, rfl⟩

/-- For every configuration of one of the three tiers whose response value is not the
name of an inherited property, `computeEpidemiological` returns numbers:
`graduatesPerCohort = traineesPerCohort × completionRate × (endorseRate/100)`,
`graduatesAllCohorts = graduatesPerCohort × cohorts`, `outbreaksPerYearPerCohort =
graduatesPerCohort × outbreaksPerGraduatePerYear × response multiplier` and
`outbreaksPerYearNational = outbreaksPerYearPerCohort × cohorts`. -/
theorem epi_value_of_plain_response (M : MathFns K) (settings : Settings K)
    (config : Config K) (endorseRate : K) (ht : config.tier ∈ tierKeys)
    (h : config.response ∉ objectPrototypeKeys) :
    ∃ v ts, settings.tiers config.tier = some ts
      ∧ computeEpidemiologicalValue M settings config endorseRate = some v
      ∧ v.graduatesPerCohort
          = config.traineesPerCohort * v.completionRate * (endorseRate / 100)
      ∧ v.graduatesAllCohorts = v.graduatesPerCohort * config.cohorts
      ∧ v.outbreaksPerYearPerCohort
          = JSNum.fin (v.graduatesPerCohort * ts.outbreaksPerGraduatePerYear
              * responseTimeMultiplier config.response)
      ∧ v.outbreaksPerYearNational
          = JSNum.fin (v.graduatesPerCohort * ts.outbreaksPerGraduatePerYear
              * responseTimeMultiplier config.response * config.cohorts) := by
  obtain ⟨epi, ts, hts, hepi, hg, hga, ho, hon, -⟩ :=
    epi_graduates_and_outbreaks M settings config endorseRate ht
  refine ⟨epi.toValue, ts, hts, ?_, hg, hga, ?_, ?_⟩
  · rw [computeEpidemiologicalValue_of_not_inherited _ _ _ _ h, hepi]
    rfl
  · show JSNum.fin epi.outbreaksPerYearPerCohort = _
    rw [ho]
    rfl
  · show JSNum.fin epi.outbreaksPerYearNational = _
    rw [hon, ho]
    rfl

/-- Evaluation for C13 at the failing input: under the default settings and at an
endorsement rate of 80, the worked example with `response = "toString"`, a value other
than 30, 15 and 7, has 18 graduates per cohort, and `computeEpidemiological` returns
`NaN` for `outbreaksPerYearPerCohort`, `outbreaksPerYearNational` and
`epiBenefitPerCohort`; the multiplier is not the default 1.  With the unknown value
`"60"` in its place the default applies: 18 × 0.5 × 1 = 9 outbreak responses per year
per cohort and 90 nationally. -/
theorem C13_inherited_response_not_default :
    (computeEpidemiologicalValue realMath defaultEpiSettings
        { (exampleConfig : Config ℝ) with response := "toString" } 80).map
        (fun v => (v.graduatesPerCohort, v.outbreaksPerYearPerCohort,
          v.outbreaksPerYearNational, v.epiBenefitPerCohort))
        = some (18, JSNum.nan, JSNum.nan, JSNum.nan)
      ∧ (computeEpidemiologicalValue realMath defaultEpiSettings
          { (exampleConfig : Config ℝ) with response := "60" } 80).map
          (fun v => (v.graduatesPerCohort, v.outbreaksPerYearPerCohort,
            v.outbreaksPerYearNational))
        = some (18, JSNum.fin 9, JSNum.fin 90)
      ∧ (respMultiplierValue "toString" : JSNum ℝ) = JSNum.nan
      ∧ (respMultiplierValue "toString" : JSNum ℝ) ≠ JSNum.fin 1
      ∧ (respMultiplierValue "60" : JSNum ℝ) = JSNum.fin 1 := by
  have hn : (respMultiplierValue "toString" : JSNum ℝ) = JSNum.nan := by
    simp [respMultiplierValue, objectPrototypeKeys]
  have h60 : (respMultiplierValue "60" : JSNum ℝ) = JSNum.fin 1 := by
    simp [respMultiplierValue, objectPrototypeKeys]
  have hc : effectiveCompletionRate (9 / 10 : ℝ) JSNum.absent = 9 / 10 := by
    simp only [effectiveCompletionRate]
    norm_num
  refine ⟨?_, ?_, hn, ?_, h60⟩
  · simp only [computeEpidemiologicalValue, Settings.tiers, exampleConfig, defaultEpiSettings,
      hn, JSNum.scale, JSNum.times, JSNum.plus, Option.map]
    norm_num [hc]
  · simp only [computeEpidemiologicalValue, Settings.tiers, exampleConfig, defaultEpiSettings,
      h60, JSNum.scale, JSNum.times, JSNum.plus, Option.map]
    norm_num [hc]
  · rw [hn]
    intro h
    cases h

end ResponseValueTheorems

end Steps
